import Mathlib

/-!
# Xen Crashdump Analyser: the x86_64 physical-CPU state machine

A shallow embedding of `src/arch/x86_64/pcpu.cpp`:

* `parse_pr_status`, `parse_xen_crash_core`: the two crash-note parsers;
* `decode_extended_state`: the inference of the VCPU context of a PCPU;
* `print_stack`: the stack walker, with its word loop `walk_words`;
* `print_state`: its report of the VCPU context, `print_state_vcpu_context`;

and of the 64-bit symbol table decoder declared in
`include/sym64-table-decoders.hpp`.

Machine integers are natural numbers, reduced modulo `2 ^ w` where a value is
stored in a `w`-bit field.  Owned pointers (`vcpu`, `ctx_from`, `ctx_to`) are
`Option`s: `none` is the null pointer, `some v` points to the object `v`.
Exceptions (`std::bad_alloc`, the ones caught by `CATCH_COMMON`) are explicit
failure branches.  Every call into a collaborator (memory reader, address
validation, allocator, VCPU parser) is recorded in a trace of `Event`s, so that
"what the function did" can be stated next to "what the function returned".
-/

namespace XenCrashdump

/-! ## Machine integers -/

/-- Narrowing of a value to an unsigned 64-bit field (`uint64_t`). -/
def u64 (x : Nat) : Nat := x % 2 ^ 64

/-- Narrowing of a value to an unsigned 32-bit field (`uint32_t`). -/
def u32 (x : Nat) : Nat := x % 2 ^ 32

/-- Narrowing of a value to an unsigned 16-bit field (`uint16_t`). -/
def u16 (x : Nat) : Nat := x % 2 ^ 16

/-! ## Data model -/

/-- Register snapshot `x86_64regs` of one CPU.  The type comes from
`arch/x86_64/structures.hpp`; the fields are the ones `pcpu.cpp` assigns and
prints.  The segment selectors are 16-bit (`print_state` prints them with
`PRIx16`), every other register is 64-bit. -/
structure x86_64regs where
  r15 : Nat
  r14 : Nat
  r13 : Nat
  r12 : Nat
  rbp : Nat
  rbx : Nat
  r11 : Nat
  r10 : Nat
  r9 : Nat
  r8 : Nat
  rax : Nat
  rcx : Nat
  rdx : Nat
  rsi : Nat
  rdi : Nat
  orig_rax : Nat
  rip : Nat
  cs : Nat
  rflags : Nat
  rsp : Nat
  ds : Nat
  es : Nat
  ss : Nat
  fs : Nat
  gs : Nat
  cr0 : Nat
  cr2 : Nat
  cr3 : Nat
  cr4 : Nat
deriving DecidableEq, Repr

/-- The all-zero register snapshot: `memset(&this->regs, 0, sizeof this->regs)`
in the constructor of `x86_64PCPU`. -/
def x86_64regs.zero : x86_64regs :=
  { r15 := 0, r14 := 0, r13 := 0, r12 := 0, rbp := 0, rbx := 0, r11 := 0, r10 := 0,
    r9 := 0, r8 := 0, rax := 0, rcx := 0, rdx := 0, rsi := 0, rdi := 0, orig_rax := 0,
    rip := 0, cs := 0, rflags := 0, rsp := 0, ds := 0, es := 0, ss := 0, fs := 0,
    gs := 0, cr0 := 0, cr2 := 0, cr3 := 0, cr4 := 0 }

/-- Runstate tag of a VCPU (`VCPU::RST_*`).  `pcpu.cpp` assigns `RST_NONE`,
`RST_RUNNING` and `RST_CTX_SWITCH`; `RST_UNKNOWN` stands for the value a VCPU
has before any of them is assigned. -/
inductive VCPURunstate where
  | RST_UNKNOWN
  | RST_NONE
  | RST_RUNNING
  | RST_CTX_SWITCH
deriving DecidableEq, Repr

/-- Modelled from the spec: class `x86_64VCPU` (`arch/x86_64/vcpu.hpp` is not
among the sources).  Spec §3: identity (`domid`, `vcpu_id`, `processor`), a
runstate tag, and its own register snapshot with its group bits. -/
structure x86_64VCPU where
  domid : Nat
  vcpu_id : Nat
  processor : Nat
  runstate : VCPURunstate
  regs : x86_64regs
  flags : Nat
deriving DecidableEq, Repr

/-- The values of `x86_64PCPU::vcpu_state`, as listed by the `switch` of
`print_state`. -/
inductive VcpuState where
  | CTX_UNKNOWN
  | CTX_NONE
  | CTX_IDLE
  | CTX_RUNNING
  | CTX_SWITCH
deriving DecidableEq, Repr

/-- State of one `x86_64PCPU` object. -/
structure x86_64PCPU where
  regs : x86_64regs
  flags : Nat
  processor_id : Nat
  per_cpu_offset : Nat
  current_vcpu_ptr : Nat
  per_cpu_current_vcpu_ptr : Nat
  vcpu_state : VcpuState
  vcpu : Option x86_64VCPU
  ctx_from : Option x86_64VCPU
  ctx_to : Option x86_64VCPU
deriving DecidableEq, Repr

/-- View of a PCPU through `const CPU &`: what the memory reader and the VCPU
parser can use of it is `pagetable_walk`, which depends on `regs.cr3` only
(`x86_64PCPU::pagetable_walk`). -/
structure CPU where
  cr3 : Nat
deriving DecidableEq, Repr

/-- The cast `*static_cast<const CPU*>(this)`. -/
def x86_64PCPU.asCPU (p : x86_64PCPU) : CPU := { cr3 := p.regs.cr3 }

/-! ## Crash notes -/

/-- The core-state note `ELF_Prstatus` as seen through the cast
`(ELF_Prstatus *)buff`: the array `pr_reg` of saved registers. -/
structure ELF_Prstatus where
  pr_reg : Nat → Nat

/-- The Xen crash note `x86_64_crash_xen_core_t` as seen through the cast of the
buffer: the four control registers the parser reads. -/
structure x86_64_crash_xen_core_t where
  cr0 : Nat
  cr2 : Nat
  cr3 : Nat
  cr4 : Nat
deriving DecidableEq, Repr

/-- Constants of the note layouts and of the flags word.  Their definitions
(`PR_REG_*`, the two `sizeof`s, `CPU_*_STATE`) live in headers outside
`pcpu.cpp`, so they are parameters of the model. -/
structure NoteLayout where
  sizeof_ELF_Prstatus : Nat
  sizeof_x86_64_crash_xen_core_t : Nat
  CPU_CORE_STATE : Nat
  CPU_EXTD_STATE : Nat
  CPU_STACK_STATE : Nat
  PR_REG_r15 : Nat
  PR_REG_r14 : Nat
  PR_REG_r13 : Nat
  PR_REG_r12 : Nat
  PR_REG_rbp : Nat
  PR_REG_rbx : Nat
  PR_REG_r11 : Nat
  PR_REG_r10 : Nat
  PR_REG_r9 : Nat
  PR_REG_r8 : Nat
  PR_REG_rax : Nat
  PR_REG_rcx : Nat
  PR_REG_rdx : Nat
  PR_REG_rsi : Nat
  PR_REG_rdi : Nat
  PR_REG_orig_rax : Nat
  PR_REG_rip : Nat
  PR_REG_cs : Nat
  PR_REG_rflags : Nat
  PR_REG_rsp : Nat
  PR_REG_ds : Nat
  PR_REG_es : Nat
  PR_REG_ss : Nat
  PR_REG_fs : Nat
  PR_REG_gs : Nat

/-- `x86_64PCPU::parse_pr_status(buff, len)`: the returned flag and the PCPU
afterwards.  `ptr` is the buffer seen as an `ELF_Prstatus`. -/
def parse_pr_status (K : NoteLayout) (p : x86_64PCPU) (ptr : ELF_Prstatus) (len : Nat) :
    Bool × x86_64PCPU :=
  if len ≠ K.sizeof_ELF_Prstatus then
    (false, p)
  else
    (true,
      { p with
        regs :=
          { p.regs with
            r15 := u64 (ptr.pr_reg K.PR_REG_r15)
            r14 := u64 (ptr.pr_reg K.PR_REG_r14)
            r13 := u64 (ptr.pr_reg K.PR_REG_r13)
            r12 := u64 (ptr.pr_reg K.PR_REG_r12)
            rbp := u64 (ptr.pr_reg K.PR_REG_rbp)
            rbx := u64 (ptr.pr_reg K.PR_REG_rbx)
            r11 := u64 (ptr.pr_reg K.PR_REG_r11)
            r10 := u64 (ptr.pr_reg K.PR_REG_r10)
            r9 := u64 (ptr.pr_reg K.PR_REG_r9)
            r8 := u64 (ptr.pr_reg K.PR_REG_r8)
            rax := u64 (ptr.pr_reg K.PR_REG_rax)
            rcx := u64 (ptr.pr_reg K.PR_REG_rcx)
            rdx := u64 (ptr.pr_reg K.PR_REG_rdx)
            rsi := u64 (ptr.pr_reg K.PR_REG_rsi)
            rdi := u64 (ptr.pr_reg K.PR_REG_rdi)
            orig_rax := u64 (ptr.pr_reg K.PR_REG_orig_rax)
            rip := u64 (ptr.pr_reg K.PR_REG_rip)
            cs := u16 (ptr.pr_reg K.PR_REG_cs)
            rflags := u64 (ptr.pr_reg K.PR_REG_rflags)
            rsp := u64 (ptr.pr_reg K.PR_REG_rsp)
            ds := u16 (ptr.pr_reg K.PR_REG_ds)
            es := u16 (ptr.pr_reg K.PR_REG_es)
            ss := u16 (ptr.pr_reg K.PR_REG_ss)
            fs := u16 (ptr.pr_reg K.PR_REG_fs)
            gs := u16 (ptr.pr_reg K.PR_REG_gs) }
        flags := p.flags ||| K.CPU_CORE_STATE })

/-- `x86_64PCPU::parse_xen_crash_core(buff, len)`: the returned flag and the
PCPU afterwards.  `ptr` is the buffer seen as an `x86_64_crash_xen_core_t`. -/
def parse_xen_crash_core (K : NoteLayout) (p : x86_64PCPU) (ptr : x86_64_crash_xen_core_t)
    (len : Nat) : Bool × x86_64PCPU :=
  if len ≠ K.sizeof_x86_64_crash_xen_core_t then
    (false, p)
  else
    (true,
      { p with
        regs :=
          { p.regs with
            cr0 := u64 ptr.cr0
            cr2 := u64 ptr.cr2
            cr3 := u64 ptr.cr3
            cr4 := u64 ptr.cr4 }
        flags := p.flags ||| K.CPU_EXTD_STATE })

/-! ## Collaborators of `decode_extended_state` -/

/-- Globals and macros used by `decode_extended_state` whose definitions are
outside `pcpu.cpp` (`symbols.hpp`, `Xen.h`): the stack-area size, the offsets
of the `cpu_info` fields, the per-CPU symbol and the three counters of symbols
still missing. -/
structure Symbols where
  STACK_SIZE : Nat
  CPUINFO_sizeof : Nat
  CPUINFO_processor_id : Nat
  CPUINFO_current_vcpu : Nat
  CPUINFO_per_cpu_offset : Nat
  CPUINFO_guest_cpu_user_regs : Nat
  per_cpu__curr_vcpu : Nat
  required_vcpu_symbols : Nat
  required_cpuinfo_symbols : Nat
  required_per_cpu_symbols : Nat

/-- The host registry `host`: the number of physical CPUs, the table of idle
VCPU pointers, and the address validation.  `validate_xen_vaddr` returns `false`
where the C++ function throws (the call site ignores its return value, and
spec §4.3 step 1: "validate ... (fail otherwise)"). -/
structure Host where
  nr_pcpus : Nat
  idle_vcpus : Nat → Nat
  validate_xen_vaddr : Nat → Bool

/-- The memory reader `memory`: `none` where the C++ function throws (unmapped or
invalid address), `some v` where it stores `v` in its output argument. -/
structure Memory where
  read32_vaddr : CPU → Nat → Option Nat
  read64_vaddr : CPU → Nat → Option Nat

/-- The VCPU side: the allocator `new x86_64VCPU()` (`none` is `std::bad_alloc`;
the argument is the number of VCPU objects already allocated by the running
call) and the three parsers, each returning its flag and the VCPU object as it
left it. -/
structure VCPUParser where
  new_x86_64VCPU : Nat → Option x86_64VCPU
  parse_basic : x86_64VCPU → Nat → CPU → Bool × x86_64VCPU
  parse_regs_from_stack : x86_64VCPU → Nat → Nat → Bool × x86_64VCPU
  parse_regs_from_struct : x86_64VCPU → Bool × x86_64VCPU

/-- Calls made by `decode_extended_state` into its collaborators, in program
order. -/
inductive Event where
  | validate_xen_vaddr (vaddr : Nat)
  | read32_vaddr (vaddr : Nat)
  | read64_vaddr (vaddr : Nat)
  | idle_vcpus (index : Nat)
  | new_x86_64VCPU
  | parse_basic (ptr : Nat)
  | parse_regs_from_stack (addr : Nat) (cr3 : Nat)
  | parse_regs_from_struct
deriving DecidableEq, Repr

/-- Whether an event is a memory read. -/
def Event.isRead : Event → Bool
  | .read32_vaddr _ => true
  | .read64_vaddr _ => true
  | _ => false

/-- Whether an event is an allocation of a VCPU object. -/
def Event.isAlloc : Event → Bool
  | .new_x86_64VCPU => true
  | _ => false

/-- Whether an event is a register parse of a VCPU object. -/
def Event.isRegsParse : Event → Bool
  | .parse_regs_from_stack _ _ => true
  | .parse_regs_from_struct => true
  | _ => false

/-- Result of a call of `decode_extended_state`: the returned flag, the PCPU
afterwards, and the calls made. -/
structure Outcome where
  ret : Bool
  pcpu : x86_64PCPU
  trace : List Event
deriving DecidableEq, Repr

/-- The 64-bit complement `~x`. -/
def not64 (x : Nat) : Nat := 2 ^ 64 - 1 - u64 x

/-- The address of the `cpu_info` block, lines 148-150:
`cpu_info = rsp; cpu_info &= ~(STACK_SIZE-1); cpu_info |= STACK_SIZE - CPUINFO_sizeof;`
in 64-bit arithmetic. -/
def cpuinfo_addr (S : Symbols) (rsp : Nat) : Nat :=
  (u64 rsp &&& not64 (S.STACK_SIZE - 1)) ||| u64 (S.STACK_SIZE + 2 ^ 64 - u64 S.CPUINFO_sizeof)

/-- Lines 189-245 of `decode_extended_state`: the classification of the context
and the construction of the owned VCPU objects, on a PCPU whose
`processor_id` and VCPU pointers have been read. -/
def decode_context (K : NoteLayout) (S : Symbols) (host : Host) (V : VCPUParser)
    (cpu_info : Nat) (p : x86_64PCPU) : Outcome :=
  let cpu := p.asCPU
  let idle := host.idle_vcpus p.processor_id
  if p.per_cpu_current_vcpu_ptr = idle then
    { ret := true
      pcpu := { p with vcpu_state := .CTX_NONE, flags := p.flags ||| K.CPU_STACK_STATE }
      trace := [.idle_vcpus p.processor_id] }
  else if p.current_vcpu_ptr = idle then
    let t := [Event.idle_vcpus p.processor_id, .idle_vcpus p.processor_id, .new_x86_64VCPU]
    let p1 := { p with vcpu_state := .CTX_IDLE }
    match V.new_x86_64VCPU 0 with
    | none => { ret := false, pcpu := p1, trace := t }
    | some v0 =>
      let r1 := V.parse_basic v0 p.per_cpu_current_vcpu_ptr cpu
      let t1 := t ++ [.parse_basic p.per_cpu_current_vcpu_ptr]
      if r1.1 = false then
        { ret := false, pcpu := { p1 with vcpu := some r1.2 }, trace := t1 }
      else
        let stack := u64 (cpu_info + S.CPUINFO_guest_cpu_user_regs)
        let r2 := V.parse_regs_from_stack r1.2 stack p.regs.cr3
        let t2 := t1 ++ [.parse_regs_from_stack stack p.regs.cr3]
        if r2.1 = false then
          { ret := false, pcpu := { p1 with vcpu := some r2.2 }, trace := t2 }
        else
          { ret := true
            pcpu := { p1 with vcpu := some { r2.2 with runstate := .RST_NONE },
                              flags := p.flags ||| K.CPU_STACK_STATE }
            trace := t2 }
  else if p.current_vcpu_ptr = p.per_cpu_current_vcpu_ptr then
    let t := [Event.idle_vcpus p.processor_id, .idle_vcpus p.processor_id, .new_x86_64VCPU]
    let p1 := { p with vcpu_state := .CTX_RUNNING }
    match V.new_x86_64VCPU 0 with
    | none => { ret := false, pcpu := p1, trace := t }
    | some v0 =>
      let r1 := V.parse_basic v0 p.per_cpu_current_vcpu_ptr cpu
      let t1 := t ++ [.parse_basic p.per_cpu_current_vcpu_ptr]
      if r1.1 = false then
        { ret := false, pcpu := { p1 with vcpu := some r1.2 }, trace := t1 }
      else
        let stack := u64 (cpu_info + S.CPUINFO_guest_cpu_user_regs)
        let r2 := V.parse_regs_from_stack r1.2 stack p.regs.cr3
        let t2 := t1 ++ [.parse_regs_from_stack stack p.regs.cr3]
        if r2.1 = false then
          { ret := false, pcpu := { p1 with vcpu := some r2.2 }, trace := t2 }
        else
          { ret := true
            pcpu := { p1 with vcpu := some { r2.2 with runstate := .RST_RUNNING },
                              flags := p.flags ||| K.CPU_STACK_STATE }
            trace := t2 }
  else
    let t := [Event.idle_vcpus p.processor_id, .idle_vcpus p.processor_id, .new_x86_64VCPU]
    let p1 := { p with vcpu_state := .CTX_SWITCH }
    match V.new_x86_64VCPU 0 with
    | none => { ret := false, pcpu := p1, trace := t }
    | some v0 =>
      let r1 := V.parse_basic v0 p.per_cpu_current_vcpu_ptr cpu
      let t1 := t ++ [.parse_basic p.per_cpu_current_vcpu_ptr]
      if r1.1 = false then
        { ret := false, pcpu := { p1 with ctx_from := some r1.2 }, trace := t1 }
      else
        let r2 := V.parse_regs_from_struct r1.2
        let t2 := t1 ++ [.parse_regs_from_struct]
        if r2.1 = false then
          { ret := false, pcpu := { p1 with ctx_from := some r2.2 }, trace := t2 }
        else
          let p2 := { p1 with ctx_from := some { r2.2 with runstate := .RST_CTX_SWITCH } }
          let t3 := t2 ++ [.new_x86_64VCPU]
          match V.new_x86_64VCPU 1 with
          | none => { ret := false, pcpu := p2, trace := t3 }
          | some w0 =>
            let r3 := V.parse_basic w0 p.current_vcpu_ptr cpu
            let t4 := t3 ++ [.parse_basic p.current_vcpu_ptr]
            if r3.1 = false then
              { ret := false, pcpu := { p2 with ctx_to := some r3.2 }, trace := t4 }
            else
              { ret := true
                pcpu := { p2 with ctx_to := some { r3.2 with runstate := .RST_NONE },
                                  flags := p.flags ||| K.CPU_STACK_STATE }
                trace := t4 }

/-- `x86_64PCPU::decode_extended_state()`.  A thrown exception (failed
validation, failed read, `std::bad_alloc`) ends the call with `false`, as the
`catch` clauses do; a failed read leaves its output argument untouched. -/
def decode_extended_state (K : NoteLayout) (S : Symbols) (host : Host) (memory : Memory)
    (V : VCPUParser) (p : x86_64PCPU) : Outcome :=
  if p.flags &&& K.CPU_EXTD_STATE = 0 then
    { ret := false, pcpu := p, trace := [] }
  else if S.required_vcpu_symbols ≠ 0 then
    { ret := false, pcpu := p, trace := [] }
  else if S.required_cpuinfo_symbols ≠ 0 then
    { ret := false, pcpu := p, trace := [] }
  else if S.required_per_cpu_symbols ≠ 0 then
    { ret := false, pcpu := p, trace := [] }
  else
    let cpu := p.asCPU
    let cpu_info := cpuinfo_addr S p.regs.rsp
    let t1 := [Event.validate_xen_vaddr cpu_info]
    if host.validate_xen_vaddr cpu_info = false then
      { ret := false, pcpu := p, trace := t1 }
    else
      let a_pid := u64 (cpu_info + S.CPUINFO_processor_id)
      let t2 := t1 ++ [.read32_vaddr a_pid]
      match memory.read32_vaddr cpu a_pid with
      | none => { ret := false, pcpu := p, trace := t2 }
      | some pid =>
        let p1 := { p with processor_id := u32 pid }
        if p1.processor_id > host.nr_pcpus then
          { ret := false, pcpu := p1, trace := t2 }
        else
          let a_cur := u64 (cpu_info + S.CPUINFO_current_vcpu)
          let t3 := t2 ++ [.read64_vaddr a_cur]
          match memory.read64_vaddr cpu a_cur with
          | none => { ret := false, pcpu := p1, trace := t3 }
          | some cur =>
            let p2 := { p1 with current_vcpu_ptr := u64 cur }
            let t4 := t3 ++ [.validate_xen_vaddr p2.current_vcpu_ptr]
            if host.validate_xen_vaddr p2.current_vcpu_ptr = false then
              { ret := false, pcpu := p2, trace := t4 }
            else
              let a_off := u64 (cpu_info + S.CPUINFO_per_cpu_offset)
              let t5 := t4 ++ [.read64_vaddr a_off]
              match memory.read64_vaddr cpu a_off with
              | none => { ret := false, pcpu := p2, trace := t5 }
              | some off =>
                let p3 := { p2 with per_cpu_offset := u64 off }
                let a_pcv := u64 (p3.per_cpu_offset + S.per_cpu__curr_vcpu)
                let t6 := t5 ++ [.read64_vaddr a_pcv]
                match memory.read64_vaddr cpu a_pcv with
                | none => { ret := false, pcpu := p3, trace := t6 }
                | some pcv =>
                  let p4 := { p3 with per_cpu_current_vcpu_ptr := u64 pcv }
                  let t7 := t6 ++ [.validate_xen_vaddr p4.per_cpu_current_vcpu_ptr]
                  if host.validate_xen_vaddr p4.per_cpu_current_vcpu_ptr = false then
                    { ret := false, pcpu := p4, trace := t7 }
                  else
                    let r := decode_context K S host V cpu_info p4
                    { r with trace := t7 ++ r.trace }

/-! ## The decode after its reads -/

/-- The PCPU after the four reads of lines 154-175 returned `pid`, `cur`, `off`
and `pcv`. -/
def after_reads (p : x86_64PCPU) (pid cur off pcv : Nat) : x86_64PCPU :=
  { p with
    processor_id := u32 pid
    current_vcpu_ptr := u64 cur
    per_cpu_offset := u64 off
    per_cpu_current_vcpu_ptr := u64 pcv }

/-- The calls of lines 152-177, in program order, when all of them succeed. -/
def reads_trace (S : Symbols) (p : x86_64PCPU) (cur off pcv : Nat) : List Event :=
  [ .validate_xen_vaddr (cpuinfo_addr S p.regs.rsp),
    .read32_vaddr (u64 (cpuinfo_addr S p.regs.rsp + S.CPUINFO_processor_id)),
    .read64_vaddr (u64 (cpuinfo_addr S p.regs.rsp + S.CPUINFO_current_vcpu)),
    .validate_xen_vaddr (u64 cur),
    .read64_vaddr (u64 (cpuinfo_addr S p.regs.rsp + S.CPUINFO_per_cpu_offset)),
    .read64_vaddr (u64 (u64 off + S.per_cpu__curr_vcpu)),
    .validate_xen_vaddr (u64 pcv) ]

/-- The preconditions of `decode_extended_state` hold (lines 120-142) and every
read and validation of lines 148-177 succeeds, the reads returning `pid`, `cur`,
`off` and `pcv`, with `pid` passing the check of line 161. -/
def ReadsSucceed (K : NoteLayout) (S : Symbols) (host : Host) (memory : Memory)
    (p : x86_64PCPU) (pid cur off pcv : Nat) : Prop :=
  p.flags &&& K.CPU_EXTD_STATE ≠ 0 ∧
  S.required_vcpu_symbols = 0 ∧
  S.required_cpuinfo_symbols = 0 ∧
  S.required_per_cpu_symbols = 0 ∧
  host.validate_xen_vaddr (cpuinfo_addr S p.regs.rsp) = true ∧
  memory.read32_vaddr p.asCPU (u64 (cpuinfo_addr S p.regs.rsp + S.CPUINFO_processor_id))
    = some pid ∧
  u32 pid ≤ host.nr_pcpus ∧
  memory.read64_vaddr p.asCPU (u64 (cpuinfo_addr S p.regs.rsp + S.CPUINFO_current_vcpu))
    = some cur ∧
  host.validate_xen_vaddr (u64 cur) = true ∧
  memory.read64_vaddr p.asCPU (u64 (cpuinfo_addr S p.regs.rsp + S.CPUINFO_per_cpu_offset))
    = some off ∧
  memory.read64_vaddr p.asCPU (u64 (u64 off + S.per_cpu__curr_vcpu)) = some pcv ∧
  host.validate_xen_vaddr (u64 pcv) = true

/-- Whether the reads succeed with given values can be checked on a concrete
dump. -/
instance ReadsSucceed.decidable (K : NoteLayout) (S : Symbols) (host : Host) (memory : Memory)
    (p : x86_64PCPU) (pid cur off pcv : Nat) :
    Decidable (ReadsSucceed K S host memory p pid cur off pcv) := by
  unfold ReadsSucceed
  infer_instance

/-- The if-chain of lines 189-228 as a function of the results of its three
comparisons: `cur_idle` is `current_vcpu_ptr == idle`, `pcpu_idle` is
`per_cpu_current_vcpu_ptr == idle`, `same` is
`current_vcpu_ptr == per_cpu_current_vcpu_ptr`. -/
def context_of_comparisons (cur_idle pcpu_idle same : Bool) : VcpuState :=
  if pcpu_idle then .CTX_NONE
  else if cur_idle then .CTX_IDLE
  else if same then .CTX_RUNNING
  else .CTX_SWITCH

/-- The table of spec §4.3 step 4, in the spec's words: both pointers idle give
NONE; only the per-CPU pointer idle (the stack pointer is not) gives IDLE;
neither idle and equal gives RUNNING; neither idle and different gives SWITCH.
The spec has no row for "only the stack pointer idle". -/
def spec_context_table (cur_idle pcpu_idle same : Bool) : Option VcpuState :=
  if cur_idle && pcpu_idle then some .CTX_NONE
  else if pcpu_idle && !cur_idle then some .CTX_IDLE
  else if !cur_idle && !pcpu_idle && same then some .CTX_RUNNING
  else if !cur_idle && !pcpu_idle && !same then some .CTX_SWITCH
  else none

/-! ## A concrete dump -/

/-- Note layout of the examples: the `user_regs_struct` order of the registers,
`sizeof(ELF_Prstatus) = 336`, four 8-byte control registers. -/
def exLayout : NoteLayout :=
  { sizeof_ELF_Prstatus := 336, sizeof_x86_64_crash_xen_core_t := 32,
    CPU_CORE_STATE := 1, CPU_EXTD_STATE := 2, CPU_STACK_STATE := 4,
    PR_REG_r15 := 0, PR_REG_r14 := 1, PR_REG_r13 := 2, PR_REG_r12 := 3, PR_REG_rbp := 4,
    PR_REG_rbx := 5, PR_REG_r11 := 6, PR_REG_r10 := 7, PR_REG_r9 := 8, PR_REG_r8 := 9,
    PR_REG_rax := 10, PR_REG_rcx := 11, PR_REG_rdx := 12, PR_REG_rsi := 13,
    PR_REG_rdi := 14, PR_REG_orig_rax := 15, PR_REG_rip := 16, PR_REG_cs := 17,
    PR_REG_rflags := 18, PR_REG_rsp := 19, PR_REG_ds := 23, PR_REG_es := 24,
    PR_REG_ss := 20, PR_REG_fs := 25, PR_REG_gs := 26 }

/-- A freshly constructed PCPU: zeroed registers, no flag, null VCPU pointers. -/
def exFresh : x86_64PCPU :=
  { regs := x86_64regs.zero, flags := 0, processor_id := 0, per_cpu_offset := 0,
    current_vcpu_ptr := 0, per_cpu_current_vcpu_ptr := 0, vcpu_state := .CTX_UNKNOWN,
    vcpu := none, ctx_from := none, ctx_to := none }

/-- A core-state note whose slot `i` holds `0x1000 * (i + 1) + i`, except the
stack pointer slot, which holds a hypervisor stack address. -/
def exNote : ELF_Prstatus :=
  { pr_reg := fun i => if i = 19 then 0xffff83007f4f7e10 else 0x1000 * (i + 1) + i }

/-- A Xen crash note. -/
def exCrashCore : x86_64_crash_xen_core_t :=
  { cr0 := 0x80050033, cr2 := 0x7f00deadb000, cr3 := 0x7f4e1000, cr4 := 0x26f0 }

/-- The PCPU after both notes have been parsed. -/
def exParsed : x86_64PCPU :=
  (parse_xen_crash_core exLayout (parse_pr_status exLayout exFresh exNote 336).2
    exCrashCore 32).2

/-- Symbols of the examples: eight 4 KiB pages per stack, a 232-byte `cpu_info`
block at the top of it. -/
def exSymbols : Symbols :=
  { STACK_SIZE := 0x8000, CPUINFO_sizeof := 232, CPUINFO_processor_id := 200,
    CPUINFO_current_vcpu := 208, CPUINFO_per_cpu_offset := 216,
    CPUINFO_guest_cpu_user_regs := 0, per_cpu__curr_vcpu := 0x2a40,
    required_vcpu_symbols := 0, required_cpuinfo_symbols := 0,
    required_per_cpu_symbols := 0 }

/-- A host with four physical CPUs; the idle VCPU of CPU `i` is at
`0xffff83007f4e0000 + 0x1000 * i`; the valid addresses are the upper half. -/
def exHost : Host :=
  { nr_pcpus := 4
    idle_vcpus := fun i => 0xffff83007f4e0000 + 0x1000 * i
    validate_xen_vaddr := fun a => decide (0xffff800000000000 ≤ a) }

/-- A dump in which the `cpu_info` block at `0xffff83007f4f7f18` names
processor 1, the current VCPU `cur` and the per-CPU offset `0xffff83007f500000`,
and in which the per-CPU variable `curr_vcpu` holds `pcv`. -/
def exMemory (cur pcv : Nat) : Memory :=
  { read32_vaddr := fun _ a => if a = 0xffff83007f4f7f18 + 200 then some 1 else none
    read64_vaddr := fun _ a =>
      if a = 0xffff83007f4f7f18 + 208 then some cur
      else if a = 0xffff83007f4f7f18 + 216 then some 0xffff83007f500000
      else if a = 0xffff83007f500000 + 0x2a40 then some pcv
      else none }

/-- A VCPU object as the examples' allocator returns it. -/
def exBlank : x86_64VCPU :=
  { domid := 0, vcpu_id := 0, processor := 0, runstate := .RST_UNKNOWN,
    regs := x86_64regs.zero, flags := 0 }

/-- A VCPU parser that always succeeds: the identity is derived from the
pointer, the register parses record their source in `rip`. -/
def exParser : VCPUParser :=
  { new_x86_64VCPU := fun _ => some exBlank
    parse_basic := fun v ptr _ =>
      (true, { v with domid := ptr % 0x1000, vcpu_id := ptr / 0x1000 % 16, processor := 1 })
    parse_regs_from_stack := fun v addr _ => (true, { v with regs := { v.regs with rip := addr } })
    parse_regs_from_struct := fun v => (true, { v with regs := { v.regs with rip := 1 } }) }

/-- A VCPU parser whose `parse_basic` fails. -/
def exFailingParser : VCPUParser :=
  { exParser with parse_basic := fun v _ _ => (false, v) }

/-- The idle VCPU pointer of processor 1 in `exHost`. -/
def exIdle : Nat := 0xffff83007f4e1000

/-- Two guest VCPU pointers. -/
def exGuestA : Nat := 0xffff83007f4d2000

/-- The second guest VCPU pointer. -/
def exGuestB : Nat := 0xffff83007f4d3001

/-! ## Further dumps -/

/-- A dump like `exMemory exGuestA exIdle`, except that the `per_cpu_offset`
field of the `cpu_info` block holds `0x1000`, so that the per-CPU variable
`curr_vcpu` is looked up at `0x1000 + 0x2a40`, an address outside the range
`exHost` accepts; the dump maps that address. -/
def exMemoryBadOffset : Memory :=
  { read32_vaddr := fun _ a => if a = 0xffff83007f4f7f18 + 200 then some 1 else none
    read64_vaddr := fun _ a =>
      if a = 0xffff83007f4f7f18 + 208 then some exGuestA
      else if a = 0xffff83007f4f7f18 + 216 then some 0x1000
      else if a = 0x1000 + 0x2a40 then some exIdle
      else none }

/-- The PCPU after the Xen crash note only has been parsed: `CPU_EXTD_STATE` is
set, `CPU_CORE_STATE` is not, the core registers are the zeros of the
constructor. -/
def exExtdOnly : x86_64PCPU :=
  (parse_xen_crash_core exLayout exFresh exCrashCore 32).2

/-! ## Sequences of calls on a PCPU -/

/-- A call of one of the three state-changing member functions of `x86_64PCPU`,
with its arguments. -/
inductive Call where
  | parse_pr_status (ptr : ELF_Prstatus) (len : Nat)
  | parse_xen_crash_core (ptr : x86_64_crash_xen_core_t) (len : Nat)
  | decode_extended_state

/-- Whether a call is a call of `decode_extended_state`. -/
def Call.isDecode : Call → Bool
  | .decode_extended_state => true
  | _ => false

/-- The PCPU after a call. -/
def Call.run (K : NoteLayout) (S : Symbols) (host : Host) (memory : Memory) (V : VCPUParser)
    (p : x86_64PCPU) : Call → x86_64PCPU
  | .parse_pr_status ptr len => (XenCrashdump.parse_pr_status K p ptr len).2
  | .parse_xen_crash_core ptr len => (XenCrashdump.parse_xen_crash_core K p ptr len).2
  | .decode_extended_state => (XenCrashdump.decode_extended_state K S host memory V p).pcpu

/-- The PCPU after a sequence of calls, first call first. -/
def run_calls (K : NoteLayout) (S : Symbols) (host : Host) (memory : Memory) (V : VCPUParser)
    (p : x86_64PCPU) : List Call → x86_64PCPU
  | [] => p
  | c :: cs => run_calls K S host memory V (Call.run K S host memory V p c) cs

/-- Ownership keyed by `vcpu_state`: `vcpu` is not non-null together with
`ctx_from` or `ctx_to`, and when `CPU_STACK_STATE` is set the pointers that
`print_state` dereferences for the `vcpu_state` at hand are non-null (all three
null for `CTX_NONE`). -/
def OwnershipInvariant (K : NoteLayout) (p : x86_64PCPU) : Prop :=
  (p.vcpu ≠ none → p.ctx_from = none ∧ p.ctx_to = none) ∧
  (p.flags &&& K.CPU_STACK_STATE ≠ 0 →
    (p.vcpu_state = .CTX_NONE → p.vcpu = none ∧ p.ctx_from = none ∧ p.ctx_to = none) ∧
    (p.vcpu_state = .CTX_IDLE ∨ p.vcpu_state = .CTX_RUNNING → p.vcpu ≠ none) ∧
    (p.vcpu_state = .CTX_SWITCH → p.ctx_from ≠ none ∧ p.ctx_to ≠ none))

/-- The ownership invariant can be checked on a concrete PCPU. -/
instance OwnershipInvariant.decidable (K : NoteLayout) (p : x86_64PCPU) :
    Decidable (OwnershipInvariant K p) := by
  unfold OwnershipInvariant
  infer_instance

/-- A second Xen crash note for the same PCPU, with another page-table root. -/
def exCrashCoreOther : x86_64_crash_xen_core_t :=
  { cr0 := 0x80050033, cr2 := 0, cr3 := 0x7f4e2000, cr4 := 0x26f0 }

/-- A dump read through two page-table roots: under `cr3 = 0x7f4e1000` the
stack-resident pointer is guest VCPU A and the per-CPU pointer guest VCPU B (a
context switch); under any other root both pointers are guest VCPU A. -/
def exMemoryByRoot : Memory :=
  { read32_vaddr := fun cpu a => (exMemory exGuestA exGuestB).read32_vaddr cpu a
    read64_vaddr := fun cpu a =>
      if cpu.cr3 = 0x7f4e1000 then (exMemory exGuestA exGuestB).read64_vaddr cpu a
      else (exMemory exGuestA exGuestA).read64_vaddr cpu a }

/-! ## The stack walker -/

/-- The exception frame `x86_64exception` found at the top of an interrupt
stack; the type comes from `arch/x86_64/structures.hpp`, the fields are the
ones `print_stack` uses. -/
structure x86_64exception where
  cs : Nat
  rip : Nat
  rsp : Nat
deriving DecidableEq, Repr

/-- Constants of `print_stack` defined outside `pcpu.cpp`: the page size and
`sizeof(x86_64exception)`. -/
structure StackLayout where
  PAGE_SIZE : Nat
  sizeof_x86_64exception : Nat

/-- The block read `memory.read_block_vaddr(cpu, vaddr, &exp_regs, len)` of an
exception frame: `none` where the C++ function throws. -/
structure FrameReader where
  read_block_vaddr : CPU → Nat → Nat → Option x86_64exception

/-- Calls made by `print_stack`, in program order: the entry of a (nested) call
with its starting pointer, the reads of stack words, the read of an exception
frame, and the report that the walker does not recurse. -/
inductive StackEvent where
  | print_stack (stack : Nat)
  | read64_vaddr (vaddr : Nat)
  | read_block_vaddr (vaddr : Nat) (len : Nat)
  | not_recursing (stack_page : Nat) (next_stack_page : Nat)
deriving DecidableEq, Repr

/-- How a call of `print_stack`, or its word loop, ended: it returned after all
its work; an exception thrown by a read was caught by `CATCH_COMMON`, which
ends the walk; or the model ran out of fuel, for the word loop or for the
nesting of calls. -/
inductive WalkStatus where
  | returned
  | caught
  | loop_fuel
  | depth_fuel
deriving DecidableEq, Repr

/-- Result of a call of `print_stack`: how it ended and the calls made. -/
structure StackWalk where
  status : WalkStatus
  trace : List StackEvent
deriving DecidableEq, Repr

/-- The page index `(sp >> 12) & 7` of a stack pointer. -/
def stack_page_of (sp : Nat) : Nat := (sp >>> 12) &&& 7

/-- The top of the stack walked from `sp`, lines 405-414: on an interrupt page,
`(sp | (PAGE_SIZE-1)) + 1 - sizeof exp_regs`; otherwise the masked `regs.rsp`
of the PCPU ORed with `STACK_SIZE - CPUINFO_sizeof`; in 64-bit arithmetic. -/
def stack_top (S : Symbols) (X : StackLayout) (p : x86_64PCPU) (sp : Nat) : Nat :=
  if stack_page_of sp ≤ 2 then
    u64 (u64 ((sp ||| (X.PAGE_SIZE - 1)) + 1) + 2 ^ 64 - u64 X.sizeof_x86_64exception)
  else
    (u64 p.regs.rsp &&& not64 (S.STACK_SIZE - 1)) |||
      u64 (S.STACK_SIZE + 2 ^ 64 - u64 S.CPUINFO_sizeof)

/-- The word loop of lines 416-421, `while ( sp < stack_top )`, with at most
`fuel` iterations: each iteration reads the word at `sp` and adds 8 to `sp`. -/
def walk_words (memory : Memory) (cpu : CPU) (top : Nat) : Nat → Nat → StackWalk
  | 0, sp =>
    if sp < top then { status := .loop_fuel, trace := [] }
    else { status := .returned, trace := [] }
  | fuel + 1, sp =>
    if sp < top then
      match memory.read64_vaddr cpu sp with
      | none => { status := .caught, trace := [.read64_vaddr sp] }
      | some _ =>
        { status := (walk_words memory cpu top fuel (u64 (sp + 8))).status
          trace := .read64_vaddr sp :: (walk_words memory cpu top fuel (u64 (sp + 8))).trace }
    else { status := .returned, trace := [] }

/-- How a nested call of `print_stack` ends for its caller: the nested call
catches its own exceptions and returns. -/
def WalkStatus.nested : WalkStatus → WalkStatus
  | .caught => .returned
  | s => s

/-- `x86_64PCPU::print_stack(o, stack)`, with at most `loop_fuel` iterations of
each word loop and `depth` nested calls.  The report written to `o` is not
modelled. -/
def print_stack (S : Symbols) (X : StackLayout) (memory : Memory) (F : FrameReader)
    (p : x86_64PCPU) (loop_fuel : Nat) : Nat → Nat → StackWalk
  | 0, _ => { status := .depth_fuel, trace := [] }
  | depth + 1, stack =>
    let cpu := p.asCPU
    let sp := u64 stack
    let stack_page := stack_page_of sp
    let top := stack_top S X p sp
    let w := walk_words memory cpu top loop_fuel sp
    let t := StackEvent.print_stack sp :: w.trace
    if w.status ≠ .returned then
      { status := w.status, trace := t }
    else if stack_page ≤ 2 then
      let t1 := t ++ [.read_block_vaddr top X.sizeof_x86_64exception]
      match F.read_block_vaddr cpu top X.sizeof_x86_64exception with
      | none => { status := .caught, trace := t1 }
      | some exp_regs =>
        let next_stack_page := stack_page_of (u64 exp_regs.rsp)
        if stack_page ≠ next_stack_page ∧ (stack_page = 0 ∨ next_stack_page > 2) then
          { status := (print_stack S X memory F p loop_fuel depth exp_regs.rsp).status.nested
            trace := t1 ++ (print_stack S X memory F p loop_fuel depth exp_regs.rsp).trace }
        else
          { status := .returned
            trace := t1 ++ [.not_recursing stack_page next_stack_page] }
    else
      { status := .returned, trace := t }

/-- The page walked by a call of `print_stack`, for its entry event. -/
def StackEvent.page : StackEvent → Option Nat
  | .print_stack sp => some (stack_page_of sp)
  | _ => none

/-- The pages walked by the chain of nested calls, outermost first. -/
def walked_pages (t : List StackEvent) : List Nat := t.filterMap StackEvent.page

/-- The words at `sp`, `sp + 8`, `sp + 16`, ... strictly below `top`. -/
def stack_words (sp top : Nat) : List Nat :=
  (List.range ((top - sp + 7) / 8)).map (fun k => sp + 8 * k)

/-- When the code hands a page over: the rule of lines 438-442, `a` the page
walked and `b` the page of the saved stack pointer. -/
def may_recurse (a b : Nat) : Prop := a ≠ b ∧ (a = 0 ∨ b > 2)

/-- The rule can be checked on two pages. -/
instance may_recurse.decidable (a b : Nat) : Decidable (may_recurse a b) := by
  unfold may_recurse
  infer_instance

/-- Layout of the stack examples: 4 KiB pages, a 168-byte exception frame. -/
def exStackLayout : StackLayout := { PAGE_SIZE := 4096, sizeof_x86_64exception := 168 }

/-- A dump in which every stack word can be read. -/
def exStackMemory : Memory :=
  { read32_vaddr := fun _ _ => some 0, read64_vaddr := fun _ a => some (a + 1) }

/-- Exception frames of the examples: the frame of the Double-Fault stack
(page 0 of the stack area at `0xffff83007f4f0000`) saved a stack pointer on the
NMI stack (page 1), the frame of the NMI stack saved the stack pointer of the
example note (page 7), the frame of the Machine-Check stack (page 2) saved a
stack pointer on the NMI stack. -/
def exFrames : FrameReader :=
  { read_block_vaddr := fun _ a _ =>
      if a = 0xffff83007f4f0f58 then some { cs := 0xe008, rip := 0xffff82d080201000,
                                            rsp := 0xffff83007f4f1f40 }
      else if a = 0xffff83007f4f1f58 then some { cs := 0xe008, rip := 0xffff82d080202000,
                                                 rsp := 0xffff83007f4f7e10 }
      else if a = 0xffff83007f4f2f58 then some { cs := 0xe008, rip := 0xffff82d080203000,
                                                 rsp := 0xffff83007f4f1f40 }
      else none }

/-- How many walks a chain that starts on a page can hold at most: three from
the Double-Fault page, two from the NMI and Machine-Check pages, one from an
ordinary page. -/
def page_rank (page : Nat) : Nat :=
  if page = 0 then 3 else if page ≤ 2 then 2 else 1

/-! ## The 64-bit symbol table decoder -/

/-- Modelled from the spec: class `Bitmap` (`bitmap.hpp` is not among the
sources).  Spec §3: a fixed-length sequence of bits, one per table slot, with
`test(i)`.  A test outside the bits is `none`. -/
structure Bitmap where
  bits : List Bool
deriving DecidableEq, Repr

/-- Modelled from the spec: `Bitmap::test(i)`, the bit of slot `i`. -/
def Bitmap.test (b : Bitmap) (i : Nat) : Option Bool := b.bits[i]?

/-- The decoder `x64Sym64TabDecoder` after `decode`, with the members declared
in `sym64-table-decoders.hpp`: the owned array `table`, the bitmap `valid` of
the slots present in the crash notes, and the number of entries. -/
structure x64Sym64TabDecoder where
  table : List Nat
  valid : Bitmap
  nr_entries : Nat
deriving DecidableEq, Repr

/-- The invariant of a decoded table (spec §3): the owned array and the bitmap
both have `nr_entries` slots. -/
def x64Sym64TabDecoder.WellFormed (d : x64Sym64TabDecoder) : Prop :=
  d.table.length = d.nr_entries ∧ d.valid.bits.length = d.nr_entries

/-- Modelled from the spec: `x64Sym64TabDecoder::length()` (its body is in
`sym64-table-decoders.cpp`, not among the sources): the number of entries. -/
def x64Sym64TabDecoder.length (d : x64Sym64TabDecoder) : Nat := d.nr_entries

/-- Modelled from the spec: `x64Sym64TabDecoder::is_valid(index)` (its body is in
`sym64-table-decoders.cpp`, not among the sources).  Header: "boolean indicating
whether the value was present in the crash notes"; spec §8: false out of range.
`none` stands for a test outside the bitmap. -/
def x64Sym64TabDecoder.is_valid (d : x64Sym64TabDecoder) (index : Nat) : Option Bool :=
  if index < d.nr_entries then d.valid.test index else some false

/-- Modelled from the spec: `x64Sym64TabDecoder::get(index)` (its body is in
`sym64-table-decoders.cpp`, not among the sources).  Header: "integer from
table, or 0 if out of range or not present".  `none` stands for an access
outside the owned array or the bitmap. -/
def x64Sym64TabDecoder.get (d : x64Sym64TabDecoder) (index : Nat) : Option Nat :=
  if index < d.nr_entries then
    match d.valid.test index with
    | none => none
    | some true => d.table[index]?
    | some false => some 0
  else some 0

/-- A decoded table of two slots: slot 0 holds a symbol address, slot 1 was not
in the crash notes. -/
def exSymtab : x64Sym64TabDecoder :=
  { table := [0xffff82d080200000, 0], valid := { bits := [true, false] }, nr_entries := 2 }

/-! ## The report of the VCPU context -/

/-- Lines that `print_state` writes for the VCPU context of a PCPU, with the
values of their format arguments: `stack_vcpu` is
"stack current VCPU <ptr> DOM<domid> VCPU<vcpu_id>", `percpu_vcpu` is
"percpu current VCPU <ptr> DOM<domid> VCPU<vcpu_id>", `stack_idle` and
`percpu_idle` are the same lines ending in "IDLE", `switching` is "Xen was
context switching from DOM.. VCPU.. to DOM.. VCPU..". -/
inductive ReportLine where
  | percpu_idle (ptr : Nat)
  | no_associated_vcpu
  | stack_idle (ptr : Nat)
  | stack_vcpu (ptr : Nat) (domid : Nat) (vcpu_id : Nat)
  | percpu_vcpu (ptr : Nat) (domid : Nat) (vcpu_id : Nat)
  | vcpu_was_idle
  | vcpu_was_running
  | switching (from_domid : Nat) (from_vcpu_id : Nat) (to_domid : Nat) (to_vcpu_id : Nat)
  | unable_to_parse
deriving DecidableEq, Repr

/-- Lines 318-363 of `print_state`: the report of the VCPU context, written
when `CPU_STACK_STATE` is set.  `none` stands for the dereference of a null
pointer. -/
def print_state_vcpu_context (K : NoteLayout) (p : x86_64PCPU) : Option (List ReportLine) :=
  if p.flags &&& K.CPU_STACK_STATE ≠ 0 then
    match p.vcpu_state with
    | .CTX_NONE =>
      some [.percpu_idle p.per_cpu_current_vcpu_ptr, .no_associated_vcpu]
    | .CTX_IDLE =>
      match p.vcpu with
      | none => none
      | some vcpu =>
        some [.stack_idle p.current_vcpu_ptr,
          .percpu_vcpu p.per_cpu_current_vcpu_ptr vcpu.domid vcpu.vcpu_id, .vcpu_was_idle]
    | .CTX_RUNNING =>
      match p.vcpu with
      | none => none
      | some vcpu =>
        some [.stack_vcpu p.current_vcpu_ptr vcpu.domid vcpu.vcpu_id,
          .percpu_vcpu p.per_cpu_current_vcpu_ptr vcpu.domid vcpu.vcpu_id, .vcpu_was_running]
    | .CTX_SWITCH =>
      match p.ctx_from, p.ctx_to with
      | some ctx_from, some ctx_to =>
        some [.stack_vcpu p.current_vcpu_ptr ctx_from.domid ctx_from.vcpu_id,
          .percpu_vcpu p.per_cpu_current_vcpu_ptr ctx_to.domid ctx_to.vcpu_id,
          .switching ctx_from.domid ctx_from.vcpu_id ctx_to.domid ctx_to.vcpu_id]
      | _, _ => none
    | .CTX_UNKNOWN => some [.unable_to_parse]
  else
    some []

/-! ## Dumps for the last examples -/

/-- A dump like `exMemory exIdle exIdle`, except that the `cpu_info` block names
processor 4, the number of physical CPUs of `exHost`. -/
def exMemoryLastId : Memory :=
  { exMemory exIdle exIdle with read32_vaddr := fun _ _ => some 4 }

/-- A PCPU that crashed on its NMI stack: `rsp` is on page 1 of the stack area
at `0xffff83007f4f0000`. -/
def exOnNmiStack : x86_64PCPU :=
  { exParsed with regs := { exParsed.regs with rsp := 0xffff83007f4f1f40 } }

/-- An exception frame on the NMI stack whose saved stack pointer is on page 7
of another stack area, the one at `0xffff83007f4e0000`. -/
def exFramesOtherArea : FrameReader :=
  { read_block_vaddr := fun _ a _ =>
      if a = 0xffff83007f4f1f58 then some { cs := 0xe008, rip := 0xffff82d080202000,
                                            rsp := 0xffff83007f4e7e10 }
      else none }

/-- A dump that maps the NMI page of the PCPU and everything below
`0xffff83007f4e8010`, that is 16 bytes into the stack area that follows the one
at `0xffff83007f4e0000`. -/
def exMemoryOtherArea : Memory :=
  { read32_vaddr := fun _ _ => none
    read64_vaddr := fun _ a =>
      if a < 0xffff83007f4e8010 then some 0
      else if 0xffff83007f4f1000 ≤ a ∧ a < 0xffff83007f4f2000 then some 0
      else none }

/-! ## Shared lemmas -/

/-- A bit that has been ORed into a word is set in it. -/
theorem lor_land_self (a b : Nat) : (a ||| b) &&& b = b := by
  apply Nat.eq_of_testBit_eq
  intro i
  rw [Nat.testBit_land, Nat.testBit_lor]
  cases a.testBit i <;> cases b.testBit i <;> rfl

/-- When the preconditions hold and every read and validation succeeds, the
decode is the classification of lines 189-245 run on the PCPU that holds the
values read, after the calls of `reads_trace`. -/
theorem decode_extended_state_of_reads (K : NoteLayout) (S : Symbols) (host : Host)
    (memory : Memory) (V : VCPUParser) (p : x86_64PCPU) (pid cur off pcv : Nat)
    (h : ReadsSucceed K S host memory p pid cur off pcv) :
    decode_extended_state K S host memory V p =
      { ret := (decode_context K S host V (cpuinfo_addr S p.regs.rsp)
                  (after_reads p pid cur off pcv)).ret
        pcpu := (decode_context K S host V (cpuinfo_addr S p.regs.rsp)
                  (after_reads p pid cur off pcv)).pcpu
        trace := reads_trace S p cur off pcv ++
          (decode_context K S host V (cpuinfo_addr S p.regs.rsp)
            (after_reads p pid cur off pcv)).trace } := by
  obtain ⟨h1, h2, h3, h4, h5, h6, h7, h8, h9, h10, h11, h12⟩ := h
  unfold decode_extended_state
  rw [if_neg h1, if_neg (not_not.mpr h2), if_neg (not_not.mpr h3), if_neg (not_not.mpr h4)]
  simp only [h5, h6, h8, h9, h10, h11, h12, Nat.not_lt.mpr h7, if_false, Bool.true_eq_false,
    gt_iff_lt]
  rfl

/-- Every call of `decode_extended_state` either fails before the
classification, having allocated nothing and touched none of the three owned
pointers nor the flags, or is the classification run after successful reads. -/
theorem decode_extended_state_cases (K : NoteLayout) (S : Symbols) (host : Host)
    (memory : Memory) (V : VCPUParser) (p : x86_64PCPU) :
    ((decode_extended_state K S host memory V p).ret = false ∧
      (∀ e ∈ (decode_extended_state K S host memory V p).trace, e.isAlloc = false) ∧
      (decode_extended_state K S host memory V p).pcpu.vcpu = p.vcpu ∧
      (decode_extended_state K S host memory V p).pcpu.ctx_from = p.ctx_from ∧
      (decode_extended_state K S host memory V p).pcpu.ctx_to = p.ctx_to ∧
      (decode_extended_state K S host memory V p).pcpu.flags = p.flags) ∨
    ∃ pid cur off pcv, ReadsSucceed K S host memory p pid cur off pcv := by
  by_cases h1 : p.flags &&& K.CPU_EXTD_STATE = 0
  · left; unfold decode_extended_state; simp [h1]
  by_cases h2 : S.required_vcpu_symbols = 0
  swap
  · left; unfold decode_extended_state; simp [h1, h2]
  by_cases h3 : S.required_cpuinfo_symbols = 0
  swap
  · left; unfold decode_extended_state; simp [h1, h2, h3]
  by_cases h4 : S.required_per_cpu_symbols = 0
  swap
  · left; unfold decode_extended_state; simp [h1, h2, h3, h4]
  by_cases h5 : host.validate_xen_vaddr (cpuinfo_addr S p.regs.rsp) = true
  swap
  · left; unfold decode_extended_state; simp [h1, h2, h3, h4, h5, Event.isAlloc]
  cases h6 : memory.read32_vaddr p.asCPU (u64 (cpuinfo_addr S p.regs.rsp + S.CPUINFO_processor_id))
    with
  | none => left; unfold decode_extended_state; simp [h1, h2, h3, h4, h5, h6, Event.isAlloc]
  | some pid =>
  by_cases h7 : u32 pid ≤ host.nr_pcpus
  swap
  · left; unfold decode_extended_state; simp [h1, h2, h3, h4, h5, h6, Nat.not_le.mp h7, Event.isAlloc]
  cases h8 : memory.read64_vaddr p.asCPU (u64 (cpuinfo_addr S p.regs.rsp + S.CPUINFO_current_vcpu))
    with
  | none =>
    left; unfold decode_extended_state
    simp [h1, h2, h3, h4, h5, h6, Nat.not_lt.mpr h7, h8, Event.isAlloc]
  | some cur =>
  by_cases h9 : host.validate_xen_vaddr (u64 cur) = true
  swap
  · left; unfold decode_extended_state
    simp [h1, h2, h3, h4, h5, h6, Nat.not_lt.mpr h7, h8, h9, Event.isAlloc]
  cases h10 : memory.read64_vaddr p.asCPU
    (u64 (cpuinfo_addr S p.regs.rsp + S.CPUINFO_per_cpu_offset)) with
  | none =>
    left; unfold decode_extended_state
    simp [h1, h2, h3, h4, h5, h6, Nat.not_lt.mpr h7, h8, h9, h10, Event.isAlloc]
  | some off =>
  cases h11 : memory.read64_vaddr p.asCPU (u64 (u64 off + S.per_cpu__curr_vcpu)) with
  | none =>
    left; unfold decode_extended_state
    simp [h1, h2, h3, h4, h5, h6, Nat.not_lt.mpr h7, h8, h9, h10, h11, Event.isAlloc]
  | some pcv =>
  by_cases h12 : host.validate_xen_vaddr (u64 pcv) = true
  swap
  · left; unfold decode_extended_state
    simp [h1, h2, h3, h4, h5, h6, Nat.not_lt.mpr h7, h8, h9, h10, h11, h12, Event.isAlloc]
  right
  exact ⟨pid, cur, off, pcv, h1, h2, h3, h4, h5, h6, h7, h8, h9, h10, h11, h12⟩

/-- No call recorded in `reads_trace` is an allocation. -/
theorem reads_trace_no_alloc (S : Symbols) (p : x86_64PCPU) (cur off pcv : Nat) :
    ∀ e ∈ reads_trace S p cur off pcv, e.isAlloc = false := by
  intro e he
  simp only [reads_trace, List.mem_cons, List.mem_singleton, List.not_mem_nil, or_false] at he
  rcases he with h | h | h | h | h | h | h <;> rw [h] <;> rfl

/-- The classification writes `vcpu_state` as the if-chain of the three
comparisons says, and leaves the identity of the processor and the two VCPU
pointers as they were read. -/
theorem decode_context_state (K : NoteLayout) (S : Symbols) (host : Host) (V : VCPUParser)
    (cpu_info : Nat) (p : x86_64PCPU) :
    (decode_context K S host V cpu_info p).pcpu.vcpu_state =
      context_of_comparisons
        (decide (p.current_vcpu_ptr = host.idle_vcpus p.processor_id))
        (decide (p.per_cpu_current_vcpu_ptr = host.idle_vcpus p.processor_id))
        (decide (p.current_vcpu_ptr = p.per_cpu_current_vcpu_ptr)) ∧
    (decode_context K S host V cpu_info p).pcpu.processor_id = p.processor_id ∧
    (decode_context K S host V cpu_info p).pcpu.current_vcpu_ptr = p.current_vcpu_ptr ∧
    (decode_context K S host V cpu_info p).pcpu.per_cpu_current_vcpu_ptr
      = p.per_cpu_current_vcpu_ptr := by
  unfold decode_context context_of_comparisons
  by_cases hp : p.per_cpu_current_vcpu_ptr = host.idle_vcpus p.processor_id
  · simp [hp]
  by_cases hc : p.current_vcpu_ptr = host.idle_vcpus p.processor_id
  · rw [if_neg hp, if_pos hc]
    dsimp only
    cases V.new_x86_64VCPU 0 with
    | none => simp [hp, hc]
    | some v0 =>
      dsimp only
      split
      · simp [hp, hc]
      · split <;> simp [hp, hc]
  by_cases he : p.current_vcpu_ptr = p.per_cpu_current_vcpu_ptr
  · rw [if_neg hp, if_neg hc, if_pos he]
    dsimp only
    cases V.new_x86_64VCPU 0 with
    | none => simp [hp, hc, he]
    | some v0 =>
      dsimp only
      split
      · simp [hp, hc, he]
      · split <;> simp [hp, hc, he]
  · rw [if_neg hp, if_neg hc, if_neg he]
    dsimp only
    cases V.new_x86_64VCPU 0 with
    | none => simp [hp, hc, he]
    | some v0 =>
      dsimp only
      split
      · simp [hp, hc, he]
      · split
        · simp [hp, hc, he]
        · cases V.new_x86_64VCPU 1 with
          | none => simp [hp, hc, he]
          | some w0 =>
            dsimp only
            split <;> simp [hp, hc, he]

/-- The first branch of the classification (lines 189-193): the per-CPU
pointer is the idle VCPU. -/
theorem decode_context_none (K : NoteLayout) (S : Symbols) (host : Host) (V : VCPUParser)
    (cpu_info : Nat) (p : x86_64PCPU)
    (hp : p.per_cpu_current_vcpu_ptr = host.idle_vcpus p.processor_id) :
    decode_context K S host V cpu_info p =
      { ret := true
        pcpu := { p with vcpu_state := .CTX_NONE, flags := p.flags ||| K.CPU_STACK_STATE }
        trace := [.idle_vcpus p.processor_id] } := by
  unfold decode_context
  simp [hp]

/-- The second branch of the classification (lines 194-206) when the allocation
and both parses succeed. -/
theorem decode_context_idle (K : NoteLayout) (S : Symbols) (host : Host) (V : VCPUParser)
    (cpu_info : Nat) (p : x86_64PCPU) (v0 : x86_64VCPU)
    (hp : p.per_cpu_current_vcpu_ptr ≠ host.idle_vcpus p.processor_id)
    (hc : p.current_vcpu_ptr = host.idle_vcpus p.processor_id)
    (h0 : V.new_x86_64VCPU 0 = some v0)
    (h1 : (V.parse_basic v0 p.per_cpu_current_vcpu_ptr p.asCPU).1 = true)
    (h2 : (V.parse_regs_from_stack (V.parse_basic v0 p.per_cpu_current_vcpu_ptr p.asCPU).2
      (u64 (cpu_info + S.CPUINFO_guest_cpu_user_regs)) p.regs.cr3).1 = true) :
    decode_context K S host V cpu_info p =
      { ret := true
        pcpu :=
          { p with
            vcpu_state := .CTX_IDLE
            vcpu := some
              { (V.parse_regs_from_stack (V.parse_basic v0 p.per_cpu_current_vcpu_ptr p.asCPU).2
                  (u64 (cpu_info + S.CPUINFO_guest_cpu_user_regs)) p.regs.cr3).2 with
                runstate := .RST_NONE }
            flags := p.flags ||| K.CPU_STACK_STATE }
        trace :=
          [.idle_vcpus p.processor_id, .idle_vcpus p.processor_id, .new_x86_64VCPU,
            .parse_basic p.per_cpu_current_vcpu_ptr,
            .parse_regs_from_stack (u64 (cpu_info + S.CPUINFO_guest_cpu_user_regs)) p.regs.cr3] } := by
  unfold decode_context
  rw [if_neg hp, if_pos hc]
  simp [h0, h1, h2]

/-- The third branch of the classification (lines 209-221) when the allocation
and both parses succeed. -/
theorem decode_context_running (K : NoteLayout) (S : Symbols) (host : Host) (V : VCPUParser)
    (cpu_info : Nat) (p : x86_64PCPU) (v0 : x86_64VCPU)
    (hp : p.per_cpu_current_vcpu_ptr ≠ host.idle_vcpus p.processor_id)
    (hc : p.current_vcpu_ptr ≠ host.idle_vcpus p.processor_id)
    (he : p.current_vcpu_ptr = p.per_cpu_current_vcpu_ptr)
    (h0 : V.new_x86_64VCPU 0 = some v0)
    (h1 : (V.parse_basic v0 p.per_cpu_current_vcpu_ptr p.asCPU).1 = true)
    (h2 : (V.parse_regs_from_stack (V.parse_basic v0 p.per_cpu_current_vcpu_ptr p.asCPU).2
      (u64 (cpu_info + S.CPUINFO_guest_cpu_user_regs)) p.regs.cr3).1 = true) :
    decode_context K S host V cpu_info p =
      { ret := true
        pcpu :=
          { p with
            vcpu_state := .CTX_RUNNING
            vcpu := some
              { (V.parse_regs_from_stack (V.parse_basic v0 p.per_cpu_current_vcpu_ptr p.asCPU).2
                  (u64 (cpu_info + S.CPUINFO_guest_cpu_user_regs)) p.regs.cr3).2 with
                runstate := .RST_RUNNING }
            flags := p.flags ||| K.CPU_STACK_STATE }
        trace :=
          [.idle_vcpus p.processor_id, .idle_vcpus p.processor_id, .new_x86_64VCPU,
            .parse_basic p.per_cpu_current_vcpu_ptr,
            .parse_regs_from_stack (u64 (cpu_info + S.CPUINFO_guest_cpu_user_regs)) p.regs.cr3] } := by
  unfold decode_context
  rw [if_neg hp, if_neg hc, if_pos he]
  simp [h0, h1, h2]

/-- The last branch of the classification (lines 222-241) when both allocations
and the three parses succeed. -/
theorem decode_context_switch (K : NoteLayout) (S : Symbols) (host : Host) (V : VCPUParser)
    (cpu_info : Nat) (p : x86_64PCPU) (v0 w0 : x86_64VCPU)
    (hp : p.per_cpu_current_vcpu_ptr ≠ host.idle_vcpus p.processor_id)
    (hc : p.current_vcpu_ptr ≠ host.idle_vcpus p.processor_id)
    (he : p.current_vcpu_ptr ≠ p.per_cpu_current_vcpu_ptr)
    (h0 : V.new_x86_64VCPU 0 = some v0)
    (h1 : (V.parse_basic v0 p.per_cpu_current_vcpu_ptr p.asCPU).1 = true)
    (h2 : (V.parse_regs_from_struct
      (V.parse_basic v0 p.per_cpu_current_vcpu_ptr p.asCPU).2).1 = true)
    (h3 : V.new_x86_64VCPU 1 = some w0)
    (h4 : (V.parse_basic w0 p.current_vcpu_ptr p.asCPU).1 = true) :
    decode_context K S host V cpu_info p =
      { ret := true
        pcpu :=
          { p with
            vcpu_state := .CTX_SWITCH
            ctx_from := some
              { (V.parse_regs_from_struct
                  (V.parse_basic v0 p.per_cpu_current_vcpu_ptr p.asCPU).2).2 with
                runstate := .RST_CTX_SWITCH }
            ctx_to := some
              { (V.parse_basic w0 p.current_vcpu_ptr p.asCPU).2 with runstate := .RST_NONE }
            flags := p.flags ||| K.CPU_STACK_STATE }
        trace :=
          [.idle_vcpus p.processor_id, .idle_vcpus p.processor_id, .new_x86_64VCPU,
            .parse_basic p.per_cpu_current_vcpu_ptr, .parse_regs_from_struct, .new_x86_64VCPU,
            .parse_basic p.current_vcpu_ptr] } := by
  unfold decode_context
  rw [if_neg hp, if_neg hc, if_neg he]
  simp [h0, h1, h2, h3, h4]

/-- A failing classification has called the allocator, leaves the flags as they
were, and, on a PCPU whose three owned pointers were null, leaves them null
exactly when its first allocation failed. -/
theorem decode_context_failure (K : NoteLayout) (S : Symbols) (host : Host) (V : VCPUParser)
    (cpu_info : Nat) (p : x86_64PCPU)
    (hnull : p.vcpu = none ∧ p.ctx_from = none ∧ p.ctx_to = none)
    (hfail : (decode_context K S host V cpu_info p).ret = false) :
    Event.new_x86_64VCPU ∈ (decode_context K S host V cpu_info p).trace ∧
    (decode_context K S host V cpu_info p).pcpu.flags = p.flags ∧
    (((decode_context K S host V cpu_info p).pcpu.vcpu = none ∧
      (decode_context K S host V cpu_info p).pcpu.ctx_from = none ∧
      (decode_context K S host V cpu_info p).pcpu.ctx_to = none) ↔
      V.new_x86_64VCPU 0 = none) := by
  obtain ⟨hv, hf, ht⟩ := hnull
  revert hfail
  unfold decode_context
  by_cases hp : p.per_cpu_current_vcpu_ptr = host.idle_vcpus p.processor_id
  · simp [hp]
  by_cases hc : p.current_vcpu_ptr = host.idle_vcpus p.processor_id
  · rw [if_neg hp, if_pos hc]
    dsimp only
    cases V.new_x86_64VCPU 0 with
    | none => simp [hv, hf, ht]
    | some v0 =>
      dsimp only
      split
      · simp [hv, hf, ht]
      · split <;> simp [hv, hf, ht]
  by_cases he : p.current_vcpu_ptr = p.per_cpu_current_vcpu_ptr
  · rw [if_neg hp, if_neg hc, if_pos he]
    dsimp only
    cases V.new_x86_64VCPU 0 with
    | none => simp [hv, hf, ht]
    | some v0 =>
      dsimp only
      split
      · simp [hv, hf, ht]
      · split <;> simp [hv, hf, ht]
  · rw [if_neg hp, if_neg hc, if_neg he]
    dsimp only
    cases V.new_x86_64VCPU 0 with
    | none => simp [hv, hf, ht]
    | some v0 =>
      dsimp only
      split
      · simp [hv, hf, ht]
      · split
        · simp [hv, hf, ht]
        · cases V.new_x86_64VCPU 1 with
          | none => simp [hv, hf, ht]
          | some w0 =>
            dsimp only
            split <;> simp [hv, hf, ht]

/-! ## The note parsers -/

/-- C1: on a buffer whose length differs from `sizeof(ELF_Prstatus)`,
`parse_pr_status` returns false and leaves the PCPU as it was: every register of
the snapshot and the flags word keep their values, so `CPU_CORE_STATE` stays
unset if it was unset. -/
theorem parse_pr_status_wrong_length (K : NoteLayout) (p : x86_64PCPU) (ptr : ELF_Prstatus)
    (len : Nat) (hlen : len ≠ K.sizeof_ELF_Prstatus) :
    (parse_pr_status K p ptr len).1 = false ∧
    (parse_pr_status K p ptr len).2 = p ∧
    (parse_pr_status K p ptr len).2.regs = p.regs ∧
    (parse_pr_status K p ptr len).2.flags = p.flags ∧
    (p.flags &&& K.CPU_CORE_STATE = 0 →
      (parse_pr_status K p ptr len).2.flags &&& K.CPU_CORE_STATE = 0) := by
  have h : parse_pr_status K p ptr len = (false, p) := by
    unfold parse_pr_status
    rw [if_pos hlen]
  rw [h]
  exact ⟨rfl, rfl, rfl, rfl, fun h0 => h0⟩

/-- C1, on a note one byte short (335 bytes instead of 336) handed to a freshly
constructed PCPU. -/
theorem parse_pr_status_wrong_length_witness :
    (parse_pr_status exLayout exFresh exNote 335).1 = false ∧
    (parse_pr_status exLayout exFresh exNote 335).2 = exFresh ∧
    (parse_pr_status exLayout exFresh exNote 335).2.flags &&& exLayout.CPU_CORE_STATE = 0 :=
  have h := parse_pr_status_wrong_length exLayout exFresh exNote 335 (by decide)
  ⟨h.1, h.2.1, h.2.2.2.2 (by decide)⟩

/-- C2: on a buffer of length `sizeof(ELF_Prstatus)`, `parse_pr_status` returns
true; each of the 25 core registers equals the slot of `pr_reg` of the same
name, narrowed to the width of the field; the flags are the old flags OR
`CPU_CORE_STATE`; `cr0`, `cr2`, `cr3`, `cr4` and every other field of the PCPU
are unchanged. -/
theorem parse_pr_status_right_length (K : NoteLayout) (p : x86_64PCPU) (ptr : ELF_Prstatus)
    (len : Nat) (hlen : len = K.sizeof_ELF_Prstatus) :
    (parse_pr_status K p ptr len).1 = true ∧
    ((parse_pr_status K p ptr len).2.regs.r15 = u64 (ptr.pr_reg K.PR_REG_r15) ∧
     (parse_pr_status K p ptr len).2.regs.r14 = u64 (ptr.pr_reg K.PR_REG_r14) ∧
     (parse_pr_status K p ptr len).2.regs.r13 = u64 (ptr.pr_reg K.PR_REG_r13) ∧
     (parse_pr_status K p ptr len).2.regs.r12 = u64 (ptr.pr_reg K.PR_REG_r12) ∧
     (parse_pr_status K p ptr len).2.regs.r11 = u64 (ptr.pr_reg K.PR_REG_r11) ∧
     (parse_pr_status K p ptr len).2.regs.r10 = u64 (ptr.pr_reg K.PR_REG_r10) ∧
     (parse_pr_status K p ptr len).2.regs.r9 = u64 (ptr.pr_reg K.PR_REG_r9) ∧
     (parse_pr_status K p ptr len).2.regs.r8 = u64 (ptr.pr_reg K.PR_REG_r8)) ∧
    ((parse_pr_status K p ptr len).2.regs.rax = u64 (ptr.pr_reg K.PR_REG_rax) ∧
     (parse_pr_status K p ptr len).2.regs.rbx = u64 (ptr.pr_reg K.PR_REG_rbx) ∧
     (parse_pr_status K p ptr len).2.regs.rcx = u64 (ptr.pr_reg K.PR_REG_rcx) ∧
     (parse_pr_status K p ptr len).2.regs.rdx = u64 (ptr.pr_reg K.PR_REG_rdx) ∧
     (parse_pr_status K p ptr len).2.regs.rsi = u64 (ptr.pr_reg K.PR_REG_rsi) ∧
     (parse_pr_status K p ptr len).2.regs.rdi = u64 (ptr.pr_reg K.PR_REG_rdi) ∧
     (parse_pr_status K p ptr len).2.regs.rbp = u64 (ptr.pr_reg K.PR_REG_rbp) ∧
     (parse_pr_status K p ptr len).2.regs.orig_rax = u64 (ptr.pr_reg K.PR_REG_orig_rax)) ∧
    ((parse_pr_status K p ptr len).2.regs.rip = u64 (ptr.pr_reg K.PR_REG_rip) ∧
     (parse_pr_status K p ptr len).2.regs.rsp = u64 (ptr.pr_reg K.PR_REG_rsp) ∧
     (parse_pr_status K p ptr len).2.regs.rflags = u64 (ptr.pr_reg K.PR_REG_rflags)) ∧
    ((parse_pr_status K p ptr len).2.regs.cs = u16 (ptr.pr_reg K.PR_REG_cs) ∧
     (parse_pr_status K p ptr len).2.regs.ds = u16 (ptr.pr_reg K.PR_REG_ds) ∧
     (parse_pr_status K p ptr len).2.regs.es = u16 (ptr.pr_reg K.PR_REG_es) ∧
     (parse_pr_status K p ptr len).2.regs.ss = u16 (ptr.pr_reg K.PR_REG_ss) ∧
     (parse_pr_status K p ptr len).2.regs.fs = u16 (ptr.pr_reg K.PR_REG_fs) ∧
     (parse_pr_status K p ptr len).2.regs.gs = u16 (ptr.pr_reg K.PR_REG_gs)) ∧
    (parse_pr_status K p ptr len).2.flags = p.flags ||| K.CPU_CORE_STATE ∧
    ((parse_pr_status K p ptr len).2.regs.cr0 = p.regs.cr0 ∧
     (parse_pr_status K p ptr len).2.regs.cr2 = p.regs.cr2 ∧
     (parse_pr_status K p ptr len).2.regs.cr3 = p.regs.cr3 ∧
     (parse_pr_status K p ptr len).2.regs.cr4 = p.regs.cr4) ∧
    { (parse_pr_status K p ptr len).2 with regs := p.regs, flags := p.flags } = p := by
  have h : parse_pr_status K p ptr len = (true,
      { p with
        regs :=
          { p.regs with
            r15 := u64 (ptr.pr_reg K.PR_REG_r15)
            r14 := u64 (ptr.pr_reg K.PR_REG_r14)
            r13 := u64 (ptr.pr_reg K.PR_REG_r13)
            r12 := u64 (ptr.pr_reg K.PR_REG_r12)
            rbp := u64 (ptr.pr_reg K.PR_REG_rbp)
            rbx := u64 (ptr.pr_reg K.PR_REG_rbx)
            r11 := u64 (ptr.pr_reg K.PR_REG_r11)
            r10 := u64 (ptr.pr_reg K.PR_REG_r10)
            r9 := u64 (ptr.pr_reg K.PR_REG_r9)
            r8 := u64 (ptr.pr_reg K.PR_REG_r8)
            rax := u64 (ptr.pr_reg K.PR_REG_rax)
            rcx := u64 (ptr.pr_reg K.PR_REG_rcx)
            rdx := u64 (ptr.pr_reg K.PR_REG_rdx)
            rsi := u64 (ptr.pr_reg K.PR_REG_rsi)
            rdi := u64 (ptr.pr_reg K.PR_REG_rdi)
            orig_rax := u64 (ptr.pr_reg K.PR_REG_orig_rax)
            rip := u64 (ptr.pr_reg K.PR_REG_rip)
            cs := u16 (ptr.pr_reg K.PR_REG_cs)
            rflags := u64 (ptr.pr_reg K.PR_REG_rflags)
            rsp := u64 (ptr.pr_reg K.PR_REG_rsp)
            ds := u16 (ptr.pr_reg K.PR_REG_ds)
            es := u16 (ptr.pr_reg K.PR_REG_es)
            ss := u16 (ptr.pr_reg K.PR_REG_ss)
            fs := u16 (ptr.pr_reg K.PR_REG_fs)
            gs := u16 (ptr.pr_reg K.PR_REG_gs) }
        flags := p.flags ||| K.CPU_CORE_STATE }) := by
    unfold parse_pr_status
    rw [if_neg (not_not.mpr hlen)]
  rw [h]
  refine ⟨rfl, ⟨rfl, rfl, rfl, rfl, rfl, rfl, rfl, rfl⟩, ⟨rfl, rfl, rfl, rfl, rfl, rfl, rfl, rfl⟩,
    ⟨rfl, rfl, rfl⟩, ⟨rfl, rfl, rfl, rfl, rfl, rfl⟩, rfl, ⟨rfl, rfl, rfl, rfl⟩, rfl⟩

/-- C2, on the 336-byte example note handed to a freshly constructed PCPU: the
call succeeds, `rsp` is the stack pointer of the note, `cs` is slot 17 narrowed to
16 bits, and `CPU_CORE_STATE` is the only flag set. -/
theorem parse_pr_status_right_length_witness :
    (parse_pr_status exLayout exFresh exNote 336).1 = true ∧
    (parse_pr_status exLayout exFresh exNote 336).2.regs.rsp = 0xffff83007f4f7e10 ∧
    (parse_pr_status exLayout exFresh exNote 336).2.regs.cs = 0x12011 % 0x10000 ∧
    (parse_pr_status exLayout exFresh exNote 336).2.flags = 1 :=
  have h := parse_pr_status_right_length exLayout exFresh exNote 336 rfl
  ⟨h.1, h.2.2.2.1.2.1.trans (by decide), h.2.2.2.2.1.1.trans (by decide),
    h.2.2.2.2.2.1.trans (by decide)⟩

/-- C3: `parse_xen_crash_core` returns true exactly when the length of the
buffer is `sizeof(x86_64_crash_xen_core_t)`.  When it returns false the PCPU is
unchanged; when it returns true, `cr0`, `cr2`, `cr3`, `cr4` are the fields of
the note of the same name, the flags are the old flags OR `CPU_EXTD_STATE`, and
every core register (and every other field of the PCPU) is unchanged. -/
theorem parse_xen_crash_core_spec (K : NoteLayout) (p : x86_64PCPU)
    (ptr : x86_64_crash_xen_core_t) (len : Nat) :
    ((parse_xen_crash_core K p ptr len).1 = true ↔ len = K.sizeof_x86_64_crash_xen_core_t) ∧
    ((parse_xen_crash_core K p ptr len).1 = false → (parse_xen_crash_core K p ptr len).2 = p) ∧
    ((parse_xen_crash_core K p ptr len).1 = true →
      (parse_xen_crash_core K p ptr len).2.regs.cr0 = u64 ptr.cr0 ∧
      (parse_xen_crash_core K p ptr len).2.regs.cr2 = u64 ptr.cr2 ∧
      (parse_xen_crash_core K p ptr len).2.regs.cr3 = u64 ptr.cr3 ∧
      (parse_xen_crash_core K p ptr len).2.regs.cr4 = u64 ptr.cr4 ∧
      (parse_xen_crash_core K p ptr len).2.flags = p.flags ||| K.CPU_EXTD_STATE ∧
      { (parse_xen_crash_core K p ptr len).2.regs with
          cr0 := p.regs.cr0, cr2 := p.regs.cr2, cr3 := p.regs.cr3, cr4 := p.regs.cr4 } = p.regs ∧
      { (parse_xen_crash_core K p ptr len).2 with regs := p.regs, flags := p.flags } = p) := by
  by_cases hlen : len = K.sizeof_x86_64_crash_xen_core_t
  · have h : parse_xen_crash_core K p ptr len = (true,
        { p with
          regs := { p.regs with
            cr0 := u64 ptr.cr0, cr2 := u64 ptr.cr2, cr3 := u64 ptr.cr3, cr4 := u64 ptr.cr4 }
          flags := p.flags ||| K.CPU_EXTD_STATE }) := by
      unfold parse_xen_crash_core
      rw [if_neg (not_not.mpr hlen)]
    rw [h]
    exact ⟨⟨fun _ => hlen, fun _ => rfl⟩, fun h0 => absurd h0 (by simp),
      fun _ => ⟨rfl, rfl, rfl, rfl, rfl, rfl, rfl⟩⟩
  · have h : parse_xen_crash_core K p ptr len = (false, p) := by
      unfold parse_xen_crash_core
      rw [if_pos hlen]
    rw [h]
    exact ⟨⟨fun h0 => absurd h0 (by simp), fun h0 => absurd h0 hlen⟩, fun _ => rfl,
      fun h0 => absurd h0 (by simp)⟩

/-! ## Preconditions of the decode -/

/-- C4: when `CPU_EXTD_STATE` is not set in the flags, or one of
`required_vcpu_symbols`, `required_cpuinfo_symbols`, `required_per_cpu_symbols`
is non-zero, `decode_extended_state` returns false, performs no memory read (it
calls no collaborator at all) and changes no field of the PCPU. -/
theorem decode_extended_state_precondition (K : NoteLayout) (S : Symbols) (host : Host)
    (memory : Memory) (V : VCPUParser) (p : x86_64PCPU)
    (hpre : p.flags &&& K.CPU_EXTD_STATE = 0 ∨ S.required_vcpu_symbols ≠ 0 ∨
      S.required_cpuinfo_symbols ≠ 0 ∨ S.required_per_cpu_symbols ≠ 0) :
    (decode_extended_state K S host memory V p).ret = false ∧
    (∀ e ∈ (decode_extended_state K S host memory V p).trace, e.isRead = false) ∧
    (decode_extended_state K S host memory V p).trace = [] ∧
    (decode_extended_state K S host memory V p).pcpu = p := by
  have h : decode_extended_state K S host memory V p = { ret := false, pcpu := p, trace := [] } := by
    unfold decode_extended_state
    by_cases h1 : p.flags &&& K.CPU_EXTD_STATE = 0
    · rw [if_pos h1]
    · rw [if_neg h1]
      by_cases h2 : S.required_vcpu_symbols ≠ 0
      · rw [if_pos h2]
      · rw [if_neg h2]
        by_cases h3 : S.required_cpuinfo_symbols ≠ 0
        · rw [if_pos h3]
        · rw [if_neg h3]
          by_cases h4 : S.required_per_cpu_symbols ≠ 0
          · rw [if_pos h4]
          · rcases hpre with h | h | h | h
            · exact absurd h h1
            · exact absurd h h2
            · exact absurd h h3
            · exact absurd h h4
  rw [h]
  exact ⟨rfl, fun e he => absurd he (List.not_mem_nil e), rfl, rfl⟩

/-- C4, on a PCPU that has parsed its core-state note only (`CPU_EXTD_STATE`
unset), in a dump where the decode would otherwise succeed. -/
theorem decode_extended_state_precondition_witness :
    (decode_extended_state exLayout exSymbols exHost (exMemory exIdle exIdle) exParser
      (parse_pr_status exLayout exFresh exNote 336).2).ret = false ∧
    (decode_extended_state exLayout exSymbols exHost (exMemory exIdle exIdle) exParser
      (parse_pr_status exLayout exFresh exNote 336).2).pcpu
      = (parse_pr_status exLayout exFresh exNote 336).2 :=
  have h := decode_extended_state_precondition exLayout exSymbols exHost (exMemory exIdle exIdle)
    exParser (parse_pr_status exLayout exFresh exNote 336).2 (Or.inl (by decide))
  ⟨h.1, h.2.2.2⟩

/-! ## Classification of the context -/

/-- C5, as stated, fails: in a dump where the decode succeeds, the per-CPU
pointer is the idle VCPU of the processor and the stack-resident pointer is a
guest VCPU ("only the per-CPU pointer idle"), the code produces `CTX_NONE`,
where the table of the spec has `CTX_IDLE`. -/
theorem decode_extended_state_spec_table_counterexample :
    (decode_extended_state exLayout exSymbols exHost (exMemory exGuestA exIdle) exParser
      exParsed).ret = true ∧
    (decode_extended_state exLayout exSymbols exHost (exMemory exGuestA exIdle) exParser
      exParsed).pcpu.processor_id = 1 ∧
    (decode_extended_state exLayout exSymbols exHost (exMemory exGuestA exIdle) exParser
      exParsed).pcpu.per_cpu_current_vcpu_ptr = exHost.idle_vcpus 1 ∧
    (decode_extended_state exLayout exSymbols exHost (exMemory exGuestA exIdle) exParser
      exParsed).pcpu.current_vcpu_ptr ≠ exHost.idle_vcpus 1 ∧
    spec_context_table false true false = some .CTX_IDLE ∧
    (decode_extended_state exLayout exSymbols exHost (exMemory exGuestA exIdle) exParser
      exParsed).pcpu.vcpu_state = .CTX_NONE := by
  decide

/-- C5, amended: a successful decode writes a `vcpu_state` that is a function of
the three comparisons only (`context_of_comparisons`), is never `CTX_UNKNOWN`,
and follows the table of the code: per-CPU pointer idle gives NONE (whatever the
stack-resident pointer); only the stack-resident pointer idle gives IDLE;
neither idle and equal gives RUNNING; neither idle and different gives SWITCH. -/
theorem decode_extended_state_classification (K : NoteLayout) (S : Symbols) (host : Host)
    (memory : Memory) (V : VCPUParser) (p : x86_64PCPU) (r : Outcome)
    (hr : decode_extended_state K S host memory V p = r) (hret : r.ret = true) :
    r.pcpu.vcpu_state =
      context_of_comparisons
        (decide (r.pcpu.current_vcpu_ptr = host.idle_vcpus r.pcpu.processor_id))
        (decide (r.pcpu.per_cpu_current_vcpu_ptr = host.idle_vcpus r.pcpu.processor_id))
        (decide (r.pcpu.current_vcpu_ptr = r.pcpu.per_cpu_current_vcpu_ptr)) ∧
    r.pcpu.vcpu_state ≠ .CTX_UNKNOWN ∧
    (r.pcpu.per_cpu_current_vcpu_ptr = host.idle_vcpus r.pcpu.processor_id →
      r.pcpu.vcpu_state = .CTX_NONE) ∧
    (r.pcpu.per_cpu_current_vcpu_ptr ≠ host.idle_vcpus r.pcpu.processor_id →
      r.pcpu.current_vcpu_ptr = host.idle_vcpus r.pcpu.processor_id →
      r.pcpu.vcpu_state = .CTX_IDLE) ∧
    (r.pcpu.per_cpu_current_vcpu_ptr ≠ host.idle_vcpus r.pcpu.processor_id →
      r.pcpu.current_vcpu_ptr ≠ host.idle_vcpus r.pcpu.processor_id →
      r.pcpu.current_vcpu_ptr = r.pcpu.per_cpu_current_vcpu_ptr →
      r.pcpu.vcpu_state = .CTX_RUNNING) ∧
    (r.pcpu.per_cpu_current_vcpu_ptr ≠ host.idle_vcpus r.pcpu.processor_id →
      r.pcpu.current_vcpu_ptr ≠ host.idle_vcpus r.pcpu.processor_id →
      r.pcpu.current_vcpu_ptr ≠ r.pcpu.per_cpu_current_vcpu_ptr →
      r.pcpu.vcpu_state = .CTX_SWITCH) := by
  have key : r.pcpu.vcpu_state =
      context_of_comparisons
        (decide (r.pcpu.current_vcpu_ptr = host.idle_vcpus r.pcpu.processor_id))
        (decide (r.pcpu.per_cpu_current_vcpu_ptr = host.idle_vcpus r.pcpu.processor_id))
        (decide (r.pcpu.current_vcpu_ptr = r.pcpu.per_cpu_current_vcpu_ptr)) := by
    rcases decode_extended_state_cases K S host memory V p with hearly | ⟨pid, cur, off, pcv, hreads⟩
    · rw [hr] at hearly
      rw [hearly.1] at hret
      exact absurd hret (by decide)
    · rw [decode_extended_state_of_reads K S host memory V p pid cur off pcv hreads] at hr
      subst hr
      obtain ⟨h1, h2, h3, h4⟩ := decode_context_state K S host V (cpuinfo_addr S p.regs.rsp)
        (after_reads p pid cur off pcv)
      dsimp only
      rw [h1, h2, h3, h4]
  refine ⟨key, ?_, ?_, ?_, ?_, ?_⟩
  · rw [key]
    unfold context_of_comparisons
    split_ifs <;> decide
  · intro hp
    rw [key]
    simp [context_of_comparisons, hp]
  · intro hp hc
    rw [key]
    simp [context_of_comparisons, hp, hc]
  · intro hp hc he
    rw [key]
    simp only [context_of_comparisons, hp, hc, decide_False, decide_True, he]
    simp
  · intro hp hc he
    rw [key]
    simp [context_of_comparisons, hp, hc, he]

/-- C5 amended, on a dump in which only the stack-resident pointer is idle: the
decode succeeds and classifies the PCPU as `CTX_IDLE`. -/
theorem decode_extended_state_classification_witness :
    (decode_extended_state exLayout exSymbols exHost (exMemory exIdle exGuestA) exParser
      exParsed).ret = true ∧
    (decode_extended_state exLayout exSymbols exHost (exMemory exIdle exGuestA) exParser
      exParsed).pcpu.vcpu_state = .CTX_IDLE :=
  have h := decode_extended_state_classification exLayout exSymbols exHost
    (exMemory exIdle exGuestA) exParser exParsed _ rfl (by decide)
  ⟨by decide, h.2.2.2.1 (by decide) (by decide)⟩

/-- C6: when the preconditions hold, all reads and validations succeed and both
VCPU pointers are the idle VCPU of the processor, `decode_extended_state` returns
true with `vcpu_state == CTX_NONE` and `CPU_STACK_STATE` set, calls the allocator
not at all, and leaves `vcpu`, `ctx_from` and `ctx_to` as they were (null when
they were null). -/
theorem decode_extended_state_both_idle (K : NoteLayout) (S : Symbols) (host : Host)
    (memory : Memory) (V : VCPUParser) (p : x86_64PCPU) (pid cur off pcv : Nat)
    (hreads : ReadsSucceed K S host memory p pid cur off pcv)
    (hcur : u64 cur = host.idle_vcpus (u32 pid))
    (hsame : u64 cur = u64 pcv)
    (r : Outcome) (hr : decode_extended_state K S host memory V p = r) :
    r.ret = true ∧
    r.pcpu.vcpu_state = .CTX_NONE ∧
    r.pcpu.flags = p.flags ||| K.CPU_STACK_STATE ∧
    r.pcpu.flags &&& K.CPU_STACK_STATE = K.CPU_STACK_STATE ∧
    (∀ e ∈ r.trace, e.isAlloc = false) ∧
    r.pcpu.vcpu = p.vcpu ∧ r.pcpu.ctx_from = p.ctx_from ∧ r.pcpu.ctx_to = p.ctx_to ∧
    (p.vcpu = none ∧ p.ctx_from = none ∧ p.ctx_to = none →
      r.pcpu.vcpu = none ∧ r.pcpu.ctx_from = none ∧ r.pcpu.ctx_to = none) := by
  have hp : (after_reads p pid cur off pcv).per_cpu_current_vcpu_ptr =
      host.idle_vcpus (after_reads p pid cur off pcv).processor_id := hsame.symm.trans hcur
  rw [decode_extended_state_of_reads K S host memory V p pid cur off pcv hreads,
    decode_context_none K S host V _ _ hp] at hr
  subst hr
  refine ⟨rfl, rfl, rfl, lor_land_self _ _, ?_, rfl, rfl, rfl, fun h => h⟩
  intro e he
  rcases List.mem_append.mp he with h | h
  · exact reads_trace_no_alloc S p cur off pcv e h
  · rw [List.mem_singleton.mp h]
    rfl

/-- C6, on the dump in which both pointers of processor 1 are its idle VCPU. -/
theorem decode_extended_state_both_idle_witness :
    (decode_extended_state exLayout exSymbols exHost (exMemory exIdle exIdle) exParser
      exParsed).ret = true ∧
    (decode_extended_state exLayout exSymbols exHost (exMemory exIdle exIdle) exParser
      exParsed).pcpu.vcpu_state = .CTX_NONE ∧
    (decode_extended_state exLayout exSymbols exHost (exMemory exIdle exIdle) exParser
      exParsed).pcpu.vcpu = none :=
  have h := decode_extended_state_both_idle exLayout exSymbols exHost (exMemory exIdle exIdle)
    exParser exParsed 1 exIdle 0xffff83007f500000 exIdle (by decide) (by decide) (by decide) _ rfl
  ⟨h.1, h.2.1, (h.2.2.2.2.2.2.2.2 (by decide)).1⟩

/-- C7, as stated, fails: in a dump where everything succeeds, the per-CPU
pointer is the idle VCPU of the processor and the stack-resident pointer is not,
the decode classifies the PCPU as `CTX_NONE`, not `CTX_IDLE`, and allocates no
VCPU. -/
theorem decode_extended_state_percpu_idle_counterexample :
    ReadsSucceed exLayout exSymbols exHost (exMemory exGuestB exIdle) exParsed
      1 exGuestB 0xffff83007f500000 exIdle ∧
    u64 exIdle = exHost.idle_vcpus (u32 1) ∧
    u64 exGuestB ≠ exHost.idle_vcpus (u32 1) ∧
    (decode_extended_state exLayout exSymbols exHost (exMemory exGuestB exIdle) exParser
      exParsed).pcpu.vcpu_state = .CTX_NONE ∧
    (decode_extended_state exLayout exSymbols exHost (exMemory exGuestB exIdle) exParser
      exParsed).pcpu.vcpu_state ≠ .CTX_IDLE ∧
    (decode_extended_state exLayout exSymbols exHost (exMemory exGuestB exIdle) exParser
      exParsed).pcpu.vcpu = none ∧
    (decode_extended_state exLayout exSymbols exHost (exMemory exGuestB exIdle) exParser
      exParsed).trace.countP Event.isAlloc = 0 := by
  decide

/-- C7, amended: when the preconditions hold, all reads and validations succeed,
the stack-resident `current_vcpu_ptr` is the idle VCPU of the processor and
`per_cpu_current_vcpu_ptr` is not, and the allocation and the two parses
succeed, `decode_extended_state` returns true with `vcpu_state == CTX_IDLE` and
exactly one VCPU allocated, in `vcpu`: identity parsed from
`per_cpu_current_vcpu_ptr`, registers parsed from the stack at
`cpu_info + CPUINFO_guest_cpu_user_regs` with the `cr3` of the PCPU, runstate
`RST_NONE`. -/
theorem decode_extended_state_stack_idle (K : NoteLayout) (S : Symbols) (host : Host)
    (memory : Memory) (V : VCPUParser) (p : x86_64PCPU) (pid cur off pcv : Nat)
    (hreads : ReadsSucceed K S host memory p pid cur off pcv)
    (hcur : u64 cur = host.idle_vcpus (u32 pid))
    (hpcv : u64 pcv ≠ host.idle_vcpus (u32 pid))
    (v0 : x86_64VCPU) (halloc : V.new_x86_64VCPU 0 = some v0)
    (hbasic : (V.parse_basic v0 (u64 pcv) p.asCPU).1 = true)
    (hregs : (V.parse_regs_from_stack (V.parse_basic v0 (u64 pcv) p.asCPU).2
      (u64 (cpuinfo_addr S p.regs.rsp + S.CPUINFO_guest_cpu_user_regs)) p.regs.cr3).1 = true)
    (r : Outcome) (hr : decode_extended_state K S host memory V p = r) :
    r.ret = true ∧
    r.pcpu.vcpu_state = .CTX_IDLE ∧
    r.pcpu.per_cpu_current_vcpu_ptr = u64 pcv ∧
    r.pcpu.vcpu = some
      { (V.parse_regs_from_stack (V.parse_basic v0 (u64 pcv) p.asCPU).2
          (u64 (cpuinfo_addr S p.regs.rsp + S.CPUINFO_guest_cpu_user_regs)) p.regs.cr3).2 with
        runstate := .RST_NONE } ∧
    r.pcpu.ctx_from = p.ctx_from ∧ r.pcpu.ctx_to = p.ctx_to ∧
    r.trace.countP Event.isAlloc = 1 ∧
    r.trace = reads_trace S p cur off pcv ++
      [.idle_vcpus (u32 pid), .idle_vcpus (u32 pid), .new_x86_64VCPU, .parse_basic (u64 pcv),
        .parse_regs_from_stack
          (u64 (cpuinfo_addr S p.regs.rsp + S.CPUINFO_guest_cpu_user_regs)) p.regs.cr3] := by
  rw [decode_extended_state_of_reads K S host memory V p pid cur off pcv hreads,
    decode_context_idle K S host V _ (after_reads p pid cur off pcv) v0 hpcv hcur halloc hbasic
      hregs] at hr
  subst hr
  refine ⟨rfl, rfl, rfl, rfl, rfl, rfl, ?_, rfl⟩
  simp [reads_trace, Event.isAlloc, List.countP_cons]

/-- C7 amended, on the dump in which the stack-resident pointer of processor 1
is its idle VCPU and the per-CPU pointer is guest VCPU A. -/
theorem decode_extended_state_stack_idle_witness :
    (decode_extended_state exLayout exSymbols exHost (exMemory exIdle exGuestA) exParser
      exParsed).ret = true ∧
    (decode_extended_state exLayout exSymbols exHost (exMemory exIdle exGuestA) exParser
      exParsed).pcpu.vcpu_state = .CTX_IDLE ∧
    (decode_extended_state exLayout exSymbols exHost (exMemory exIdle exGuestA) exParser
      exParsed).trace.countP Event.isAlloc = 1 :=
  have h := decode_extended_state_stack_idle exLayout exSymbols exHost (exMemory exIdle exGuestA)
    exParser exParsed 1 exIdle 0xffff83007f500000 exGuestA (by decide) (by decide) (by decide)
    exBlank rfl (by decide) (by decide) _ rfl
  ⟨h.1, h.2.1, h.2.2.2.2.2.2.1⟩

/-- C8: when the preconditions hold, all reads, validations, allocations and
VCPU parses succeed, neither pointer is the idle VCPU of the processor and the
two pointers differ, `decode_extended_state` returns true with
`vcpu_state == CTX_SWITCH`; `vcpu` is left as it was (null when it was null);
`ctx_from` is built by `parse_basic(per_cpu_current_vcpu_ptr)` followed by
`parse_regs_from_struct`, with runstate `RST_CTX_SWITCH`; `ctx_to` is built by
`parse_basic(current_vcpu_ptr)` only, with runstate `RST_NONE`: the single
register parse of the call precedes the allocation of `ctx_to`. -/
theorem decode_extended_state_switch (K : NoteLayout) (S : Symbols) (host : Host)
    (memory : Memory) (V : VCPUParser) (p : x86_64PCPU) (pid cur off pcv : Nat)
    (hreads : ReadsSucceed K S host memory p pid cur off pcv)
    (hcur : u64 cur ≠ host.idle_vcpus (u32 pid))
    (hpcv : u64 pcv ≠ host.idle_vcpus (u32 pid))
    (hdiff : u64 cur ≠ u64 pcv)
    (v0 w0 : x86_64VCPU) (halloc0 : V.new_x86_64VCPU 0 = some v0)
    (hbasic0 : (V.parse_basic v0 (u64 pcv) p.asCPU).1 = true)
    (hstruct : (V.parse_regs_from_struct (V.parse_basic v0 (u64 pcv) p.asCPU).2).1 = true)
    (halloc1 : V.new_x86_64VCPU 1 = some w0)
    (hbasic1 : (V.parse_basic w0 (u64 cur) p.asCPU).1 = true)
    (r : Outcome) (hr : decode_extended_state K S host memory V p = r) :
    r.ret = true ∧
    r.pcpu.vcpu_state = .CTX_SWITCH ∧
    r.pcpu.current_vcpu_ptr = u64 cur ∧
    r.pcpu.per_cpu_current_vcpu_ptr = u64 pcv ∧
    r.pcpu.vcpu = p.vcpu ∧
    (p.vcpu = none → r.pcpu.vcpu = none) ∧
    r.pcpu.ctx_from = some
      { (V.parse_regs_from_struct (V.parse_basic v0 (u64 pcv) p.asCPU).2).2 with
        runstate := .RST_CTX_SWITCH } ∧
    r.pcpu.ctx_to = some { (V.parse_basic w0 (u64 cur) p.asCPU).2 with runstate := .RST_NONE } ∧
    r.trace.countP Event.isRegsParse = 1 ∧
    r.trace = reads_trace S p cur off pcv ++
      [.idle_vcpus (u32 pid), .idle_vcpus (u32 pid), .new_x86_64VCPU, .parse_basic (u64 pcv),
        .parse_regs_from_struct, .new_x86_64VCPU, .parse_basic (u64 cur)] := by
  rw [decode_extended_state_of_reads K S host memory V p pid cur off pcv hreads,
    decode_context_switch K S host V _ (after_reads p pid cur off pcv) v0 w0 hpcv hcur hdiff
      halloc0 hbasic0 hstruct halloc1 hbasic1] at hr
  subst hr
  refine ⟨rfl, rfl, rfl, rfl, rfl, fun h => h, rfl, rfl, ?_, rfl⟩
  simp [reads_trace, Event.isRegsParse, List.countP_cons]

/-- C8, on the dump in which the stack-resident pointer of processor 1 is guest
VCPU A and the per-CPU pointer is guest VCPU B. -/
theorem decode_extended_state_switch_witness :
    (decode_extended_state exLayout exSymbols exHost (exMemory exGuestA exGuestB) exParser
      exParsed).ret = true ∧
    (decode_extended_state exLayout exSymbols exHost (exMemory exGuestA exGuestB) exParser
      exParsed).pcpu.vcpu_state = .CTX_SWITCH ∧
    (decode_extended_state exLayout exSymbols exHost (exMemory exGuestA exGuestB) exParser
      exParsed).pcpu.vcpu = none :=
  have h := decode_extended_state_switch exLayout exSymbols exHost (exMemory exGuestA exGuestB)
    exParser exParsed 1 exGuestA 0xffff83007f500000 exGuestB (by decide) (by decide) (by decide)
    (by decide) exBlank exBlank rfl (by decide) (by decide) rfl (by decide) _ rfl
  ⟨h.1, h.2.1, h.2.2.2.2.2.1 (by decide)⟩

/-- C9: when the preconditions hold, all reads, validations, the allocation and
the VCPU parses succeed, neither pointer is the idle VCPU of the processor and
the two pointers are equal, `decode_extended_state` returns true with
`vcpu_state == CTX_RUNNING`; `ctx_from` and `ctx_to` are left as they were (null
when they were null); the single `vcpu` is built as in the IDLE case,
`parse_basic(per_cpu_current_vcpu_ptr)` then
`parse_regs_from_stack(cpu_info + CPUINFO_guest_cpu_user_regs, cr3)`, with
runstate `RST_RUNNING`. -/
theorem decode_extended_state_running (K : NoteLayout) (S : Symbols) (host : Host)
    (memory : Memory) (V : VCPUParser) (p : x86_64PCPU) (pid cur off pcv : Nat)
    (hreads : ReadsSucceed K S host memory p pid cur off pcv)
    (hcur : u64 cur ≠ host.idle_vcpus (u32 pid))
    (hpcv : u64 pcv ≠ host.idle_vcpus (u32 pid))
    (hsame : u64 cur = u64 pcv)
    (v0 : x86_64VCPU) (halloc : V.new_x86_64VCPU 0 = some v0)
    (hbasic : (V.parse_basic v0 (u64 pcv) p.asCPU).1 = true)
    (hregs : (V.parse_regs_from_stack (V.parse_basic v0 (u64 pcv) p.asCPU).2
      (u64 (cpuinfo_addr S p.regs.rsp + S.CPUINFO_guest_cpu_user_regs)) p.regs.cr3).1 = true)
    (r : Outcome) (hr : decode_extended_state K S host memory V p = r) :
    r.ret = true ∧
    r.pcpu.vcpu_state = .CTX_RUNNING ∧
    r.pcpu.per_cpu_current_vcpu_ptr = u64 pcv ∧
    r.pcpu.ctx_from = p.ctx_from ∧ r.pcpu.ctx_to = p.ctx_to ∧
    (p.ctx_from = none ∧ p.ctx_to = none → r.pcpu.ctx_from = none ∧ r.pcpu.ctx_to = none) ∧
    r.pcpu.vcpu = some
      { (V.parse_regs_from_stack (V.parse_basic v0 (u64 pcv) p.asCPU).2
          (u64 (cpuinfo_addr S p.regs.rsp + S.CPUINFO_guest_cpu_user_regs)) p.regs.cr3).2 with
        runstate := .RST_RUNNING } ∧
    r.trace.countP Event.isAlloc = 1 ∧
    r.trace = reads_trace S p cur off pcv ++
      [.idle_vcpus (u32 pid), .idle_vcpus (u32 pid), .new_x86_64VCPU, .parse_basic (u64 pcv),
        .parse_regs_from_stack
          (u64 (cpuinfo_addr S p.regs.rsp + S.CPUINFO_guest_cpu_user_regs)) p.regs.cr3] := by
  rw [decode_extended_state_of_reads K S host memory V p pid cur off pcv hreads,
    decode_context_running K S host V _ (after_reads p pid cur off pcv) v0 hpcv hcur hsame halloc
      hbasic hregs] at hr
  subst hr
  refine ⟨rfl, rfl, rfl, rfl, rfl, fun h => h, rfl, ?_, rfl⟩
  simp [reads_trace, Event.isAlloc, List.countP_cons]

/-- C9, on the dump in which both pointers of processor 1 are guest VCPU A. -/
theorem decode_extended_state_running_witness :
    (decode_extended_state exLayout exSymbols exHost (exMemory exGuestA exGuestA) exParser
      exParsed).ret = true ∧
    (decode_extended_state exLayout exSymbols exHost (exMemory exGuestA exGuestA) exParser
      exParsed).pcpu.vcpu_state = .CTX_RUNNING ∧
    (decode_extended_state exLayout exSymbols exHost (exMemory exGuestA exGuestA) exParser
      exParsed).pcpu.ctx_from = none :=
  have h := decode_extended_state_running exLayout exSymbols exHost (exMemory exGuestA exGuestA)
    exParser exParsed 1 exGuestA 0xffff83007f500000 exGuestA (by decide) (by decide) (by decide)
    (by decide) exBlank rfl (by decide) (by decide) _ rfl
  ⟨h.1, h.2.1, (h.2.2.2.2.2.1 (by decide)).1⟩

/-! ## Failing decodes -/

/-- C10, as stated, fails: on a PCPU whose three owned pointers are null, in a
dump where the stack-resident pointer is idle and `parse_basic` fails, the
decode returns false and `vcpu` points to the VCPU object allocated during the
attempt. -/
theorem decode_extended_state_failed_parse_counterexample :
    (exParsed.vcpu = none ∧ exParsed.ctx_from = none ∧ exParsed.ctx_to = none) ∧
    (decode_extended_state exLayout exSymbols exHost (exMemory exIdle exGuestA) exFailingParser
      exParsed).ret = false ∧
    (decode_extended_state exLayout exSymbols exHost (exMemory exIdle exGuestA) exFailingParser
      exParsed).pcpu.vcpu = some exBlank ∧
    (decode_extended_state exLayout exSymbols exHost (exMemory exIdle exGuestA) exFailingParser
      exParsed).pcpu.vcpu ≠ none := by
  decide

/-- C10, amended: starting from a PCPU whose `vcpu`, `ctx_from` and `ctx_to` are
null, a call of `decode_extended_state` that returns false leaves the flags as
they were (`CPU_STACK_STATE` is not set by it), and leaves the three pointers
null exactly when no VCPU object was allocated during the attempt: the call
failed before reaching an allocation (precondition, validation, read, processor
id) or its first allocation failed.  After a failed parse, or a failed second
allocation, the objects allocated so far stay in their fields. -/
theorem decode_extended_state_failure_pointers (K : NoteLayout) (S : Symbols) (host : Host)
    (memory : Memory) (V : VCPUParser) (p : x86_64PCPU)
    (hnull : p.vcpu = none ∧ p.ctx_from = none ∧ p.ctx_to = none)
    (r : Outcome) (hr : decode_extended_state K S host memory V p = r)
    (hfail : r.ret = false) :
    r.pcpu.flags = p.flags ∧
    ((r.pcpu.vcpu = none ∧ r.pcpu.ctx_from = none ∧ r.pcpu.ctx_to = none) ↔
      (Event.new_x86_64VCPU ∉ r.trace ∨ V.new_x86_64VCPU 0 = none)) := by
  rcases decode_extended_state_cases K S host memory V p with hearly | ⟨pid, cur, off, pcv, hreads⟩
  · rw [hr] at hearly
    obtain ⟨_, hno, hv, hf, ht, hflags⟩ := hearly
    refine ⟨hflags, ?_⟩
    constructor
    · intro _
      left
      intro hmem
      exact absurd (hno _ hmem) (by decide)
    · intro _
      rw [hv, hf, ht]
      exact hnull
  · rw [decode_extended_state_of_reads K S host memory V p pid cur off pcv hreads] at hr
    subst hr
    have hnull2 : (after_reads p pid cur off pcv).vcpu = none ∧
        (after_reads p pid cur off pcv).ctx_from = none ∧
        (after_reads p pid cur off pcv).ctx_to = none := hnull
    obtain ⟨hmem, hflags, hiff⟩ := decode_context_failure K S host V
      (cpuinfo_addr S p.regs.rsp) (after_reads p pid cur off pcv) hnull2 hfail
    refine ⟨hflags, ?_⟩
    dsimp only
    rw [hiff]
    constructor
    · intro h
      exact Or.inr h
    · intro h
      rcases h with h | h
      · exact absurd (List.mem_append_right _ hmem) h
      · exact h

/-- C10 amended, on a PCPU that parsed only its Xen crash note: its stack
pointer is zero, the `cpu_info` address fails validation, the decode returns
false and the three pointers stay null. -/
theorem decode_extended_state_failure_pointers_witness :
    (decode_extended_state exLayout exSymbols exHost (exMemory exIdle exGuestA) exParser
      (parse_xen_crash_core exLayout exFresh exCrashCore 32).2).ret = false ∧
    (decode_extended_state exLayout exSymbols exHost (exMemory exIdle exGuestA) exParser
      (parse_xen_crash_core exLayout exFresh exCrashCore 32).2).pcpu.vcpu = none ∧
    (decode_extended_state exLayout exSymbols exHost (exMemory exIdle exGuestA) exParser
      (parse_xen_crash_core exLayout exFresh exCrashCore 32).2).pcpu.ctx_from = none ∧
    (decode_extended_state exLayout exSymbols exHost (exMemory exIdle exGuestA) exParser
      (parse_xen_crash_core exLayout exFresh exCrashCore 32).2).pcpu.ctx_to = none :=
  have h := decode_extended_state_failure_pointers exLayout exSymbols exHost
    (exMemory exIdle exGuestA) exParser (parse_xen_crash_core exLayout exFresh exCrashCore 32).2
    (by decide) _ rfl (by decide)
  ⟨by decide, h.2.mpr (Or.inl (by decide))⟩

/-! ## The flags word after a decode -/

/-- The classification sets `CPU_STACK_STATE` when it succeeds and leaves the
flags as they were when it fails. -/
theorem decode_context_flags (K : NoteLayout) (S : Symbols) (host : Host) (V : VCPUParser)
    (cpu_info : Nat) (p : x86_64PCPU) :
    ((decode_context K S host V cpu_info p).ret = true →
      (decode_context K S host V cpu_info p).pcpu.flags = p.flags ||| K.CPU_STACK_STATE) ∧
    ((decode_context K S host V cpu_info p).ret = false →
      (decode_context K S host V cpu_info p).pcpu.flags = p.flags) := by
  unfold decode_context
  by_cases hp : p.per_cpu_current_vcpu_ptr = host.idle_vcpus p.processor_id
  · simp [hp]
  by_cases hc : p.current_vcpu_ptr = host.idle_vcpus p.processor_id
  · rw [if_neg hp, if_pos hc]
    dsimp only
    cases V.new_x86_64VCPU 0 with
    | none => simp
    | some v0 =>
      dsimp only
      split
      · simp
      · split <;> simp
  by_cases he : p.current_vcpu_ptr = p.per_cpu_current_vcpu_ptr
  · rw [if_neg hp, if_neg hc, if_pos he]
    dsimp only
    cases V.new_x86_64VCPU 0 with
    | none => simp
    | some v0 =>
      dsimp only
      split
      · simp
      · split <;> simp
  · rw [if_neg hp, if_neg hc, if_neg he]
    dsimp only
    cases V.new_x86_64VCPU 0 with
    | none => simp
    | some v0 =>
      dsimp only
      split
      · simp
      · split
        · simp
        · cases V.new_x86_64VCPU 1 with
          | none => simp
          | some w0 =>
            dsimp only
            split <;> simp

/-- A decode sets `CPU_STACK_STATE` when it succeeds and leaves the flags as they
were when it fails. -/
theorem decode_extended_state_flags (K : NoteLayout) (S : Symbols) (host : Host)
    (memory : Memory) (V : VCPUParser) (p : x86_64PCPU) :
    ((decode_extended_state K S host memory V p).ret = true →
      (decode_extended_state K S host memory V p).pcpu.flags = p.flags ||| K.CPU_STACK_STATE) ∧
    ((decode_extended_state K S host memory V p).ret = false →
      (decode_extended_state K S host memory V p).pcpu.flags = p.flags) := by
  rcases decode_extended_state_cases K S host memory V p with hearly | ⟨pid, cur, off, pcv, hreads⟩
  · obtain ⟨hret, _, _, _, _, hflags⟩ := hearly
    constructor
    · intro h
      rw [hret] at h
      exact absurd h (by decide)
    · intro _
      exact hflags
  · rw [decode_extended_state_of_reads K S host memory V p pid cur off pcv hreads]
    exact decode_context_flags K S host V (cpuinfo_addr S p.regs.rsp)
      (after_reads p pid cur off pcv)

/-- C11: for a PCPU whose `CPU_STACK_STATE` bit is unset before the call (the
bit being a non-zero mask), `decode_extended_state` returns true if and only if
`CPU_STACK_STATE` is set afterwards; on every failing path the flags word is
what it was before the call, and on success it is the old flags OR
`CPU_STACK_STATE`. -/
theorem decode_extended_state_stack_state_bit (K : NoteLayout) (S : Symbols) (host : Host)
    (memory : Memory) (V : VCPUParser) (p : x86_64PCPU)
    (hbit : K.CPU_STACK_STATE ≠ 0)
    (hunset : p.flags &&& K.CPU_STACK_STATE = 0)
    (r : Outcome) (hr : decode_extended_state K S host memory V p = r) :
    (r.ret = true ↔ r.pcpu.flags &&& K.CPU_STACK_STATE ≠ 0) ∧
    (r.ret = true ↔ r.pcpu.flags &&& K.CPU_STACK_STATE = K.CPU_STACK_STATE) ∧
    (r.ret = false → r.pcpu.flags = p.flags) ∧
    (r.ret = true → r.pcpu.flags = p.flags ||| K.CPU_STACK_STATE) := by
  subst hr
  obtain ⟨hok, hfail⟩ := decode_extended_state_flags K S host memory V p
  cases hret : (decode_extended_state K S host memory V p).ret with
  | true =>
    have hf := hok hret
    rw [hf, lor_land_self]
    exact ⟨⟨fun _ => hbit, fun _ => rfl⟩, ⟨fun _ => rfl, fun _ => rfl⟩,
      fun h => absurd h (by decide), fun _ => rfl⟩
  | false =>
    have hf := hfail hret
    rw [hf, hunset]
    exact ⟨⟨fun h => absurd h (by decide), fun h => absurd rfl h⟩,
      ⟨fun h => absurd h (by decide), fun h => absurd h.symm hbit⟩,
      fun _ => rfl, fun h => absurd h (by decide)⟩

/-- C11, on a PCPU with both notes parsed, in the dump in which both pointers
are guest VCPU A: the decode succeeds and the flags go from 3 to 7. -/
theorem decode_extended_state_stack_state_bit_witness :
    (decode_extended_state exLayout exSymbols exHost (exMemory exGuestA exGuestA) exParser
      exParsed).ret = true ∧
    (decode_extended_state exLayout exSymbols exHost (exMemory exGuestA exGuestA) exParser
      exParsed).pcpu.flags = 3 ||| 4 :=
  have h := decode_extended_state_stack_state_bit exLayout exSymbols exHost
    (exMemory exGuestA exGuestA) exParser exParsed (by decide) (by decide) _ rfl
  ⟨by decide, h.2.2.2 (by decide)⟩

/-! ## The address of the `cpu_info` block -/

/-- The bits of a 64-bit complement. -/
theorem testBit_not64 (x i : Nat) :
    (not64 x).testBit i = (decide (i < 64) && !(u64 x).testBit i) := by
  have hx : u64 x < 2 ^ 64 := Nat.mod_lt _ (by decide)
  have h : not64 x = 2 ^ 64 - (u64 x + 1) := by
    unfold not64
    omega
  rw [h, Nat.testBit_two_pow_sub_succ hx]

/-- Masking a 64-bit value with `~(2^k - 1)` rounds it down to a multiple of
`2^k`. -/
theorem land_not64_two_pow_sub_one (x k : Nat) (hx : x < 2 ^ 64) (hk : k ≤ 64) :
    x &&& not64 (2 ^ k - 1) = 2 ^ k * (x / 2 ^ k) := by
  have hlt : 2 ^ k - 1 < 2 ^ 64 :=
    Nat.lt_of_lt_of_le (Nat.sub_lt (Nat.two_pow_pos k) (by decide))
      (Nat.pow_le_pow_right (by decide) hk)
  apply Nat.eq_of_testBit_eq
  intro i
  rw [Nat.testBit_land, testBit_not64, Nat.testBit_mul_pow_two, ← Nat.shiftRight_eq_div_pow,
    Nat.testBit_shiftRight]
  have hu : u64 (2 ^ k - 1) = 2 ^ k - 1 := Nat.mod_eq_of_lt hlt
  rw [hu, Nat.testBit_two_pow_sub_one]
  by_cases h1 : i < k
  · have h2 : ¬ k ≤ i := Nat.not_le.mpr h1
    simp [h1, h2]
  · have h2 : k ≤ i := Nat.not_lt.mp h1
    have h3 : k + (i - k) = i := by omega
    by_cases h4 : i < 64
    · simp [h1, h2, h3, h4]
    · have h5 : x.testBit i = false :=
        Nat.testBit_lt_two_pow (Nat.lt_of_lt_of_le hx (Nat.pow_le_pow_right (by decide)
          (Nat.not_lt.mp h4)))
      simp [h1, h2, h3, h4, h5]

/-- For a stack size `2^k` and `0 < CPUINFO_sizeof <= STACK_SIZE`, the address
of the `cpu_info` block is the base of the stack area of `rsp` plus
`STACK_SIZE - CPUINFO_sizeof`. -/
theorem cpuinfo_addr_eq (S : Symbols) (k rsp : Nat) (hk : k ≤ 63)
    (hsize : S.STACK_SIZE = 2 ^ k) (hpos : 0 < S.CPUINFO_sizeof)
    (hle : S.CPUINFO_sizeof ≤ S.STACK_SIZE) :
    cpuinfo_addr S rsp =
      2 ^ k * (u64 rsp / 2 ^ k) + (S.STACK_SIZE - S.CPUINFO_sizeof) := by
  have hx : u64 rsp < 2 ^ 64 := Nat.mod_lt _ (by decide)
  have hk2 : (2 : Nat) ^ k ≤ 2 ^ 63 := Nat.pow_le_pow_right (by decide) hk
  have hsz : u64 S.CPUINFO_sizeof = S.CPUINFO_sizeof := by
    apply Nat.mod_eq_of_lt
    have : (2 : Nat) ^ 63 < 2 ^ 64 := by decide
    omega
  have hoff : u64 (S.STACK_SIZE + 2 ^ 64 - u64 S.CPUINFO_sizeof)
      = S.STACK_SIZE - S.CPUINFO_sizeof := by
    rw [hsz]
    unfold u64
    have h1 : S.STACK_SIZE + 2 ^ 64 - S.CPUINFO_sizeof
        = (S.STACK_SIZE - S.CPUINFO_sizeof) + 2 ^ 64 := by omega
    rw [h1, Nat.add_mod_right]
    apply Nat.mod_eq_of_lt
    have : (2 : Nat) ^ 63 < 2 ^ 64 := by decide
    omega
  have hb : S.STACK_SIZE - S.CPUINFO_sizeof < 2 ^ k := by omega
  unfold cpuinfo_addr
  rw [hoff, hsize, land_not64_two_pow_sub_one (u64 rsp) k hx (by omega), ← hsize,
    hsize, Nat.mul_add_lt_is_or (hsize ▸ hb)]

/-- C18: for every 64-bit `rsp`, a stack size that is a power of two and
`0 < CPUINFO_sizeof <= STACK_SIZE`, the address
`(rsp & ~(STACK_SIZE-1)) | (STACK_SIZE - CPUINFO_sizeof)` computed by
`decode_extended_state` equals mask-then-add and lies in the
`STACK_SIZE`-aligned stack area of `rsp`; and a decode whose `cpu_info` address
does not pass `validate_xen_vaddr` fails. -/
theorem cpuinfo_addr_mask_then_add (K : NoteLayout) (S : Symbols) (host : Host)
    (memory : Memory) (V : VCPUParser) (k rsp : Nat) (hrsp : rsp < 2 ^ 64) (hk : k ≤ 63)
    (hsize : S.STACK_SIZE = 2 ^ k) (hpos : 0 < S.CPUINFO_sizeof)
    (hle : S.CPUINFO_sizeof ≤ S.STACK_SIZE) :
    cpuinfo_addr S rsp
      = (rsp &&& not64 (S.STACK_SIZE - 1)) + (S.STACK_SIZE - S.CPUINFO_sizeof) ∧
    cpuinfo_addr S rsp / S.STACK_SIZE = rsp / S.STACK_SIZE ∧
    (S.STACK_SIZE * (rsp / S.STACK_SIZE) ≤ cpuinfo_addr S rsp ∧
      cpuinfo_addr S rsp < S.STACK_SIZE * (rsp / S.STACK_SIZE) + S.STACK_SIZE) ∧
    (∀ p : x86_64PCPU, p.regs.rsp = rsp →
      host.validate_xen_vaddr (cpuinfo_addr S p.regs.rsp) = false →
      (decode_extended_state K S host memory V p).ret = false) := by
  have hu : u64 rsp = rsp := Nat.mod_eq_of_lt hrsp
  have heq := cpuinfo_addr_eq S k rsp hk hsize hpos hle
  rw [hu] at heq
  rw [hsize] at heq hle ⊢
  have hb : 2 ^ k - S.CPUINFO_sizeof < 2 ^ k := by omega
  have hpow : 0 < 2 ^ k := Nat.two_pow_pos k
  refine ⟨?_, ?_, ⟨?_, ?_⟩, ?_⟩
  · rw [heq, land_not64_two_pow_sub_one rsp k hrsp (by omega)]
  · rw [heq, Nat.mul_add_div hpow, Nat.div_eq_of_lt hb, Nat.add_zero]
  · rw [heq]
    exact Nat.le_add_right _ _
  · rw [heq]
    exact Nat.add_lt_add_left hb _
  · intro p _ hval
    rcases decode_extended_state_cases K S host memory V p with hearly | ⟨_, _, _, _, hreads⟩
    · exact hearly.1
    · rw [hreads.2.2.2.2.1] at hval
      exact absurd hval (by decide)

/-- C18, on the stack pointer of the example note: the `cpu_info` block is at
`0xffff83007f4f7f18`, in the stack area of the stack pointer. -/
theorem cpuinfo_addr_mask_then_add_witness :
    cpuinfo_addr exSymbols 0xffff83007f4f7e10 = 0xffff83007f4f0000 + (0x8000 - 232) ∧
    cpuinfo_addr exSymbols 0xffff83007f4f7e10 / 0x8000 = 0xffff83007f4f7e10 / 0x8000 :=
  have h := cpuinfo_addr_mask_then_add exLayout exSymbols exHost (exMemory exIdle exIdle) exParser
    15 0xffff83007f4f7e10 (by decide) (by decide) (by decide) (by decide) (by decide)
  ⟨h.1.trans (by decide), h.2.1⟩

/-! ## The processor id -/

/-- A decode that passes the processor-id check goes on to read the
stack-resident VCPU pointer, and keeps the processor id it read. -/
theorem decode_extended_state_after_pid (K : NoteLayout) (S : Symbols) (host : Host)
    (memory : Memory) (V : VCPUParser) (p : x86_64PCPU) (pid : Nat)
    (h1 : p.flags &&& K.CPU_EXTD_STATE ≠ 0) (h2 : S.required_vcpu_symbols = 0)
    (h3 : S.required_cpuinfo_symbols = 0) (h4 : S.required_per_cpu_symbols = 0)
    (h5 : host.validate_xen_vaddr (cpuinfo_addr S p.regs.rsp) = true)
    (h6 : memory.read32_vaddr p.asCPU (u64 (cpuinfo_addr S p.regs.rsp + S.CPUINFO_processor_id))
      = some pid)
    (h7 : u32 pid ≤ host.nr_pcpus) :
    (∃ t, (decode_extended_state K S host memory V p).trace =
      [.validate_xen_vaddr (cpuinfo_addr S p.regs.rsp),
        .read32_vaddr (u64 (cpuinfo_addr S p.regs.rsp + S.CPUINFO_processor_id)),
        .read64_vaddr (u64 (cpuinfo_addr S p.regs.rsp + S.CPUINFO_current_vcpu))] ++ t) ∧
    (decode_extended_state K S host memory V p).pcpu.processor_id = u32 pid := by
  cases h8 : memory.read64_vaddr p.asCPU (u64 (cpuinfo_addr S p.regs.rsp + S.CPUINFO_current_vcpu))
    with
  | none =>
    unfold decode_extended_state
    simp [h1, h2, h3, h4, h5, h6, Nat.not_lt.mpr h7, h8]
  | some cur =>
  by_cases h9 : host.validate_xen_vaddr (u64 cur) = true
  swap
  · unfold decode_extended_state
    simp [h1, h2, h3, h4, h5, h6, Nat.not_lt.mpr h7, h8, h9]
  cases h10 : memory.read64_vaddr p.asCPU
    (u64 (cpuinfo_addr S p.regs.rsp + S.CPUINFO_per_cpu_offset)) with
  | none =>
    unfold decode_extended_state
    simp [h1, h2, h3, h4, h5, h6, Nat.not_lt.mpr h7, h8, h9, h10]
  | some off =>
  cases h11 : memory.read64_vaddr p.asCPU (u64 (u64 off + S.per_cpu__curr_vcpu)) with
  | none =>
    unfold decode_extended_state
    simp [h1, h2, h3, h4, h5, h6, Nat.not_lt.mpr h7, h8, h9, h10, h11]
  | some pcv =>
  by_cases h12 : host.validate_xen_vaddr (u64 pcv) = true
  swap
  · unfold decode_extended_state
    simp [h1, h2, h3, h4, h5, h6, Nat.not_lt.mpr h7, h8, h9, h10, h11, h12]
  rw [decode_extended_state_of_reads K S host memory V p pid cur off pcv
    ⟨h1, h2, h3, h4, h5, h6, h7, h8, h9, h10, h11, h12⟩]
  refine ⟨⟨_, rfl⟩, ?_⟩
  exact (decode_context_state K S host V (cpuinfo_addr S p.regs.rsp)
    (after_reads p pid cur off pcv)).2.1

/-- C20: with `pid` the 32-bit value read at `cpu_info + CPUINFO_processor_id`,
the decode fails at the processor-id check (it returns false having made no call
after that read) if and only if `pid > host.nr_pcpus`; `pid == host.nr_pcpus`
is accepted, the decode going on to read the stack-resident VCPU pointer; in
both cases `processor_id` has been overwritten with `pid`. -/
theorem decode_extended_state_processor_id (K : NoteLayout) (S : Symbols) (host : Host)
    (memory : Memory) (V : VCPUParser) (p : x86_64PCPU) (pid : Nat)
    (h1 : p.flags &&& K.CPU_EXTD_STATE ≠ 0) (h2 : S.required_vcpu_symbols = 0)
    (h3 : S.required_cpuinfo_symbols = 0) (h4 : S.required_per_cpu_symbols = 0)
    (h5 : host.validate_xen_vaddr (cpuinfo_addr S p.regs.rsp) = true)
    (h6 : memory.read32_vaddr p.asCPU (u64 (cpuinfo_addr S p.regs.rsp + S.CPUINFO_processor_id))
      = some pid)
    (r : Outcome) (hr : decode_extended_state K S host memory V p = r) :
    ((r.ret = false ∧ r.trace =
        [.validate_xen_vaddr (cpuinfo_addr S p.regs.rsp),
          .read32_vaddr (u64 (cpuinfo_addr S p.regs.rsp + S.CPUINFO_processor_id))])
      ↔ host.nr_pcpus < u32 pid) ∧
    (u32 pid = host.nr_pcpus →
      Event.read64_vaddr (u64 (cpuinfo_addr S p.regs.rsp + S.CPUINFO_current_vcpu)) ∈ r.trace) ∧
    r.pcpu.processor_id = u32 pid := by
  subst hr
  by_cases h7 : u32 pid ≤ host.nr_pcpus
  · obtain ⟨⟨t, ht⟩, hpid⟩ :=
      decode_extended_state_after_pid K S host memory V p pid h1 h2 h3 h4 h5 h6 h7
    refine ⟨⟨?_, ?_⟩, ?_, hpid⟩
    · intro h
      rw [ht] at h
      have hlen := congrArg List.length h.2
      simp at hlen
    · intro h
      exact absurd h (Nat.not_lt.mpr h7)
    · intro _
      rw [ht]
      simp
  · have hgt : host.nr_pcpus < u32 pid := Nat.not_le.mp h7
    have hdec : decode_extended_state K S host memory V p =
        { ret := false
          pcpu := { p with processor_id := u32 pid }
          trace := [.validate_xen_vaddr (cpuinfo_addr S p.regs.rsp),
            .read32_vaddr (u64 (cpuinfo_addr S p.regs.rsp + S.CPUINFO_processor_id))] } := by
      unfold decode_extended_state
      simp [h1, h2, h3, h4, h5, h6, hgt]
    rw [hdec]
    refine ⟨⟨fun _ => hgt, fun _ => ⟨rfl, rfl⟩⟩, ?_, rfl⟩
    intro h
    exact absurd (Nat.le_of_eq h) h7

/-- C20, on a dump whose `cpu_info` block names processor 4 on a host with four
physical CPUs: the check accepts the id and the decode goes on. -/
theorem decode_extended_state_processor_id_witness :
    Event.read64_vaddr (u64 (cpuinfo_addr exSymbols exParsed.regs.rsp
        + exSymbols.CPUINFO_current_vcpu)) ∈
      (decode_extended_state exLayout exSymbols exHost
        { exMemory exIdle exIdle with read32_vaddr := fun _ _ => some 4 } exParser exParsed).trace ∧
    (decode_extended_state exLayout exSymbols exHost
        { exMemory exIdle exIdle with read32_vaddr := fun _ _ => some 4 } exParser
        exParsed).pcpu.processor_id = 4 :=
  have h := decode_extended_state_processor_id exLayout exSymbols exHost
    { exMemory exIdle exIdle with read32_vaddr := fun _ _ => some 4 } exParser exParsed 4
    (by decide) rfl rfl rfl (by decide) rfl _ rfl
  ⟨h.2.1 (by decide), h.2.2⟩

/-! ## Validation of the addresses read -/

/-- C14 fails on the code (a missed validation): in a dump whose `cpu_info` block
holds the per-CPU offset `0x1000`, the decode reads the per-CPU variable at
`0x1000 + 0x2a40 = 0x3a40` although neither `0x1000` nor `0x3a40` has been
handed to `validate_xen_vaddr` in the call; the host accepts neither, and the
decode succeeds on the value read there. -/
theorem decode_extended_state_unvalidated_read :
    exHost.validate_xen_vaddr 0x1000 = false ∧
    exHost.validate_xen_vaddr 0x3a40 = false ∧
    (decode_extended_state exLayout exSymbols exHost exMemoryBadOffset exParser exParsed).ret
      = true ∧
    (decode_extended_state exLayout exSymbols exHost exMemoryBadOffset exParser
      exParsed).pcpu.per_cpu_offset = 0x1000 ∧
    Event.read64_vaddr 0x3a40 ∈
      (decode_extended_state exLayout exSymbols exHost exMemoryBadOffset exParser exParsed).trace ∧
    Event.validate_xen_vaddr 0x3a40 ∉
      (decode_extended_state exLayout exSymbols exHost exMemoryBadOffset exParser exParsed).trace ∧
    Event.validate_xen_vaddr 0x1000 ∉
      (decode_extended_state exLayout exSymbols exHost exMemoryBadOffset exParser
        exParsed).trace := by
  decide

/-! ## The core-state bit -/

/-- C15 fails on the code (a missing guard): on a PCPU that parsed its Xen crash
note only, so that `CPU_EXTD_STATE` is set, `CPU_CORE_STATE` is not and `rsp` is
the zero of the constructor, the decode derives the `cpu_info` address `0x7f18`
from `rsp` and hands it to `validate_xen_vaddr`; the call fails only because
the host rejects that address.  With `CPU_CORE_STATE` still unset and a stack
pointer in `rsp`, the decode succeeds: the outcome depends on `rsp`. -/
theorem decode_extended_state_core_state_unchecked :
    exExtdOnly.flags &&& exLayout.CPU_CORE_STATE = 0 ∧
    exExtdOnly.flags &&& exLayout.CPU_EXTD_STATE ≠ 0 ∧
    exExtdOnly.regs.rsp = 0 ∧
    cpuinfo_addr exSymbols exExtdOnly.regs.rsp = 0x7f18 ∧
    (decode_extended_state exLayout exSymbols exHost (exMemory exIdle exIdle) exParser
      exExtdOnly).trace = [.validate_xen_vaddr 0x7f18] ∧
    (decode_extended_state exLayout exSymbols exHost (exMemory exIdle exIdle) exParser
      exExtdOnly).ret = false ∧
    (decode_extended_state exLayout exSymbols exHost (exMemory exIdle exIdle) exParser
      { exExtdOnly with regs := { exExtdOnly.regs with rsp := 0xffff83007f4f7e10 } }).ret
      = true := by
  decide

/-! ## Ownership of the VCPU objects -/

/-- A flag ORed into the flags word does not touch a bit it is disjoint from. -/
theorem lor_land_of_disjoint (a b c : Nat) (h : b &&& c = 0) : (a ||| b) &&& c = a &&& c := by
  apply Nat.eq_of_testBit_eq
  intro i
  have hi : (b &&& c).testBit i = false := by rw [h]; exact Nat.zero_testBit i
  rw [Nat.testBit_land] at hi
  rw [Nat.testBit_land, Nat.testBit_lor, Nat.testBit_land]
  cases hb : b.testBit i <;> cases hc : c.testBit i <;> simp [hb, hc] at hi ⊢

/-- The note parsers write `regs` and `flags` only, and a flag bit disjoint from
`CPU_CORE_STATE` and `CPU_EXTD_STATE` keeps its value. -/
theorem note_parsers_frame (K : NoteLayout) (S : Symbols) (host : Host) (memory : Memory)
    (V : VCPUParser) (p : x86_64PCPU) (c : Call) (hc : c.isDecode = false)
    (hcore : K.CPU_CORE_STATE &&& K.CPU_STACK_STATE = 0)
    (hextd : K.CPU_EXTD_STATE &&& K.CPU_STACK_STATE = 0) :
    (Call.run K S host memory V p c).vcpu = p.vcpu ∧
    (Call.run K S host memory V p c).ctx_from = p.ctx_from ∧
    (Call.run K S host memory V p c).ctx_to = p.ctx_to ∧
    (Call.run K S host memory V p c).vcpu_state = p.vcpu_state ∧
    (Call.run K S host memory V p c).flags &&& K.CPU_STACK_STATE
      = p.flags &&& K.CPU_STACK_STATE := by
  cases c with
  | parse_pr_status ptr len =>
    have h : Call.run K S host memory V p (.parse_pr_status ptr len)
        = (parse_pr_status K p ptr len).2 := rfl
    rw [h]
    unfold parse_pr_status
    split
    · exact ⟨rfl, rfl, rfl, rfl, rfl⟩
    · exact ⟨rfl, rfl, rfl, rfl, lor_land_of_disjoint _ _ _ hcore⟩
  | parse_xen_crash_core ptr len =>
    have h : Call.run K S host memory V p (.parse_xen_crash_core ptr len)
        = (parse_xen_crash_core K p ptr len).2 := rfl
    rw [h]
    unfold parse_xen_crash_core
    split
    · exact ⟨rfl, rfl, rfl, rfl, rfl⟩
    · exact ⟨rfl, rfl, rfl, rfl, lor_land_of_disjoint _ _ _ hextd⟩
  | decode_extended_state => exact absurd hc (by decide)

/-- The classification, run on a PCPU whose three owned pointers are null and
whose `CPU_STACK_STATE` bit is unset, ends in a state that satisfies the
ownership invariant. -/
theorem decode_context_ownership (K : NoteLayout) (S : Symbols) (host : Host) (V : VCPUParser)
    (cpu_info : Nat) (p : x86_64PCPU)
    (hnull : p.vcpu = none ∧ p.ctx_from = none ∧ p.ctx_to = none)
    (hflag : p.flags &&& K.CPU_STACK_STATE = 0) :
    OwnershipInvariant K (decode_context K S host V cpu_info p).pcpu := by
  obtain ⟨hv, hf, ht⟩ := hnull
  unfold OwnershipInvariant decode_context
  by_cases hp : p.per_cpu_current_vcpu_ptr = host.idle_vcpus p.processor_id
  · simp [hp, hv, hf, ht]
  by_cases hc : p.current_vcpu_ptr = host.idle_vcpus p.processor_id
  · rw [if_neg hp, if_pos hc]
    dsimp only
    cases V.new_x86_64VCPU 0 with
    | none => simp [hv, hf, ht, hflag]
    | some v0 =>
      dsimp only
      split
      · simp [hv, hf, ht, hflag]
      · split <;> simp [hv, hf, ht, hflag]
  by_cases he : p.current_vcpu_ptr = p.per_cpu_current_vcpu_ptr
  · rw [if_neg hp, if_neg hc, if_pos he]
    dsimp only
    cases V.new_x86_64VCPU 0 with
    | none => simp [hv, hf, ht, hflag]
    | some v0 =>
      dsimp only
      split
      · simp [hv, hf, ht, hflag]
      · split <;> simp [hv, hf, ht, hflag]
  · rw [if_neg hp, if_neg hc, if_neg he]
    dsimp only
    cases V.new_x86_64VCPU 0 with
    | none => simp [hv, hf, ht, hflag]
    | some v0 =>
      dsimp only
      split
      · simp [hv, hf, ht, hflag]
      · split
        · simp [hv, hf, ht, hflag]
        · cases V.new_x86_64VCPU 1 with
          | none => simp [hv, hf, ht, hflag]
          | some w0 =>
            dsimp only
            split <;> simp [hv, hf, ht, hflag]

/-- A decode run on a PCPU whose three owned pointers are null and whose
`CPU_STACK_STATE` bit is unset ends in a state that satisfies the ownership
invariant. -/
theorem decode_extended_state_ownership (K : NoteLayout) (S : Symbols) (host : Host)
    (memory : Memory) (V : VCPUParser) (p : x86_64PCPU)
    (hnull : p.vcpu = none ∧ p.ctx_from = none ∧ p.ctx_to = none)
    (hflag : p.flags &&& K.CPU_STACK_STATE = 0) :
    OwnershipInvariant K (decode_extended_state K S host memory V p).pcpu := by
  rcases decode_extended_state_cases K S host memory V p with hearly | ⟨pid, cur, off, pcv, hreads⟩
  · obtain ⟨_, _, hv, hf, ht, hflags⟩ := hearly
    unfold OwnershipInvariant
    rw [hv, hf, ht, hflags]
    exact ⟨fun h => absurd hnull.1 h, fun h => absurd hflag h⟩
  · rw [decode_extended_state_of_reads K S host memory V p pid cur off pcv hreads]
    exact decode_context_ownership K S host V (cpuinfo_addr S p.regs.rsp)
      (after_reads p pid cur off pcv) hnull hflag

/-- Calls of the note parsers keep the ownership invariant. -/
theorem run_calls_parsers_ownership (K : NoteLayout) (S : Symbols) (host : Host)
    (memory : Memory) (V : VCPUParser)
    (hcore : K.CPU_CORE_STATE &&& K.CPU_STACK_STATE = 0)
    (hextd : K.CPU_EXTD_STATE &&& K.CPU_STACK_STATE = 0) (cs : List Call) :
    ∀ p : x86_64PCPU, cs.countP Call.isDecode = 0 → OwnershipInvariant K p →
      OwnershipInvariant K (run_calls K S host memory V p cs) := by
  induction cs with
  | nil => intro p _ h; exact h
  | cons c cs ih =>
    intro p hcount hinv
    cases hc : c.isDecode with
    | true => simp [List.countP_cons, hc] at hcount
    | false =>
      have hcount2 : cs.countP Call.isDecode = 0 := by
        simpa [List.countP_cons, hc] using hcount
      apply ih _ hcount2
      obtain ⟨h1, h2, h3, h4, h5⟩ := note_parsers_frame K S host memory V p c hc hcore hextd
      unfold OwnershipInvariant at hinv ⊢
      rw [h1, h2, h3, h4, h5]
      exact hinv

/-- C16, as stated, fails: after the notes are parsed, a decode that finds a
context switch, a second Xen crash note with another page-table root and a
second decode that finds a running VCPU, `vcpu` is non-null together with
`ctx_from` and `ctx_to`. -/
theorem run_calls_two_decodes_counterexample :
    (exFresh.vcpu = none ∧ exFresh.ctx_from = none ∧ exFresh.ctx_to = none) ∧
    (run_calls exLayout exSymbols exHost exMemoryByRoot exParser exFresh
      [.parse_pr_status exNote 336, .parse_xen_crash_core exCrashCore 32, .decode_extended_state,
        .parse_xen_crash_core exCrashCoreOther 32, .decode_extended_state]).vcpu ≠ none ∧
    (run_calls exLayout exSymbols exHost exMemoryByRoot exParser exFresh
      [.parse_pr_status exNote 336, .parse_xen_crash_core exCrashCore 32, .decode_extended_state,
        .parse_xen_crash_core exCrashCoreOther 32, .decode_extended_state]).ctx_from ≠ none ∧
    ¬ OwnershipInvariant exLayout
      (run_calls exLayout exSymbols exHost exMemoryByRoot exParser exFresh
        [.parse_pr_status exNote 336, .parse_xen_crash_core exCrashCore 32,
          .decode_extended_state, .parse_xen_crash_core exCrashCoreOther 32,
          .decode_extended_state]) := by
  decide

/-- C16, amended: in every PCPU state reached from a freshly constructed PCPU
(`vcpu`, `ctx_from`, `ctx_to` null, `CPU_STACK_STATE` unset) by a sequence of
`parse_pr_status`, `parse_xen_crash_core` and `decode_extended_state` calls
that holds at most one call of `decode_extended_state`, the three flag bits
being disjoint, `vcpu` is never non-null at the same time as `ctx_from` or
`ctx_to`, and whenever `CPU_STACK_STATE` is set: `CTX_NONE` implies all three
null, `CTX_IDLE` and `CTX_RUNNING` imply `vcpu` non-null, `CTX_SWITCH` implies
`ctx_from` and `ctx_to` non-null. -/
theorem run_calls_ownership (K : NoteLayout) (S : Symbols) (host : Host) (memory : Memory)
    (V : VCPUParser) (p : x86_64PCPU) (cs : List Call)
    (hcore : K.CPU_CORE_STATE &&& K.CPU_STACK_STATE = 0)
    (hextd : K.CPU_EXTD_STATE &&& K.CPU_STACK_STATE = 0)
    (hnull : p.vcpu = none ∧ p.ctx_from = none ∧ p.ctx_to = none)
    (hflag : p.flags &&& K.CPU_STACK_STATE = 0)
    (honce : cs.countP Call.isDecode ≤ 1) :
    OwnershipInvariant K (run_calls K S host memory V p cs) := by
  induction cs generalizing p with
  | nil =>
    unfold run_calls OwnershipInvariant
    exact ⟨fun h => absurd hnull.1 h, fun h => absurd hflag h⟩
  | cons c cs ih =>
    cases hc : c.isDecode with
    | true =>
      have hcount : cs.countP Call.isDecode = 0 := by
        simpa [List.countP_cons, hc] using honce
      have hrun : Call.run K S host memory V p c = (decode_extended_state K S host memory V p).pcpu := by
        cases c with
        | decode_extended_state => rfl
        | parse_pr_status _ _ => exact absurd hc (by simp [Call.isDecode])
        | parse_xen_crash_core _ _ => exact absurd hc (by simp [Call.isDecode])
      unfold run_calls
      rw [hrun]
      exact run_calls_parsers_ownership K S host memory V hcore hextd cs _ hcount
        (decode_extended_state_ownership K S host memory V p hnull hflag)
    | false =>
      have hcount : cs.countP Call.isDecode ≤ 1 := by
        simpa [List.countP_cons, hc] using honce
      obtain ⟨h1, h2, h3, _, h5⟩ := note_parsers_frame K S host memory V p c hc hcore hextd
      unfold run_calls
      exact ih _ (by rw [h1, h2, h3]; exact hnull) (by rw [h5]; exact hflag) hcount

/-- C16 amended, on the sequence "core-state note, Xen crash note, decode" in the
dump of a context switch: `CPU_STACK_STATE` is set, `vcpu_state` is `CTX_SWITCH`
and both `ctx_from` and `ctx_to` are non-null. -/
theorem run_calls_ownership_witness :
    (run_calls exLayout exSymbols exHost (exMemory exGuestA exGuestB) exParser exFresh
      [.parse_pr_status exNote 336, .parse_xen_crash_core exCrashCore 32,
        .decode_extended_state]).vcpu_state = .CTX_SWITCH ∧
    (run_calls exLayout exSymbols exHost (exMemory exGuestA exGuestB) exParser exFresh
      [.parse_pr_status exNote 336, .parse_xen_crash_core exCrashCore 32,
        .decode_extended_state]).ctx_from ≠ none ∧
    (run_calls exLayout exSymbols exHost (exMemory exGuestA exGuestB) exParser exFresh
      [.parse_pr_status exNote 336, .parse_xen_crash_core exCrashCore 32,
        .decode_extended_state]).ctx_to ≠ none :=
  have h := run_calls_ownership exLayout exSymbols exHost (exMemory exGuestA exGuestB) exParser
    exFresh [.parse_pr_status exNote 336, .parse_xen_crash_core exCrashCore 32,
      .decode_extended_state] (by decide) (by decide) (by decide) (by decide) (by decide)
  ⟨by decide, (h.2 (by decide)).2.2 (by decide)⟩

/-! ## The stack walker: shape of a call -/

/-- The word loop makes word reads only. -/
theorem walk_words_trace_reads (memory : Memory) (cpu : CPU) (top fuel : Nat) :
    ∀ sp, ∀ e ∈ (walk_words memory cpu top fuel sp).trace, ∃ a, e = StackEvent.read64_vaddr a := by
  induction fuel with
  | zero =>
    intro sp e he
    unfold walk_words at he
    split at he <;> simp at he
  | succ fuel ih =>
    intro sp e he
    unfold walk_words at he
    split at he
    · split at he
      · simp at he
        exact ⟨sp, he⟩
      · simp only [List.mem_cons] at he
        rcases he with h | h
        · exact ⟨sp, h⟩
        · exact ih _ e h
    · simp at he

/-- The word loop enters no call of `print_stack`. -/
theorem walked_pages_walk_words (memory : Memory) (cpu : CPU) (top fuel sp : Nat) :
    walked_pages (walk_words memory cpu top fuel sp).trace = [] := by
  unfold walked_pages
  rw [List.filterMap_eq_nil_iff]
  intro e he
  obtain ⟨a, ha⟩ := walk_words_trace_reads memory cpu top fuel sp e he
  rw [ha]
  rfl

/-- A call whose word loop is ended by a caught exception, or by lack of fuel,
ends the same way, having made the calls of the loop. -/
theorem print_stack_of_loop_ended (S : Symbols) (X : StackLayout) (memory : Memory)
    (F : FrameReader) (p : x86_64PCPU) (loop_fuel depth stack : Nat)
    (hw : (walk_words memory p.asCPU (stack_top S X p (u64 stack)) loop_fuel (u64 stack)).status
      ≠ .returned) :
    print_stack S X memory F p loop_fuel (depth + 1) stack =
      { status :=
          (walk_words memory p.asCPU (stack_top S X p (u64 stack)) loop_fuel (u64 stack)).status
        trace := .print_stack (u64 stack) ::
          (walk_words memory p.asCPU (stack_top S X p (u64 stack)) loop_fuel (u64 stack)).trace } := by
  rw [print_stack]
  dsimp only
  rw [if_pos hw]

/-- A call on an ordinary stack page whose word loop completes returns after
the loop. -/
theorem print_stack_of_ordinary_page (S : Symbols) (X : StackLayout) (memory : Memory)
    (F : FrameReader) (p : x86_64PCPU) (loop_fuel depth stack : Nat)
    (hw : (walk_words memory p.asCPU (stack_top S X p (u64 stack)) loop_fuel (u64 stack)).status
      = .returned)
    (hpage : ¬ stack_page_of (u64 stack) ≤ 2) :
    print_stack S X memory F p loop_fuel (depth + 1) stack =
      { status := .returned
        trace := .print_stack (u64 stack) ::
          (walk_words memory p.asCPU (stack_top S X p (u64 stack)) loop_fuel (u64 stack)).trace } := by
  rw [print_stack]
  dsimp only
  rw [if_neg (not_not.mpr hw), if_neg hpage]

/-- A call on an interrupt page whose word loop completes and whose frame read
throws ends with the exception caught. -/
theorem print_stack_of_frame_fault (S : Symbols) (X : StackLayout) (memory : Memory)
    (F : FrameReader) (p : x86_64PCPU) (loop_fuel depth stack : Nat)
    (hw : (walk_words memory p.asCPU (stack_top S X p (u64 stack)) loop_fuel (u64 stack)).status
      = .returned)
    (hpage : stack_page_of (u64 stack) ≤ 2)
    (hframe : F.read_block_vaddr p.asCPU (stack_top S X p (u64 stack)) X.sizeof_x86_64exception
      = none) :
    print_stack S X memory F p loop_fuel (depth + 1) stack =
      { status := .caught
        trace := .print_stack (u64 stack) ::
          (walk_words memory p.asCPU (stack_top S X p (u64 stack)) loop_fuel (u64 stack)).trace ++
          [.read_block_vaddr (stack_top S X p (u64 stack)) X.sizeof_x86_64exception] } := by
  rw [print_stack]
  dsimp only
  rw [if_neg (not_not.mpr hw), if_pos hpage, hframe]

/-- A call on an interrupt page whose word loop completes, whose frame is read
and whose rule allows it, makes a nested call on the saved stack pointer. -/
theorem print_stack_of_recursion (S : Symbols) (X : StackLayout) (memory : Memory)
    (F : FrameReader) (p : x86_64PCPU) (loop_fuel depth stack : Nat) (frame : x86_64exception)
    (hw : (walk_words memory p.asCPU (stack_top S X p (u64 stack)) loop_fuel (u64 stack)).status
      = .returned)
    (hpage : stack_page_of (u64 stack) ≤ 2)
    (hframe : F.read_block_vaddr p.asCPU (stack_top S X p (u64 stack)) X.sizeof_x86_64exception
      = some frame)
    (hrule : stack_page_of (u64 stack) ≠ stack_page_of (u64 frame.rsp) ∧
      (stack_page_of (u64 stack) = 0 ∨ stack_page_of (u64 frame.rsp) > 2)) :
    print_stack S X memory F p loop_fuel (depth + 1) stack =
      { status := (print_stack S X memory F p loop_fuel depth frame.rsp).status.nested
        trace := .print_stack (u64 stack) ::
          (walk_words memory p.asCPU (stack_top S X p (u64 stack)) loop_fuel (u64 stack)).trace ++
          [.read_block_vaddr (stack_top S X p (u64 stack)) X.sizeof_x86_64exception] ++
          (print_stack S X memory F p loop_fuel depth frame.rsp).trace } := by
  rw [print_stack]
  dsimp only
  rw [if_neg (not_not.mpr hw), if_pos hpage, hframe]
  dsimp only
  rw [if_pos hrule]

/-- A call on an interrupt page whose word loop completes, whose frame is read
and whose rule forbids it, reports that it does not recurse and returns. -/
theorem print_stack_of_no_recursion (S : Symbols) (X : StackLayout) (memory : Memory)
    (F : FrameReader) (p : x86_64PCPU) (loop_fuel depth stack : Nat) (frame : x86_64exception)
    (hw : (walk_words memory p.asCPU (stack_top S X p (u64 stack)) loop_fuel (u64 stack)).status
      = .returned)
    (hpage : stack_page_of (u64 stack) ≤ 2)
    (hframe : F.read_block_vaddr p.asCPU (stack_top S X p (u64 stack)) X.sizeof_x86_64exception
      = some frame)
    (hrule : ¬ (stack_page_of (u64 stack) ≠ stack_page_of (u64 frame.rsp) ∧
      (stack_page_of (u64 stack) = 0 ∨ stack_page_of (u64 frame.rsp) > 2))) :
    print_stack S X memory F p loop_fuel (depth + 1) stack =
      { status := .returned
        trace := .print_stack (u64 stack) ::
          (walk_words memory p.asCPU (stack_top S X p (u64 stack)) loop_fuel (u64 stack)).trace ++
          [.read_block_vaddr (stack_top S X p (u64 stack)) X.sizeof_x86_64exception] ++
          [.not_recursing (stack_page_of (u64 stack)) (stack_page_of (u64 frame.rsp))] } := by
  rw [print_stack]
  dsimp only
  rw [if_neg (not_not.mpr hw), if_pos hpage, hframe]
  dsimp only
  rw [if_neg hrule]

/-! ## The recursion rule of the stack walker -/

/-- C12: after `print_stack` has walked an interrupt page `p = (sp >> 12) & 7`,
`p <= 2`, and read the exception frame, with `n = (saved RSP >> 12) & 7`, it
makes a nested call (on the saved stack pointer) if and only if `p != n` and
(`p == 0` or `n > 2`): never when `n == p`; from page 0 into any other page;
from pages 1 and 2 only into pages 3..7.  A walk that starts on a page `>= 3`
reads no exception frame and makes no nested call: after its entry it makes word
reads only. -/
theorem print_stack_recursion_rule (S : Symbols) (X : StackLayout) (memory : Memory)
    (F : FrameReader) (p : x86_64PCPU) (loop_fuel depth stack : Nat) (frame : x86_64exception) :
    (stack_page_of (u64 stack) ≤ 2 →
      (walk_words memory p.asCPU (stack_top S X p (u64 stack)) loop_fuel (u64 stack)).status
        = .returned →
      F.read_block_vaddr p.asCPU (stack_top S X p (u64 stack)) X.sizeof_x86_64exception
        = some frame →
      ((∃ s, StackEvent.print_stack s ∈
          (print_stack S X memory F p loop_fuel (depth + 2) stack).trace.tail) ↔
        (stack_page_of (u64 stack) ≠ stack_page_of (u64 frame.rsp) ∧
          (stack_page_of (u64 stack) = 0 ∨ stack_page_of (u64 frame.rsp) > 2))) ∧
      (StackEvent.print_stack (u64 frame.rsp) ∈
          (print_stack S X memory F p loop_fuel (depth + 2) stack).trace.tail ↔
        (stack_page_of (u64 stack) ≠ stack_page_of (u64 frame.rsp) ∧
          (stack_page_of (u64 stack) = 0 ∨ stack_page_of (u64 frame.rsp) > 2))) ∧
      (stack_page_of (u64 frame.rsp) = stack_page_of (u64 stack) →
        ¬ ∃ s, StackEvent.print_stack s ∈
          (print_stack S X memory F p loop_fuel (depth + 2) stack).trace.tail) ∧
      (stack_page_of (u64 stack) = 0 → stack_page_of (u64 frame.rsp) ≠ 0 →
        StackEvent.print_stack (u64 frame.rsp) ∈
          (print_stack S X memory F p loop_fuel (depth + 2) stack).trace.tail) ∧
      (stack_page_of (u64 stack) ≠ 0 →
        (StackEvent.print_stack (u64 frame.rsp) ∈
            (print_stack S X memory F p loop_fuel (depth + 2) stack).trace.tail ↔
          3 ≤ stack_page_of (u64 frame.rsp)))) ∧
    (3 ≤ stack_page_of (u64 stack) →
      ∀ e ∈ (print_stack S X memory F p loop_fuel (depth + 1) stack).trace.tail,
        ∃ a, e = StackEvent.read64_vaddr a) := by
  constructor
  · intro hpage hw hframe
    have hiff : ∀ q : Prop, (q ↔ (stack_page_of (u64 stack) ≠ stack_page_of (u64 frame.rsp) ∧
        (stack_page_of (u64 stack) = 0 ∨ stack_page_of (u64 frame.rsp) > 2))) →
        (stack_page_of (u64 stack) ≠ 0 → (q ↔ 3 ≤ stack_page_of (u64 frame.rsp))) := by
      intro q hq hne
      rw [hq]
      constructor
      · intro h
        rcases h.2 with h0 | h3
        · exact absurd h0 hne
        · exact h3
      · intro h
        exact ⟨by omega, Or.inr h⟩
    by_cases hrule : stack_page_of (u64 stack) ≠ stack_page_of (u64 frame.rsp) ∧
        (stack_page_of (u64 stack) = 0 ∨ stack_page_of (u64 frame.rsp) > 2)
    · have hmem : StackEvent.print_stack (u64 frame.rsp) ∈
          (print_stack S X memory F p loop_fuel (depth + 2) stack).trace.tail := by
        rw [print_stack_of_recursion S X memory F p loop_fuel (depth + 1) stack frame hw hpage
          hframe hrule]
        have hhead : ∃ rest, (print_stack S X memory F p loop_fuel (depth + 1) frame.rsp).trace
            = .print_stack (u64 frame.rsp) :: rest := by
          rw [print_stack]
          dsimp only
          split
          · exact ⟨_, rfl⟩
          · split
            · split
              · exact ⟨_, rfl⟩
              · split <;> exact ⟨_, rfl⟩
            · exact ⟨_, rfl⟩
        obtain ⟨rest, hrest⟩ := hhead
        rw [hrest]
        simp
      have h2 : StackEvent.print_stack (u64 frame.rsp) ∈
          (print_stack S X memory F p loop_fuel (depth + 2) stack).trace.tail ↔
          (stack_page_of (u64 stack) ≠ stack_page_of (u64 frame.rsp) ∧
            (stack_page_of (u64 stack) = 0 ∨ stack_page_of (u64 frame.rsp) > 2)) :=
        ⟨fun _ => hrule, fun _ => hmem⟩
      refine ⟨⟨fun _ => hrule, fun _ => ⟨_, hmem⟩⟩, h2, ?_, fun _ _ => hmem, hiff _ h2⟩
      intro heq
      exact absurd heq.symm hrule.1
    · have hnone : ¬ ∃ s, StackEvent.print_stack s ∈
          (print_stack S X memory F p loop_fuel (depth + 2) stack).trace.tail := by
        rw [print_stack_of_no_recursion S X memory F p loop_fuel (depth + 1) stack frame hw hpage
          hframe hrule]
        rintro ⟨s, hs⟩
        simp only [List.cons_append, List.tail_cons, List.append_assoc, List.mem_append,
          List.mem_cons, List.mem_singleton, List.not_mem_nil, or_false] at hs
        rcases hs with h | h | h
        · obtain ⟨a, ha⟩ := walk_words_trace_reads memory p.asCPU _ loop_fuel _ _ h
          exact absurd ha (by simp)
        · exact absurd h (by simp)
        · exact absurd h (by simp)
      have h2 : StackEvent.print_stack (u64 frame.rsp) ∈
          (print_stack S X memory F p loop_fuel (depth + 2) stack).trace.tail ↔
          (stack_page_of (u64 stack) ≠ stack_page_of (u64 frame.rsp) ∧
            (stack_page_of (u64 stack) = 0 ∨ stack_page_of (u64 frame.rsp) > 2)) :=
        ⟨fun h => absurd ⟨_, h⟩ hnone, fun h => absurd h hrule⟩
      refine ⟨⟨fun h => absurd h hnone, fun h => absurd h hrule⟩, h2, fun _ => hnone, ?_,
        hiff _ h2⟩
      intro h0 hn0
      exact absurd ⟨fun h => hn0 (h ▸ h0), Or.inl h0⟩ hrule
  · intro hpage e he
    have hpage2 : ¬ stack_page_of (u64 stack) ≤ 2 := by omega
    by_cases hw : (walk_words memory p.asCPU (stack_top S X p (u64 stack)) loop_fuel
        (u64 stack)).status = .returned
    · rw [print_stack_of_ordinary_page S X memory F p loop_fuel depth stack hw hpage2] at he
      exact walk_words_trace_reads memory p.asCPU _ loop_fuel _ e he
    · rw [print_stack_of_loop_ended S X memory F p loop_fuel depth stack hw] at he
      exact walk_words_trace_reads memory p.asCPU _ loop_fuel _ e he

/-- C12, on the Machine-Check stack of the examples (page 2), whose frame saved
a stack pointer on the NMI stack (page 1): no nested call is made. -/
theorem print_stack_recursion_rule_witness :
    ¬ ∃ s, StackEvent.print_stack s ∈
      (print_stack exSymbols exStackLayout exStackMemory exFrames exParsed 100 2
        0xffff83007f4f2f40).trace.tail :=
  have h := (print_stack_recursion_rule exSymbols exStackLayout exStackMemory exFrames exParsed
    100 0 0xffff83007f4f2f40
    { cs := 0xe008, rip := 0xffff82d080203000, rsp := 0xffff83007f4f1f40 }).1
    (by decide) (by decide) (by decide)
  fun hex => absurd (h.1.mp hex).2 (by decide)

/-! ## The chain of nested walks -/

/-- The pages of a trace that starts with the entry of a call and its word
loop. -/
theorem walked_pages_entry (memory : Memory) (cpu : CPU) (top fuel sp : Nat)
    (rest : List StackEvent) :
    walked_pages (.print_stack sp :: (walk_words memory cpu top fuel sp).trace ++ rest)
      = stack_page_of sp :: walked_pages rest := by
  have h := walked_pages_walk_words memory cpu top fuel sp
  unfold walked_pages at h ⊢
  rw [List.cons_append, List.filterMap_cons_some (by rfl : StackEvent.page (.print_stack sp)
    = some (stack_page_of sp)), List.filterMap_append, h, List.nil_append]

/-- The pages walked by a call form a chain that starts with the page of the
starting pointer and in which every hand-over leaves an interrupt page and
obeys the rule of lines 438-442. -/
theorem walked_pages_print_stack (S : Symbols) (X : StackLayout) (memory : Memory)
    (F : FrameReader) (p : x86_64PCPU) (loop_fuel depth : Nat) :
    ∀ stack, walked_pages (print_stack S X memory F p loop_fuel depth stack).trace = [] ∨
      ∃ rest, walked_pages (print_stack S X memory F p loop_fuel depth stack).trace
          = stack_page_of (u64 stack) :: rest ∧
        List.Chain (fun a b => a ≤ 2 ∧ may_recurse a b) (stack_page_of (u64 stack)) rest := by
  induction depth with
  | zero =>
    intro stack
    left
    rfl
  | succ depth ih =>
    intro stack
    right
    by_cases hw : (walk_words memory p.asCPU (stack_top S X p (u64 stack)) loop_fuel
        (u64 stack)).status = .returned
    swap
    · rw [print_stack_of_loop_ended S X memory F p loop_fuel depth stack hw]
      refine ⟨[], ?_, List.Chain.nil⟩
      have h := walked_pages_entry memory p.asCPU (stack_top S X p (u64 stack)) loop_fuel
        (u64 stack) []
      rw [List.append_nil] at h
      exact h
    by_cases hpage : stack_page_of (u64 stack) ≤ 2
    swap
    · rw [print_stack_of_ordinary_page S X memory F p loop_fuel depth stack hw hpage]
      refine ⟨[], ?_, List.Chain.nil⟩
      have h := walked_pages_entry memory p.asCPU (stack_top S X p (u64 stack)) loop_fuel
        (u64 stack) []
      rw [List.append_nil] at h
      exact h
    cases hframe : F.read_block_vaddr p.asCPU (stack_top S X p (u64 stack))
        X.sizeof_x86_64exception with
    | none =>
      rw [print_stack_of_frame_fault S X memory F p loop_fuel depth stack hw hpage hframe]
      exact ⟨[], walked_pages_entry memory p.asCPU _ loop_fuel (u64 stack) _, List.Chain.nil⟩
    | some frame =>
      by_cases hrule : stack_page_of (u64 stack) ≠ stack_page_of (u64 frame.rsp) ∧
          (stack_page_of (u64 stack) = 0 ∨ stack_page_of (u64 frame.rsp) > 2)
      · rw [print_stack_of_recursion S X memory F p loop_fuel depth stack frame hw hpage hframe
          hrule, List.append_assoc, walked_pages_entry]
        rcases ih frame.rsp with hnil | ⟨rest, hrest, hchain⟩
        · refine ⟨[], ?_, List.Chain.nil⟩
          unfold walked_pages at hnil ⊢
          rw [List.filterMap_append, hnil]
          rfl
        · refine ⟨stack_page_of (u64 frame.rsp) :: rest, ?_, List.Chain.cons ⟨hpage, hrule⟩ hchain⟩
          unfold walked_pages at hrest ⊢
          rw [List.filterMap_append, hrest]
          rfl
      · rw [print_stack_of_no_recursion S X memory F p loop_fuel depth stack frame hw hpage hframe
          hrule, List.append_assoc, walked_pages_entry]
        exact ⟨[], rfl, List.Chain.nil⟩

/-- A chain of pages in which every hand-over leaves an interrupt page and obeys
the rule holds at most three pages, holds each interrupt page at most once, and
never repeats a page in two consecutive places. -/
theorem chain_of_pages (a : Nat) (rest : List Nat)
    (h : List.Chain (fun a b => a ≤ 2 ∧ may_recurse a b) a rest) :
    (a :: rest).length ≤ 3 ∧
    (∀ q, q ≤ 2 → (a :: rest).count q ≤ 1) ∧
    List.Chain' (fun a b => a ≠ b) (a :: rest) := by
  unfold may_recurse at h
  cases rest with
  | nil => refine ⟨by simp, fun q _ => ?_, by simp⟩; simp [List.count_cons]; split <;> omega
  | cons b rest =>
    rw [List.chain_cons] at h
    obtain ⟨⟨ha2, hab, ha0⟩, h⟩ := h
    cases rest with
    | nil =>
      refine ⟨by simp, fun q _ => ?_, by simp [hab]⟩
      simp only [List.count_cons, List.count_nil, beq_iff_eq]
      split <;> split <;> omega
    | cons c rest =>
      rw [List.chain_cons] at h
      obtain ⟨⟨hb2, hbc, hb0⟩, h⟩ := h
      cases rest with
      | nil =>
        refine ⟨by simp, fun q _ => ?_, by simp [hab, hbc]⟩
        simp only [List.count_cons, List.count_nil, beq_iff_eq]
        split <;> split <;> split <;> omega
      | cons d rest =>
        rw [List.chain_cons] at h
        obtain ⟨⟨hc2, _, _⟩, _⟩ := h
        omega

/-- The nesting of calls never needs more depth than the rank of the starting
page. -/
theorem print_stack_depth_suffices (S : Symbols) (X : StackLayout) (memory : Memory)
    (F : FrameReader) (p : x86_64PCPU) (loop_fuel depth : Nat) :
    ∀ stack, page_rank (stack_page_of (u64 stack)) ≤ depth →
      (print_stack S X memory F p loop_fuel depth stack).status ≠ .depth_fuel := by
  induction depth with
  | zero =>
    intro stack h
    unfold page_rank at h
    split at h
    · omega
    · split at h <;> omega
  | succ depth ih =>
    intro stack hrank
    by_cases hw : (walk_words memory p.asCPU (stack_top S X p (u64 stack)) loop_fuel
        (u64 stack)).status = .returned
    swap
    · rw [print_stack_of_loop_ended S X memory F p loop_fuel depth stack hw]
      dsimp only
      have hne : ∀ fuel sp, (walk_words memory p.asCPU (stack_top S X p (u64 stack)) fuel
          sp).status ≠ .depth_fuel := by
        intro fuel
        induction fuel with
        | zero =>
          intro sp
          unfold walk_words
          split <;> simp
        | succ fuel ihf =>
          intro sp
          unfold walk_words
          split
          · split
            · simp
            · exact ihf _
          · simp
      exact hne _ _
    by_cases hpage : stack_page_of (u64 stack) ≤ 2
    swap
    · rw [print_stack_of_ordinary_page S X memory F p loop_fuel depth stack hw hpage]
      simp
    cases hframe : F.read_block_vaddr p.asCPU (stack_top S X p (u64 stack))
        X.sizeof_x86_64exception with
    | none =>
      rw [print_stack_of_frame_fault S X memory F p loop_fuel depth stack hw hpage hframe]
      simp
    | some frame =>
      by_cases hrule : stack_page_of (u64 stack) ≠ stack_page_of (u64 frame.rsp) ∧
          (stack_page_of (u64 stack) = 0 ∨ stack_page_of (u64 frame.rsp) > 2)
      · rw [print_stack_of_recursion S X memory F p loop_fuel depth stack frame hw hpage hframe
          hrule]
        dsimp only
        have hlt : page_rank (stack_page_of (u64 frame.rsp)) ≤ depth := by
          unfold page_rank at hrank ⊢
          obtain ⟨h1, h2⟩ := hrule
          split at hrank <;> split <;> (try split) <;> omega
        have hin := ih frame.rsp hlt
        intro hbad
        apply hin
        cases hs : (print_stack S X memory F p loop_fuel depth frame.rsp).status <;>
          simp [hs, WalkStatus.nested] at hbad ⊢
      · rw [print_stack_of_no_recursion S X memory F p loop_fuel depth stack frame hw hpage hframe
          hrule]
        simp

/-! ## The top of a stack and the words below it -/

/-- ORing the page mask into a pointer gives the last byte of its page. -/
theorem lor_page_mask (sp : Nat) : sp ||| 4095 = 4096 * (sp / 4096) + 4095 := by
  have h : (4096 : Nat) * (sp / 4096) + 4095 = 2 ^ 12 * (sp / 2 ^ 12) ||| 4095 :=
    Nat.mul_add_lt_is_or (by decide : 4095 < 2 ^ 12) _
  rw [h]
  apply Nat.eq_of_testBit_eq
  intro i
  have hm : (4095 : Nat) = 2 ^ 12 - 1 := by decide
  rw [Nat.testBit_lor, Nat.testBit_lor, Nat.testBit_mul_pow_two, ← Nat.shiftRight_eq_div_pow,
    Nat.testBit_shiftRight, hm, Nat.testBit_two_pow_sub_one]
  by_cases h1 : i < 12
  · simp [h1]
  · have h2 : 12 ≤ i := Nat.not_lt.mp h1
    have h3 : 12 + (i - 12) = i := by omega
    simp [h1, h2, h3]

/-- The page index of a pointer is its page number modulo 8. -/
theorem stack_page_of_eq (sp : Nat) : stack_page_of sp = sp / 4096 % 8 := by
  unfold stack_page_of
  have h := Nat.and_pow_two_sub_one_eq_mod (sp >>> 12) 3
  rw [Nat.shiftRight_eq_div_pow] at h ⊢
  exact h

/-- On an interrupt page, with 4 KiB pages and a frame that fits in a page, the
top of the stack is the end of the page of `sp` minus the size of the frame, and
it is more than 8 bytes below `2^64`. -/
theorem stack_top_interrupt_page (S : Symbols) (X : StackLayout) (p : x86_64PCPU) (sp : Nat)
    (hpsize : X.PAGE_SIZE = 4096) (hframe : X.sizeof_x86_64exception ≤ 4096)
    (hsp : sp < 2 ^ 64) (hpage : stack_page_of sp ≤ 2) :
    stack_top S X p sp = 4096 * (sp / 4096) + 4096 - X.sizeof_x86_64exception ∧
    stack_top S X p sp + 8 ≤ 2 ^ 64 := by
  have h64 : (2 : Nat) ^ 64 = 18446744073709551616 := by decide
  rw [stack_page_of_eq] at hpage
  have hq : sp / 4096 + 6 ≤ 4503599627370496 := by omega
  have htop : stack_top S X p sp =
      u64 (u64 ((sp ||| 4095) + 1) + 2 ^ 64 - u64 X.sizeof_x86_64exception) := by
    unfold stack_top
    rw [if_pos (by rw [stack_page_of_eq]; exact hpage), hpsize]
  rw [htop, lor_page_mask]
  unfold u64
  rw [h64]
  have h1 : (4096 * (sp / 4096) + 4095 + 1) % 18446744073709551616
      = 4096 * (sp / 4096) + 4096 := by
    apply Nat.mod_eq_of_lt
    omega
  have h2 : X.sizeof_x86_64exception % 18446744073709551616 = X.sizeof_x86_64exception := by
    apply Nat.mod_eq_of_lt
    omega
  rw [h1, h2]
  have h3 : (4096 * (sp / 4096) + 4096 + 18446744073709551616 - X.sizeof_x86_64exception)
      = (4096 * (sp / 4096) + 4096 - X.sizeof_x86_64exception) + 18446744073709551616 := by
    omega
  rw [h3, Nat.add_mod_right]
  have h4 : (4096 * (sp / 4096) + 4096 - X.sizeof_x86_64exception) % 18446744073709551616
      = 4096 * (sp / 4096) + 4096 - X.sizeof_x86_64exception := by
    apply Nat.mod_eq_of_lt
    omega
  rw [h4]
  constructor
  · rfl
  · omega

/-- On an ordinary page the top of the stack is the address of the `cpu_info`
block of the PCPU. -/
theorem stack_top_ordinary_page (S : Symbols) (X : StackLayout) (p : x86_64PCPU) (sp : Nat)
    (hpage : ¬ stack_page_of sp ≤ 2) :
    stack_top S X p sp = cpuinfo_addr S p.regs.rsp := by
  unfold stack_top cpuinfo_addr
  rw [if_neg hpage]

/-- There is no word strictly below `top` from `top` on. -/
theorem stack_words_nil (sp top : Nat) (h : ¬ sp < top) : stack_words sp top = [] := by
  unfold stack_words
  have hn : (top - sp + 7) / 8 = 0 := by omega
  rw [hn]
  rfl

/-- Below `top`, the words from `sp` are `sp` and the words from `sp + 8`. -/
theorem stack_words_cons (sp top : Nat) (h : sp < top) :
    stack_words sp top = sp :: stack_words (sp + 8) top := by
  unfold stack_words
  have hn : (top - sp + 7) / 8 = (top - (sp + 8) + 7) / 8 + 1 := by omega
  rw [hn, List.range_succ_eq_map, List.map_cons, List.map_map]
  congr 1
  apply List.map_congr_left
  intro k _
  simp only [Function.comp_apply]
  omega

/-- With a top at least 8 bytes below `2^64` and fuel for every word below it,
the word loop does not run out of fuel; when it completes it has read the words
below the top, all of them, in ascending order; when an exception ends it, it
has read them up to and including the first one whose read throws; and it
completes when no read throws. -/
theorem walk_words_spec (memory : Memory) (cpu : CPU) (top : Nat) (htop : top + 8 ≤ 2 ^ 64)
    (fuel : Nat) :
    ∀ sp, (top - sp + 7) / 8 ≤ fuel →
      (walk_words memory cpu top fuel sp).status ≠ .loop_fuel ∧
      (walk_words memory cpu top fuel sp).status ≠ .depth_fuel ∧
      ((walk_words memory cpu top fuel sp).status = .returned →
        (walk_words memory cpu top fuel sp).trace
          = (stack_words sp top).map StackEvent.read64_vaddr) ∧
      ((walk_words memory cpu top fuel sp).status = .caught →
        ∃ k, k < (stack_words sp top).length ∧
          memory.read64_vaddr cpu (sp + 8 * k) = none ∧
          (∀ j, j < k → memory.read64_vaddr cpu (sp + 8 * j) ≠ none) ∧
          (walk_words memory cpu top fuel sp).trace
            = ((stack_words sp top).take (k + 1)).map StackEvent.read64_vaddr) ∧
      ((∀ a ∈ stack_words sp top, memory.read64_vaddr cpu a ≠ none) →
        (walk_words memory cpu top fuel sp).status = .returned) := by
  have h64 : (2 : Nat) ^ 64 = 18446744073709551616 := by decide
  induction fuel with
  | zero =>
    intro sp h
    have hlt : ¬ sp < top := by omega
    have hw : walk_words memory cpu top 0 sp = { status := .returned, trace := [] } := by
      unfold walk_words
      rw [if_neg hlt]
    rw [hw, stack_words_nil sp top hlt]
    simp
  | succ fuel ih =>
    intro sp hfuel
    by_cases hlt : sp < top
    swap
    · have hw : walk_words memory cpu top (fuel + 1) sp = { status := .returned, trace := [] } := by
        unfold walk_words
        rw [if_neg hlt]
      rw [hw, stack_words_nil sp top hlt]
      simp
    cases hread : memory.read64_vaddr cpu sp with
    | none =>
      have hw : walk_words memory cpu top (fuel + 1) sp
          = { status := .caught, trace := [.read64_vaddr sp] } := by
        unfold walk_words
        rw [if_pos hlt, hread]
      rw [hw, stack_words_cons sp top hlt]
      refine ⟨by simp, by simp, by simp, fun _ => ⟨0, by simp, by simpa using hread, by simp,
        by simp⟩, ?_⟩
      intro hall
      exact absurd hread (hall sp (List.mem_cons_self _ _))
    | some v =>
      have hnext : u64 (sp + 8) = sp + 8 := by
        apply Nat.mod_eq_of_lt
        omega
      have hw : walk_words memory cpu top (fuel + 1) sp =
          { status := (walk_words memory cpu top fuel (sp + 8)).status
            trace := .read64_vaddr sp :: (walk_words memory cpu top fuel (sp + 8)).trace } := by
        rw [walk_words, if_pos hlt, hread, hnext]
      obtain ⟨i1, i2, i3, i4, i5⟩ := ih (sp + 8) (by omega)
      rw [hw, stack_words_cons sp top hlt]
      dsimp only
      refine ⟨i1, i2, ?_, ?_, ?_⟩
      · intro h
        rw [i3 h, List.map_cons]
      · intro h
        obtain ⟨k, hk, hnone, hall, htrace⟩ := i4 h
        refine ⟨k + 1, by simpa using hk, ?_, ?_, ?_⟩
        · have : sp + 8 * (k + 1) = sp + 8 + 8 * k := by omega
          rw [this]
          exact hnone
        · intro j hj
          cases j with
          | zero => simp [hread]
          | succ j =>
            have : sp + 8 * (j + 1) = sp + 8 + 8 * j := by omega
            rw [this]
            exact hall j (by omega)
        · rw [htrace, List.take_succ_cons, List.map_cons]
      · intro hall
        exact i5 (fun a ha => hall a (List.mem_cons_of_mem _ ha))

/-- With 4 KiB pages, a frame that fits in a page and a `cpu_info` block at
least 8 bytes below `2^64`, every stack top is at least 8 bytes below `2^64`:
the addition `sp += 8` of the word loop does not wrap. -/
theorem stack_top_no_wrap (S : Symbols) (X : StackLayout) (p : x86_64PCPU) (stack : Nat)
    (hpsize : X.PAGE_SIZE = 4096) (hframe : X.sizeof_x86_64exception ≤ 4096)
    (hcpu : cpuinfo_addr S p.regs.rsp + 8 ≤ 2 ^ 64) :
    stack_top S X p (u64 stack) + 8 ≤ 2 ^ 64 := by
  by_cases hpage : stack_page_of (u64 stack) ≤ 2
  · exact (stack_top_interrupt_page S X p (u64 stack) hpsize hframe
      (Nat.mod_lt _ (by decide)) hpage).2
  · rw [stack_top_ordinary_page S X p (u64 stack) hpage]
    exact hcpu

/-- With stack tops that do not wrap, `2^61` iterations for each word loop and
a depth of at least the rank of the starting page, a call of `print_stack`
ends: it returns, or an exception ends it. -/
theorem print_stack_terminates (S : Symbols) (X : StackLayout) (memory : Memory)
    (F : FrameReader) (p : x86_64PCPU) (loop_fuel depth : Nat)
    (hpsize : X.PAGE_SIZE = 4096) (hframe : X.sizeof_x86_64exception ≤ 4096)
    (hcpu : cpuinfo_addr S p.regs.rsp + 8 ≤ 2 ^ 64) (hfuel : 2 ^ 61 ≤ loop_fuel) :
    ∀ stack, page_rank (stack_page_of (u64 stack)) ≤ depth →
      (print_stack S X memory F p loop_fuel depth stack).status = .returned ∨
      (print_stack S X memory F p loop_fuel depth stack).status = .caught := by
  have h64 : (2 : Nat) ^ 64 = 18446744073709551616 := by decide
  have h61 : (2 : Nat) ^ 61 = 2305843009213693952 := by decide
  induction depth with
  | zero =>
    intro stack h
    unfold page_rank at h
    split at h
    · omega
    · split at h <;> omega
  | succ depth ih =>
    intro stack hrank
    have htop := stack_top_no_wrap S X p stack hpsize hframe hcpu
    have hloop := walk_words_spec memory p.asCPU (stack_top S X p (u64 stack)) htop loop_fuel
      (u64 stack) (by omega)
    by_cases hw : (walk_words memory p.asCPU (stack_top S X p (u64 stack)) loop_fuel
        (u64 stack)).status = .returned
    swap
    · rw [print_stack_of_loop_ended S X memory F p loop_fuel depth stack hw]
      dsimp only
      cases hs : (walk_words memory p.asCPU (stack_top S X p (u64 stack)) loop_fuel
          (u64 stack)).status with
      | returned => exact Or.inl rfl
      | caught => exact Or.inr rfl
      | loop_fuel => exact absurd hs hloop.1
      | depth_fuel => exact absurd hs hloop.2.1
    by_cases hpage : stack_page_of (u64 stack) ≤ 2
    swap
    · rw [print_stack_of_ordinary_page S X memory F p loop_fuel depth stack hw hpage]
      exact Or.inl rfl
    cases hfr : F.read_block_vaddr p.asCPU (stack_top S X p (u64 stack))
        X.sizeof_x86_64exception with
    | none =>
      rw [print_stack_of_frame_fault S X memory F p loop_fuel depth stack hw hpage hfr]
      exact Or.inr rfl
    | some frame =>
      by_cases hrule : stack_page_of (u64 stack) ≠ stack_page_of (u64 frame.rsp) ∧
          (stack_page_of (u64 stack) = 0 ∨ stack_page_of (u64 frame.rsp) > 2)
      · rw [print_stack_of_recursion S X memory F p loop_fuel depth stack frame hw hpage hfr
          hrule]
        dsimp only
        have hlt : page_rank (stack_page_of (u64 frame.rsp)) ≤ depth := by
          unfold page_rank at hrank ⊢
          obtain ⟨h1, h2⟩ := hrule
          split at hrank <;> split <;> (try split) <;> omega
        left
        rcases ih frame.rsp hlt with h | h <;> rw [h] <;> rfl
      · rw [print_stack_of_no_recursion S X memory F p loop_fuel depth stack frame hw hpage hfr
          hrule]
        exact Or.inl rfl

/-- C13: for every starting stack pointer, every memory content and every
exception frame (and whatever the fuel of the model), the chain of nested
`print_stack` walks holds at most three walks, walks each of the interrupt
pages 0, 1, 2 at most once, never hands over to the page it is on, and obeys
the rule at every hand-over; a nesting depth of three is never exceeded; and
when the stack tops do not wrap, the whole call ends (it returns, or an
exception ends a walk). -/
theorem print_stack_chain_bounded (S : Symbols) (X : StackLayout) (memory : Memory)
    (F : FrameReader) (p : x86_64PCPU) (loop_fuel depth stack : Nat) :
    (walked_pages (print_stack S X memory F p loop_fuel depth stack).trace).length ≤ 3 ∧
    (∀ q, q ≤ 2 →
      (walked_pages (print_stack S X memory F p loop_fuel depth stack).trace).count q ≤ 1) ∧
    List.Chain' (fun a b => a ≠ b)
      (walked_pages (print_stack S X memory F p loop_fuel depth stack).trace) ∧
    List.Chain' (fun a b => a ≤ 2 ∧ may_recurse a b)
      (walked_pages (print_stack S X memory F p loop_fuel depth stack).trace) ∧
    (3 ≤ depth → (print_stack S X memory F p loop_fuel depth stack).status ≠ .depth_fuel) ∧
    (X.PAGE_SIZE = 4096 → X.sizeof_x86_64exception ≤ 4096 →
      cpuinfo_addr S p.regs.rsp + 8 ≤ 2 ^ 64 → 3 ≤ depth → 2 ^ 61 ≤ loop_fuel →
      (print_stack S X memory F p loop_fuel depth stack).status = .returned ∨
      (print_stack S X memory F p loop_fuel depth stack).status = .caught) := by
  have hrank : page_rank (stack_page_of (u64 stack)) ≤ 3 := by
    unfold page_rank
    split
    · omega
    · split <;> omega
  refine ⟨?_, ?_, ?_, ?_, ?_, ?_⟩
  · rcases walked_pages_print_stack S X memory F p loop_fuel depth stack with h | ⟨rest, h, hc⟩
    · rw [h]; simp
    · rw [h]; exact (chain_of_pages _ rest hc).1
  · rcases walked_pages_print_stack S X memory F p loop_fuel depth stack with h | ⟨rest, h, hc⟩
    · rw [h]; simp
    · rw [h]; exact (chain_of_pages _ rest hc).2.1
  · rcases walked_pages_print_stack S X memory F p loop_fuel depth stack with h | ⟨rest, h, hc⟩
    · rw [h]; exact List.chain'_nil
    · rw [h]; exact (chain_of_pages _ rest hc).2.2
  · rcases walked_pages_print_stack S X memory F p loop_fuel depth stack with h | ⟨rest, h, hc⟩
    · rw [h]; exact List.chain'_nil
    · rw [h]; exact hc
  · intro hd
    exact print_stack_depth_suffices S X memory F p loop_fuel depth stack (by omega)
  · intro hpsize hframe hcpu hd hfuel
    exact print_stack_terminates S X memory F p loop_fuel depth hpsize hframe hcpu hfuel stack
      (by omega)

/-- C13, on the Double-Fault stack of the examples, whose frame hands over to
the NMI stack, whose frame hands over to the ordinary stack: the chain walks
pages 0, 1 and 7 and the call returns. -/
theorem print_stack_chain_bounded_witness :
    walked_pages (print_stack exSymbols exStackLayout exStackMemory exFrames exParsed 100 3
      0xffff83007f4f0f00).trace = [0, 1, 7] ∧
    (print_stack exSymbols exStackLayout exStackMemory exFrames exParsed 100 3
      0xffff83007f4f0f00).status ≠ .depth_fuel :=
  have h := print_stack_chain_bounded exSymbols exStackLayout exStackMemory exFrames exParsed 100 3
    0xffff83007f4f0f00
  ⟨by decide, h.2.2.2.2.1 (by decide)⟩

/-! ## The words read by a walk -/

/-- C19, as stated, fails: in a dump that does not map the stack of the PCPU,
the walk from `rsp` (page 7, 33 words below the stack top) makes the read of the
word at `rsp`, which throws, and ends: the word at `rsp + 8`, strictly below the
stack top, is not read. -/
theorem print_stack_unmapped_counterexample :
    stack_page_of 0xffff83007f4f7e10 = 7 ∧
    stack_top exSymbols exStackLayout exParsed 0xffff83007f4f7e10 = 0xffff83007f4f7f18 ∧
    (stack_words 0xffff83007f4f7e10 0xffff83007f4f7f18).length = 33 ∧
    0xffff83007f4f7e10 + 8 ∈ stack_words 0xffff83007f4f7e10 0xffff83007f4f7f18 ∧
    (print_stack exSymbols exStackLayout (exMemory exIdle exIdle) exFrames exParsed 100 3
      0xffff83007f4f7e10) =
        { status := .caught
          trace := [.print_stack 0xffff83007f4f7e10, .read64_vaddr 0xffff83007f4f7e10] } ∧
    StackEvent.read64_vaddr (0xffff83007f4f7e10 + 8) ∉
      (print_stack exSymbols exStackLayout (exMemory exIdle exIdle) exFrames exParsed 100 3
        0xffff83007f4f7e10).trace := by
  decide

/-- C19, amended: with 4 KiB pages and an exception frame that fits in a page,
for a starting pointer `sp` on page 0, 1 or 2,
`stack_top = (sp | (PAGE_SIZE-1)) + 1 - sizeof(x86_64exception)`, so that the
frame at `stack_top` is the last `sizeof(x86_64exception)` bytes of the 4 KiB
page of `sp`; for `sp` on a page `>= 3`, `stack_top` is the `cpu_info` address
that `decode_extended_state` computes for the PCPU.  In both cases, for a
`stack_top` at least 8 bytes below `2^64` (it always is on pages 0..2), the word
loop reads the words at `sp`, `sp+8`, `sp+16`, ... strictly below `stack_top` in
ascending order: all of them when no read throws, and otherwise up to and
including the first one whose read throws, which ends the walk; it reads none
when `sp >= stack_top`. -/
theorem print_stack_words (S : Symbols) (X : StackLayout) (memory : Memory) (F : FrameReader)
    (p : x86_64PCPU) (loop_fuel depth stack : Nat)
    (hpsize : X.PAGE_SIZE = 4096) (hframe : X.sizeof_x86_64exception ≤ 4096) :
    (stack_page_of (u64 stack) ≤ 2 →
      stack_top S X p (u64 stack)
        = (u64 stack ||| (X.PAGE_SIZE - 1)) + 1 - X.sizeof_x86_64exception ∧
      stack_top S X p (u64 stack) + X.sizeof_x86_64exception = 4096 * (u64 stack / 4096) + 4096 ∧
      4096 * (u64 stack / 4096) ≤ stack_top S X p (u64 stack) ∧
      stack_top S X p (u64 stack) + 8 ≤ 2 ^ 64) ∧
    (3 ≤ stack_page_of (u64 stack) →
      stack_top S X p (u64 stack) = cpuinfo_addr S p.regs.rsp) ∧
    (∃ rest, (print_stack S X memory F p loop_fuel (depth + 1) stack).trace =
      .print_stack (u64 stack) ::
        (walk_words memory p.asCPU (stack_top S X p (u64 stack)) loop_fuel (u64 stack)).trace
        ++ rest) ∧
    (stack_top S X p (u64 stack) + 8 ≤ 2 ^ 64 →
      (stack_top S X p (u64 stack) - u64 stack + 7) / 8 ≤ loop_fuel →
      (((walk_words memory p.asCPU (stack_top S X p (u64 stack)) loop_fuel (u64 stack)).status
            = .returned ∧
          (walk_words memory p.asCPU (stack_top S X p (u64 stack)) loop_fuel (u64 stack)).trace
            = (stack_words (u64 stack) (stack_top S X p (u64 stack))).map
                StackEvent.read64_vaddr) ∨
        ((walk_words memory p.asCPU (stack_top S X p (u64 stack)) loop_fuel (u64 stack)).status
            = .caught ∧
          ∃ k, k < (stack_words (u64 stack) (stack_top S X p (u64 stack))).length ∧
            memory.read64_vaddr p.asCPU (u64 stack + 8 * k) = none ∧
            (∀ j, j < k → memory.read64_vaddr p.asCPU (u64 stack + 8 * j) ≠ none) ∧
            (walk_words memory p.asCPU (stack_top S X p (u64 stack)) loop_fuel (u64 stack)).trace
              = ((stack_words (u64 stack) (stack_top S X p (u64 stack))).take (k + 1)).map
                  StackEvent.read64_vaddr)) ∧
      ((∀ a ∈ stack_words (u64 stack) (stack_top S X p (u64 stack)),
          memory.read64_vaddr p.asCPU a ≠ none) →
        (walk_words memory p.asCPU (stack_top S X p (u64 stack)) loop_fuel (u64 stack)).trace
          = (stack_words (u64 stack) (stack_top S X p (u64 stack))).map
              StackEvent.read64_vaddr) ∧
      (stack_top S X p (u64 stack) ≤ u64 stack →
        (walk_words memory p.asCPU (stack_top S X p (u64 stack)) loop_fuel (u64 stack)).trace
          = [])) := by
  refine ⟨?_, ?_, ?_, ?_⟩
  · intro hpage
    obtain ⟨h1, h2⟩ := stack_top_interrupt_page S X p (u64 stack) hpsize hframe
      (Nat.mod_lt _ (by decide)) hpage
    rw [h1, hpsize, lor_page_mask]
    refine ⟨by omega, by omega, by omega, ?_⟩
    rw [← h1]
    exact h2
  · intro hpage
    exact stack_top_ordinary_page S X p (u64 stack) (by omega)
  · rw [print_stack]
    dsimp only
    split
    · exact ⟨[], by simp⟩
    · split
      · split
        · exact ⟨_, rfl⟩
        · split
          · exact ⟨_, by rw [List.append_assoc]⟩
          · exact ⟨_, by rw [List.append_assoc]⟩
      · exact ⟨[], by simp⟩
  · intro htop hfuel
    obtain ⟨i1, i2, i3, i4, i5⟩ := walk_words_spec memory p.asCPU (stack_top S X p (u64 stack))
      htop loop_fuel (u64 stack) hfuel
    refine ⟨?_, fun hall => i3 (i5 hall), ?_⟩
    · cases hs : (walk_words memory p.asCPU (stack_top S X p (u64 stack)) loop_fuel
          (u64 stack)).status with
      | returned => exact Or.inl ⟨rfl, i3 hs⟩
      | caught => exact Or.inr ⟨rfl, i4 hs⟩
      | loop_fuel => exact absurd hs i1
      | depth_fuel => exact absurd hs i2
    · intro hle
      have hnil := stack_words_nil (u64 stack) (stack_top S X p (u64 stack)) (by omega)
      have hall : ∀ a ∈ stack_words (u64 stack) (stack_top S X p (u64 stack)),
          memory.read64_vaddr p.asCPU a ≠ none := by
        intro a ha
        rw [hnil] at ha
        exact absurd ha (List.not_mem_nil a)
      rw [i3 (i5 hall), hnil]
      rfl

/-- C19 amended, on the Double-Fault stack of the examples: the stack top is
168 bytes below the end of the page, and the walk reads the eleven words from
`0xffff83007f4f0f00` to `0xffff83007f4f0f50`. -/
theorem print_stack_words_witness :
    stack_top exSymbols exStackLayout exParsed 0xffff83007f4f0f00 + 168 = 0xffff83007f4f1000 ∧
    (walk_words exStackMemory exParsed.asCPU
        (stack_top exSymbols exStackLayout exParsed 0xffff83007f4f0f00) 100
        0xffff83007f4f0f00).trace.length = 11 :=
  have h := print_stack_words exSymbols exStackLayout exStackMemory exFrames exParsed 100 2
    0xffff83007f4f0f00 (by decide) (by decide)
  ⟨(h.1 (by decide)).2.1.trans (by decide),
    (congrArg List.length ((h.2.2.2 (by decide) (by decide)).2.1 (by decide))).trans (by decide)⟩

/-! ## The 64-bit symbol table decoder: sentinel and bounds -/

/-- C17: for a decoded 64-bit symbol table (array and bitmap of `nr_entries`
slots), `get(i)` returns the sentinel 0 for every index `i` with
`is_valid(i) == false`, in range or not; `is_valid(i)` is false, and `get(i)`
is 0, for every `i >= length()`; and neither function makes an access outside
the owned array or the bitmap. -/
theorem sym64_get_sentinel (d : x64Sym64TabDecoder) (hwf : d.WellFormed) (i : Nat) :
    (d.is_valid i = some false → d.get i = some 0) ∧
    (d.length ≤ i → d.is_valid i = some false ∧ d.get i = some 0) ∧
    d.is_valid i ≠ none ∧
    d.get i ≠ none := by
  obtain ⟨htab, hbits⟩ := hwf
  unfold x64Sym64TabDecoder.is_valid x64Sym64TabDecoder.get x64Sym64TabDecoder.length
    Bitmap.test
  by_cases hi : i < d.nr_entries
  · have h1 : i < d.valid.bits.length := by omega
    have h2 : i < d.table.length := by omega
    rw [if_pos hi, if_pos hi, List.getElem?_eq_getElem h1, List.getElem?_eq_getElem h2]
    cases d.valid.bits[i] <;> simp
    omega
  · rw [if_neg hi, if_neg hi]
    simp

/-- C17, on the two-slot table of the examples: slot 1 is invalid and reads as
0, index 5 is out of range, invalid, and reads as 0. -/
theorem sym64_get_sentinel_witness :
    exSymtab.is_valid 1 = some false ∧ exSymtab.get 1 = some 0 ∧
    exSymtab.is_valid 5 = some false ∧ exSymtab.get 5 = some 0 :=
  have h1 := sym64_get_sentinel exSymtab ⟨rfl, rfl⟩ 1
  have h5 := sym64_get_sentinel exSymtab ⟨rfl, rfl⟩ 5
  ⟨by decide, h1.1 (by decide), (h5.2.1 (by decide)).1, (h5.2.1 (by decide)).2⟩

/-! ## The index of the idle VCPU table -/

/-- C21 fails on the code (an off-by-one in the check of line 161): in a dump
whose `cpu_info` block names processor 4 on a host with four physical CPUs
(idle VCPU entries 0..3), the processor-id check passes and the classification
looks up `host.idle_vcpus[4]`. -/
theorem decode_extended_state_idle_index_out_of_range :
    exHost.nr_pcpus = 4 ∧
    (decode_extended_state exLayout exSymbols exHost exMemoryLastId exParser
      exParsed).pcpu.processor_id = 4 ∧
    ¬ (decode_extended_state exLayout exSymbols exHost exMemoryLastId exParser
      exParsed).pcpu.processor_id < exHost.nr_pcpus ∧
    Event.idle_vcpus 4 ∈
      (decode_extended_state exLayout exSymbols exHost exMemoryLastId exParser exParsed).trace ∧
    (decode_extended_state exLayout exSymbols exHost exMemoryLastId exParser exParsed).ret
      = true := by
  decide

/-! ## The report of a context switch -/

/-- C23 fails on the code (the two snapshots are swapped in lines 346-350): after
the decode of a context switch in which the stack-resident pointer is guest
VCPU A (DOM0 VCPU2) and the per-CPU pointer is guest VCPU B (DOM1 VCPU3),
`ctx_from` is the snapshot of B and `ctx_to` the snapshot of A, and the report
shows "stack current VCPU A DOM1 VCPU3" and "percpu current VCPU B DOM0 VCPU2":
each pointer with the identity parsed from the other one. -/
theorem print_state_switch_identities_crossed :
    (decode_extended_state exLayout exSymbols exHost (exMemory exGuestA exGuestB) exParser
      exParsed).pcpu.current_vcpu_ptr = exGuestA ∧
    (decode_extended_state exLayout exSymbols exHost (exMemory exGuestA exGuestB) exParser
      exParsed).pcpu.per_cpu_current_vcpu_ptr = exGuestB ∧
    ((exParser.parse_basic exBlank exGuestA exParsed.asCPU).2.domid = 0 ∧
      (exParser.parse_basic exBlank exGuestA exParsed.asCPU).2.vcpu_id = 2) ∧
    ((exParser.parse_basic exBlank exGuestB exParsed.asCPU).2.domid = 1 ∧
      (exParser.parse_basic exBlank exGuestB exParsed.asCPU).2.vcpu_id = 3) ∧
    print_state_vcpu_context exLayout
      (decode_extended_state exLayout exSymbols exHost (exMemory exGuestA exGuestB) exParser
        exParsed).pcpu =
      some [.stack_vcpu exGuestA 1 3, .percpu_vcpu exGuestB 0 2, .switching 1 3 0 2] := by
  decide

/-! ## The area of a walk -/

/-- With a top at least 8 bytes below `2^64`, and whatever the fuel, the word
loop reads only words that start between `sp` and the top, and makes at most as
many reads as there are words below the top. -/
theorem walk_words_bounds (memory : Memory) (cpu : CPU) (top : Nat) (htop : top + 8 ≤ 2 ^ 64)
    (fuel : Nat) :
    ∀ sp, (∀ e ∈ (walk_words memory cpu top fuel sp).trace,
        ∃ a, e = StackEvent.read64_vaddr a ∧ sp ≤ a ∧ a < top) ∧
      (walk_words memory cpu top fuel sp).trace.length ≤ (top - sp + 7) / 8 := by
  have h64 : (2 : Nat) ^ 64 = 18446744073709551616 := by decide
  induction fuel with
  | zero =>
    intro sp
    unfold walk_words
    split <;> simp
  | succ fuel ih =>
    intro sp
    by_cases hlt : sp < top
    swap
    · have hw : walk_words memory cpu top (fuel + 1) sp = { status := .returned, trace := [] } := by
        unfold walk_words
        rw [if_neg hlt]
      rw [hw]
      simp
    cases hread : memory.read64_vaddr cpu sp with
    | none =>
      have hw : walk_words memory cpu top (fuel + 1) sp
          = { status := .caught, trace := [.read64_vaddr sp] } := by
        unfold walk_words
        rw [if_pos hlt, hread]
      rw [hw]
      constructor
      · intro e he
        rw [List.mem_singleton] at he
        exact ⟨sp, he, Nat.le_refl _, hlt⟩
      · simp only [List.length_singleton]
        omega
    | some v =>
      have hnext : u64 (sp + 8) = sp + 8 := by
        apply Nat.mod_eq_of_lt
        omega
      have hw : walk_words memory cpu top (fuel + 1) sp =
          { status := (walk_words memory cpu top fuel (sp + 8)).status
            trace := .read64_vaddr sp :: (walk_words memory cpu top fuel (sp + 8)).trace } := by
        rw [walk_words, if_pos hlt, hread, hnext]
      obtain ⟨i1, i2⟩ := ih (sp + 8)
      rw [hw]
      constructor
      · intro e he
        rw [List.mem_cons] at he
        rcases he with h | h
        · exact ⟨sp, h, Nat.le_refl _, hlt⟩
        · obtain ⟨a, ha, h1, h2⟩ := i1 e h
          exact ⟨a, ha, by omega, h2⟩
      · simp only [List.length_cons]
        omega

/-- C22, as stated, fails: on a PCPU that crashed on its NMI stack, whose
exception frame saved a stack pointer on page 7 of another stack area, the
nested walk from that pointer takes the `cpu_info` block of the PCPU for its
top and reads on into the stack area that follows the one of its starting
pointer, until a read throws. -/
theorem print_stack_leaves_area_counterexample :
    stack_page_of 0xffff83007f4e7e10 = 7 ∧
    StackEvent.print_stack 0xffff83007f4e7e10 ∈
      (print_stack exSymbols exStackLayout exMemoryOtherArea exFramesOtherArea exOnNmiStack 100 3
        exOnNmiStack.regs.rsp).trace ∧
    stack_top exSymbols exStackLayout exOnNmiStack 0xffff83007f4e7e10 = 0xffff83007f4f7f18 ∧
    (walk_words exMemoryOtherArea exOnNmiStack.asCPU
      (stack_top exSymbols exStackLayout exOnNmiStack 0xffff83007f4e7e10) 100
      0xffff83007f4e7e10).trace.length = 65 ∧
    StackEvent.read64_vaddr 0xffff83007f4e8008 ∈
      (walk_words exMemoryOtherArea exOnNmiStack.asCPU
        (stack_top exSymbols exStackLayout exOnNmiStack 0xffff83007f4e7e10) 100
        0xffff83007f4e7e10).trace ∧
    StackEvent.read64_vaddr 0xffff83007f4e8008 ∈
      (print_stack exSymbols exStackLayout exMemoryOtherArea exFramesOtherArea exOnNmiStack 100 3
        exOnNmiStack.regs.rsp).trace ∧
    0xffff83007f4e8008 / exSymbols.STACK_SIZE ≠ 0xffff83007f4e7e10 / exSymbols.STACK_SIZE := by
  decide

/-- C22, amended: with eight 4 KiB pages per stack area, an exception frame that
fits in a page and `8 <= CPUINFO_sizeof <= STACK_SIZE`, a single `print_stack`
walk whose starting pointer `sp` is on an interrupt page (0..2), or lies in the
stack area of the `regs.rsp` of the PCPU (as `regs.rsp` itself does), stays in
the stack area of `sp`: every 8-byte word it reads starts in the
`STACK_SIZE`-aligned area that contains `sp` (on an interrupt page, in the page
of `sp`), and the walk reads at most `STACK_SIZE/8` words. -/
theorem print_stack_stays_in_area (S : Symbols) (X : StackLayout) (memory : Memory)
    (F : FrameReader) (p : x86_64PCPU) (loop_fuel depth stack : Nat)
    (hpsize : X.PAGE_SIZE = 4096) (hframe : X.sizeof_x86_64exception ≤ 4096)
    (hsize : S.STACK_SIZE = 0x8000) (hcpu : 8 ≤ S.CPUINFO_sizeof)
    (hle : S.CPUINFO_sizeof ≤ S.STACK_SIZE)
    (harea : stack_page_of (u64 stack) ≤ 2 ∨
      u64 stack / S.STACK_SIZE = u64 p.regs.rsp / S.STACK_SIZE) :
    (∃ rest, (print_stack S X memory F p loop_fuel (depth + 1) stack).trace =
      .print_stack (u64 stack) ::
        (walk_words memory p.asCPU (stack_top S X p (u64 stack)) loop_fuel (u64 stack)).trace
        ++ rest) ∧
    (∀ e ∈ (walk_words memory p.asCPU (stack_top S X p (u64 stack)) loop_fuel (u64 stack)).trace,
      ∃ a, e = StackEvent.read64_vaddr a ∧ a / S.STACK_SIZE = u64 stack / S.STACK_SIZE ∧
        (stack_page_of (u64 stack) ≤ 2 → a / X.PAGE_SIZE = u64 stack / X.PAGE_SIZE)) ∧
    (walk_words memory p.asCPU (stack_top S X p (u64 stack)) loop_fuel (u64 stack)).trace.length
      ≤ S.STACK_SIZE / 8 := by
  have h64 : (2 : Nat) ^ 64 = 18446744073709551616 := by decide
  have hsp : u64 stack < 2 ^ 64 := Nat.mod_lt _ (by decide)
  have hrsp : u64 p.regs.rsp < 2 ^ 64 := Nat.mod_lt _ (by decide)
  refine ⟨?_, ?_⟩
  · rw [print_stack]
    dsimp only
    split
    · exact ⟨[], by simp⟩
    · split
      · split
        · exact ⟨_, rfl⟩
        · split
          · exact ⟨_, by rw [List.append_assoc]⟩
          · exact ⟨_, by rw [List.append_assoc]⟩
      · exact ⟨[], by simp⟩
  by_cases hpage : stack_page_of (u64 stack) ≤ 2
  · obtain ⟨htopeq, htop⟩ := stack_top_interrupt_page S X p (u64 stack) hpsize hframe hsp hpage
    obtain ⟨hmem, hlen⟩ := walk_words_bounds memory p.asCPU (stack_top S X p (u64 stack)) htop
      loop_fuel (u64 stack)
    rw [hsize, hpsize]
    constructor
    · intro e he
      obtain ⟨a, ha, h1, h2⟩ := hmem e he
      refine ⟨a, ha, ?_, fun _ => ?_⟩ <;> omega
    · omega
  · have hsame : u64 stack / S.STACK_SIZE = u64 p.regs.rsp / S.STACK_SIZE := by
      rcases harea with h | h
      · exact absurd h hpage
      · exact h
    have h15 : (2 : Nat) ^ 15 = 32768 := by decide
    have htopeq : stack_top S X p (u64 stack)
        = 32768 * (u64 p.regs.rsp / 32768) + (32768 - S.CPUINFO_sizeof) := by
      rw [stack_top_ordinary_page S X p (u64 stack) hpage,
        cpuinfo_addr_eq S 15 p.regs.rsp (by decide) (by rw [hsize]; decide) (by omega) hle, h15,
        hsize]
    rw [hsize] at hsame hle ⊢
    have htop : stack_top S X p (u64 stack) + 8 ≤ 2 ^ 64 := by
      rw [htopeq]
      omega
    obtain ⟨hmem, hlen⟩ := walk_words_bounds memory p.asCPU (stack_top S X p (u64 stack)) htop
      loop_fuel (u64 stack)
    constructor
    · intro e he
      obtain ⟨a, ha, h1, h2⟩ := hmem e he
      refine ⟨a, ha, ?_, fun h => absurd h hpage⟩
      omega
    · omega

/-- C22 amended, on the stack pointer of the example note, on page 7 of the
stack area of the PCPU: the walk makes its 33 reads in that area. -/
theorem print_stack_stays_in_area_witness :
    (walk_words exStackMemory exParsed.asCPU
      (stack_top exSymbols exStackLayout exParsed 0xffff83007f4f7e10) 100
      0xffff83007f4f7e10).trace.length = 33 ∧
    (walk_words exStackMemory exParsed.asCPU
      (stack_top exSymbols exStackLayout exParsed 0xffff83007f4f7e10) 100
      0xffff83007f4f7e10).trace.length ≤ 0x8000 / 8 :=
  have h := print_stack_stays_in_area exSymbols exStackLayout exStackMemory exFrames exParsed 100 2
    0xffff83007f4f7e10 (by decide) (by decide) (by decide) (by decide) (by decide)
    (Or.inr (by decide))
  ⟨by decide, h.2.2⟩

end XenCrashdump
